import Mathlib

/-! RemoteDevice: a shallow embedding of the NodeMCU request/acknowledgement engine.

The development embeds `src/src/RemoteDevice.cpp` and `src/include/RemoteDevice.h`.

* Machine integers are natural numbers; every place where the C++ code narrows a
  value (`uint8_t`, `uint16_t`, `uint64_t`, `unsigned long`) carries an explicit
  `% 2^w`.  `unsigned long` is 32 bits wide on the ESP8266.
* The two packet buffers are lists of bytes.  A write outside the list is dropped
  and a read outside the list yields `0`; in C++ both are undefined behaviour, so
  the theorems that depend on buffer contents assume the accessed range fits.
* The overridable hooks (`onWiFiConnected`, `onPacketDelivered`, ...) and the
  transport primitive `sendPacket` are recorded, in call order, as an event trace.
  The application handler `onPacketReceived(command, ...)` contributes its
  response code through a function parameter and is also recorded in the trace.
  An override is taken not to call back into the engine while it runs.
* The clock (`millis()`), the link status (`WiFi.isConnected()`) and the datagrams
  the transport pump delivers are inputs of the functions that read them.
-/

namespace RemoteDevice

/-! ## Constants (RemoteDevice.cpp, lines 8-16) -/

def MAX_IDLE_TIME : Nat := 5000
def CONNECTED_SEND_INTERVAL : Nat := 1000
def DISCONNECTED_SEND_INTERVAL : Nat := 10000
def CONNECTED_SEND_COUNT : Nat := 5

def INIT : Nat := 65535
def INITACK : Nat := 65534
def MSGACK : Nat := 65533
def PING : Nat := 65532

/-- Modulus of `uint8_t`. -/
def U8 : Nat := 256
/-- Modulus of `uint16_t`. -/
def U16 : Nat := 65536
/-- Modulus of `uint64_t`. -/
def U64 : Nat := 18446744073709551616
/-- Modulus of `unsigned long` on the ESP8266 (32 bits). -/
def ULONG : Nat := 4294967296

/-! ## Data model -/

/-- An IPv4 address, as the four octets given to the `IPAddress` constructor. -/
structure IPAddress where
  a : Nat
  b : Nat
  c : Nat
  d : Nat
deriving DecidableEq, Repr

/-- The address `IPAddress(255, 255, 255, 255)`. -/
def broadcast : IPAddress := ⟨255, 255, 255, 255⟩

/-- What the engine does to the outside world: the virtual hooks of
`RemoteDevice.h` and the transport primitive `sendPacket` of `BasicUDP`. -/
inductive Event where
  | onWiFiConnected (curTime : Nat)
  | onWiFiDisconnected (curTime : Nat)
  | onServerConnected (curTime : Nat)
  | onServerDisconnected (curTime : Nat)
  | onPacketDelivered (msgId response : Nat)
  | onPacketCancelled (msgId : Nat)
  | onPacketReceived (command arg1 arg2 arg3 arg4 : Nat) (payload : List Nat)
  | sendPacket (address : IPAddress) (port : Nat) (data : List Nat)
deriving DecidableEq, Repr

/-- The response code computed by the application's override of
`onPacketReceived(command, arg1, arg2, arg3, arg4, pData, size)`. -/
abbrev AppHandler := Nat → Nat → Nat → Nat → Nat → List Nat → Nat

/-- The member variables of `class RemoteDevice` (RemoteDevice.h, lines 161-179). -/
structure State where
  serverAddress : IPAddress
  serverPort : Nat
  serverId : Nat
  deviceId : Nat
  deviceType : List Nat
  deviceVersion : Nat
  sendBuffer : List Nat
  replyPacket : List Nat
  sendBufferSize : Nat
  curMsgId : Nat
  lastReceivedMsgId : Nat
  lastResponse : Nat
  lastReceiveTime : Nat
  lastSentTime : Nat
  sentCount : Nat
  isSending : Bool
  isBlocking : Bool
  serverConnected : Bool
  wifiConnected : Bool
deriving DecidableEq, Repr

/-- A datagram handed over by the transport: source address, source port, bytes. -/
structure Datagram where
  srcAddress : IPAddress
  srcPort : Nat
  data : List Nat
deriving DecidableEq, Repr

/-! ## Wire codec (RemoteDevice.cpp, lines 399-416) -/

/-- The loop of `_writeIntegerToBuffer`:
`for (i = 0; i < size; ++i) buffer[i + index] = (uint8_t)(data >> (i * 8));`
with `data` a `uint64_t`. -/
def _writeIntegerToBuffer (buffer : List Nat) (data index size : Nat) : List Nat :=
  (List.range size).foldl
    (fun buf i => buf.set (i + index) (((data % U64) >>> (i * 8)) % U8)) buffer

/-- The loop of `_readIntegerFromBuffer`:
`for (i = size - 1; i >= 0; --i) { res <<= 8; res += buffer[i + index]; }`
with `res` a `uint64_t`. -/
def _readIntegerFromBuffer (buffer : List Nat) (index size : Nat) : Nat :=
  (List.range size).reverse.foldl
    (fun res i => ((res * 256) % U64 + buffer.getD (i + index) 0) % U64) 0

/-- The payload loop shared by `_sendPacketToServer` and `_sendReplyPacket`:
`for (int i = 0; i < size; ++i) buffer[20 + i] = pData[i];` -/
def copyPayload (buffer pData : List Nat) (size : Nat) : List Nat :=
  (List.range size).foldl (fun buf i => buf.set (20 + i) (pData.getD i 0)) buffer

/-- The six header writes at offsets 8..18 that `_sendPacketToServer`
(lines 361-366) and `_sendReplyPacket` (lines 386-391) both perform. -/
def writeHeader (buffer : List Nat) (msgId command arg1 arg2 arg3 arg4 : Nat) : List Nat :=
  let b := _writeIntegerToBuffer buffer msgId 8 2
  let b := _writeIntegerToBuffer b command 10 2
  let b := _writeIntegerToBuffer b arg1 12 2
  let b := _writeIntegerToBuffer b arg2 14 2
  let b := _writeIntegerToBuffer b arg3 16 2
  _writeIntegerToBuffer b arg4 18 2

/-! ## Outbound path -/

/-- The function `_sendPacketToServer` (lines 334-382).  `millis` is the value the
clock returns at line 377; the result is the returned id, the new state and the
events in call order. -/
def _sendPacketToServer (s : State) (millis : Nat)
    (command arg1 arg2 arg3 arg4 : Nat) (pData : List Nat) (size : Nat)
    (blocking forceSend : Bool) : Nat × State × List Event :=
  if s.isSending && s.isBlocking && !forceSend then
    (0, s, [])
  else
    let cancelled : List Event :=
      if s.isSending && decide (_readIntegerFromBuffer s.sendBuffer 10 2 ≠ PING) then
        [Event.onPacketCancelled s.curMsgId]
      else []
    let newId := if s.curMsgId = 65535 then 1 else (s.curMsgId + 1) % U16
    let buf := copyPayload (writeHeader s.sendBuffer newId command arg1 arg2 arg3 arg4) pData size
    let newSize := (20 + size) % U16
    let s1 : State :=
      { s with
        curMsgId := newId
        sendBuffer := buf
        isSending := true
        isBlocking := blocking
        sentCount := 1
        sendBufferSize := newSize
        lastSentTime := millis }
    (newId, s1, cancelled ++ [Event.sendPacket s.serverAddress s.serverPort (buf.take newSize)])

/-- The function `_sendReplyPacket` (lines 384-397). -/
def _sendReplyPacket (s : State) (msgId command arg1 arg2 arg3 arg4 : Nat)
    (pData : List Nat) (size : Nat) : State × List Event :=
  let buf := copyPayload (writeHeader s.replyPacket msgId command arg1 arg2 arg3 arg4) pData size
  ({ s with replyPacket := buf },
   [Event.sendPacket s.serverAddress s.serverPort (buf.take (20 + size))])

/-- The overload `sendPacketToServer(command, arg1..arg4, const char* str)`
(lines 288-296); `str` is the string without its terminator. -/
def sendPacketToServer_str (s : State) (millis : Nat)
    (command arg1 arg2 arg3 arg4 : Nat) (str : List Nat) : Nat × State × List Event :=
  _sendPacketToServer s millis command arg1 arg2 arg3 arg4 str (str.length % U16) true false

/-- The function `begin(port, serverPort, serverId)` (lines 33-52).  The fields the
function does not assign keep the values they had; binding the socket
(`BasicUDP::begin`) has no effect on this state. -/
def begin (s : State) (millis : Nat) (_port serverPort serverId : Nat) : State × List Event :=
  let s1 : State :=
    { s with
      serverAddress := broadcast
      serverPort := serverPort
      serverId := serverId
      serverConnected := false
      wifiConnected := false
      isSending := false
      lastReceiveTime := 0
      lastSentTime := 0
      curMsgId := 0 }
  let s2 : State :=
    { s1 with sendBuffer := _writeIntegerToBuffer s1.sendBuffer s1.deviceId 0 8 }
  let s3 : State :=
    { s2 with replyPacket := _writeIntegerToBuffer s2.replyPacket s2.deviceId 0 8 }
  (sendPacketToServer_str s3 millis INIT s3.deviceVersion s3.serverId 0 0 s3.deviceType).2

/-! ## Inbound dispatcher (RemoteDevice.cpp, lines 119-265) -/

/-- The function `onPacketReceived(curTime, srcAddress, srcPort, pData, size)`;
`size` is the length of the datagram. -/
def onPacketReceived (app : AppHandler) (s : State) (curTime : Nat)
    (srcAddress : IPAddress) (_srcPort : Nat) (pData : List Nat) : State × List Event :=
  let size := pData.length
  let e0 : List Event := if s.wifiConnected then [] else [Event.onWiFiConnected curTime]
  let s0 : State := { s with wifiConnected := true }
  if size < 20 then (s0, e0)
  else if s0.deviceId ≠ _readIntegerFromBuffer pData 0 8 then (s0, e0)
  else
    let e1 : List Event :=
      if s0.serverConnected then e0 else e0 ++ [Event.onServerConnected curTime]
    let s1 : State :=
      if s0.serverConnected then s0
      else { s0 with sentCount := 0, serverConnected := true, serverAddress := srcAddress }
    let s2 : State := { s1 with lastReceiveTime := curTime }
    let msgId := _readIntegerFromBuffer pData 8 2 % U16
    let command := _readIntegerFromBuffer pData 10 2 % U16
    if command = INIT ∨ command = INITACK then
      let s3 : State := { s2 with lastReceivedMsgId := 0, sentCount := 0 }
      if command = INIT then
        let r := _sendReplyPacket s3 msgId INITACK s3.deviceVersion s3.serverId 0 0
          s3.deviceType (s3.deviceType.length % U16)
        (r.1, e1 ++ r.2)
      else
        ({ s3 with isSending := false }, e1)
    else if command = PING then
      let r := _sendReplyPacket s2 msgId MSGACK 0 0 0 0 [] 0
      (r.1, e1 ++ r.2)
    else if command = MSGACK then
      if s2.isSending && decide (msgId = s2.curMsgId) then
        let s3 : State := { s2 with isSending := false, sentCount := 0 }
        if _readIntegerFromBuffer s3.sendBuffer 10 2 ≠ PING then
          let response := _readIntegerFromBuffer pData 12 2 % U16
          (s3, e1 ++ [Event.onPacketDelivered s3.curMsgId response])
        else (s3, e1)
      else (s2, e1)
    else if msgId > s2.lastReceivedMsgId ∨ (s2.lastReceivedMsgId : Int) - (msgId : Int) > 30000 then
      let s3 : State := { s2 with lastReceivedMsgId := msgId }
      let arg1 := _readIntegerFromBuffer pData 12 2 % U16
      let arg2 := _readIntegerFromBuffer pData 14 2 % U16
      let arg3 := _readIntegerFromBuffer pData 16 2 % U16
      let arg4 := _readIntegerFromBuffer pData 18 2 % U16
      let payload := pData.drop 20
      let s4 : State :=
        { s3 with lastResponse := app command arg1 arg2 arg3 arg4 payload % U16 }
      let r := _sendReplyPacket s4 msgId MSGACK s4.lastResponse 0 0 0 [] 0
      (r.1, e1 ++ [Event.onPacketReceived command arg1 arg2 arg3 arg4 payload] ++ r.2)
    else if msgId = s2.lastReceivedMsgId then
      let r := _sendReplyPacket s2 msgId MSGACK s2.lastResponse 0 0 0 [] 0
      (r.1, e1 ++ r.2)
    else (s2, e1)

/-! ## Periodic tick (RemoteDevice.cpp, lines 54-112) -/

/-- The wrap-around subtraction `a - b` of two `unsigned long` values. -/
def ulongSub (a b : Nat) : Nat := (a % ULONG + ULONG - b % ULONG) % ULONG

/-- Modelled from the spec: the pump `BasicUDP::update(curTime)` of the transport
base class, whose source is not part of the repository files.  It invokes the
inbound entry point once per arrived datagram, synchronously, with
`(now, sourceAddress, sourcePort, bytes)`. -/
def BasicUDP_update (app : AppHandler) (s : State) (curTime : Nat)
    (arrived : List Datagram) : State × List Event :=
  arrived.foldl
    (fun acc d =>
      let r := onPacketReceived app acc.1 curTime d.srcAddress d.srcPort d.data
      (r.1, acc.2 ++ r.2))
    (s, [])

/-- The function `update(curTime)`.  `wifiIsConnected` is the value of
`WiFi.isConnected()` at line 56, `arrived` the datagrams the pump delivers at
line 63 and `millis` the clock value read by the keepalive send at line 95. -/
def update (app : AppHandler) (s : State) (wifiIsConnected : Bool) (curTime : Nat)
    (arrived : List Datagram) (millis : Nat) : State × List Event :=
  if wifiIsConnected then
    let e0 : List Event := if s.wifiConnected then [] else [Event.onWiFiConnected curTime]
    let s0 : State := { s with wifiConnected := true }
    let r := BasicUDP_update app s0 curTime arrived
    let s1 := r.1
    let e1 := e0 ++ r.2
    if s1.isSending then
      let timeSinceLastSend := ulongSub curTime s1.lastSentTime
      let interval :=
        if s1.serverConnected then CONNECTED_SEND_INTERVAL else DISCONNECTED_SEND_INTERVAL
      if timeSinceLastSend > interval then
        if s1.serverConnected && decide (s1.sentCount ≥ CONNECTED_SEND_COUNT) then
          ({ s1 with serverConnected := false, serverAddress := broadcast },
           e1 ++ [Event.onServerDisconnected curTime])
        else
          let s2 : State :=
            { s1 with sentCount := (s1.sentCount + 1) % U8, lastSentTime := curTime }
          (s2, e1 ++ [Event.sendPacket s2.serverAddress s2.serverPort
                        (s2.sendBuffer.take s2.sendBufferSize)])
      else (s1, e1)
    else
      let timeSinceLastReceive := ulongSub curTime s1.lastReceiveTime
      if timeSinceLastReceive ≥ MAX_IDLE_TIME then
        let r := _sendPacketToServer s1 millis PING 0 0 0 0 [] 0 false false
        (r.2.1, e1 ++ r.2.2)
      else (s1, e1)
  else if s.wifiConnected then
    let s0 : State := { s with wifiConnected := false }
    if s0.serverConnected then
      ({ s0 with serverConnected := false },
       [Event.onServerDisconnected curTime, Event.onWiFiDisconnected curTime])
    else (s0, [Event.onWiFiDisconnected curTime])
  else (s, [])

/-- A run of ticks with the link up and no datagram arriving; each tick is the
pair `(curTime, millis)`. -/
def quietRun (app : AppHandler) (s : State) : List (Nat × Nat) → State × List Event
  | [] => (s, [])
  | t :: ts =>
    let r := update app s true t.1 [] t.2
    let r2 := quietRun app r.1 ts
    (r2.1, r.2 ++ r2.2)

/-! ## Observations on event traces -/

/-- The transmissions of a trace. -/
def transmissions (evs : List Event) : List Event :=
  evs.filter (fun e => match e with | Event.sendPacket _ _ _ => true | _ => false)

/-- The invocations of the application handler in a trace. -/
def handlerCalls (evs : List Event) : List Event :=
  evs.filter (fun e => match e with | Event.onPacketReceived _ _ _ _ _ _ => true | _ => false)

/-- The packet-delivered notifications of a trace. -/
def delivered (evs : List Event) : List Event :=
  evs.filter (fun e => match e with | Event.onPacketDelivered _ _ => true | _ => false)

/-- The packet-cancelled notifications of a trace. -/
def cancelled (evs : List Event) : List Event :=
  evs.filter (fun e => match e with | Event.onPacketCancelled _ => true | _ => false)

/-! ## Concrete scenarios -/

/-- A datagram as the peer builds it: the device id in bytes 0..7, the six 16-bit
header fields, then the payload, written with the primitives the device uses. -/
def mkPacket (deviceId msgId command arg1 arg2 arg3 arg4 : Nat) (payload : List Nat) : List Nat :=
  writeHeader (_writeIntegerToBuffer (List.replicate 20 0) deviceId 0 8)
    msgId command arg1 arg2 arg3 arg4 ++ payload

/-- An example device as constructed: id 7, type bytes 65 66, version 3, 64-byte buffers,
all other fields zero. -/
def dev0 : State :=
  { serverAddress := broadcast, serverPort := 4000, serverId := 0, deviceId := 7,
    deviceType := [65, 66], deviceVersion := 3,
    sendBuffer := List.replicate 64 0, replyPacket := List.replicate 64 0,
    sendBufferSize := 0, curMsgId := 0, lastReceivedMsgId := 0, lastResponse := 0,
    lastReceiveTime := 0, lastSentTime := 0, sentCount := 0,
    isSending := false, isBlocking := false, serverConnected := false,
    wifiConnected := false }

/-- An application handler answering every command with `42`. -/
def app42 : AppHandler := fun _ _ _ _ _ _ => 42

/-- The address `192.168.1.10`. -/
def peer : IPAddress := ⟨192, 168, 1, 10⟩

/-! ## Vocabulary of the statements -/

/-- Little-endian layout: the `w` bytes of `d` from offset `off` are the base-256
digits of `v`, least significant first. -/
def fieldAt (d : List Nat) (off w v : Nat) : Prop :=
  ∀ k, k < w → d[off + k]? = some ((v / 256 ^ k) % 256)

/-- The `msgId` the dispatcher extracts at line 158. -/
def pktMsgId (pData : List Nat) : Nat := _readIntegerFromBuffer pData 8 2 % U16

/-- The `command` the dispatcher extracts at line 159. -/
def pktCommand (pData : List Nat) : Nat := _readIntegerFromBuffer pData 10 2 % U16

/-- The 16-bit argument the dispatcher extracts at offset `12 + 2 * i`. -/
def pktArg (pData : List Nat) (i : Nat) : Nat :=
  _readIntegerFromBuffer pData (12 + 2 * i) 2 % U16

/-- A datagram that passes the two guards of lines 130-144: at least 20 bytes and
the device id of this device in bytes 0..7. -/
def wellFormed (s : State) (pData : List Nat) : Prop :=
  20 ≤ pData.length ∧ _readIntegerFromBuffer pData 0 8 = s.deviceId

/-- A command value outside the four reserved ones. -/
def isAppCommand (c : Nat) : Prop := c ≠ INIT ∧ c ≠ INITACK ∧ c ≠ MSGACK ∧ c ≠ PING

/-- The six 16-bit header fields of a datagram after the device id, decoded with
`_readIntegerFromBuffer`: msgId, command, arg1, arg2, arg3, arg4. -/
def headerOf (d : List Nat) : Nat × Nat × Nat × Nat × Nat × Nat :=
  (_readIntegerFromBuffer d 8 2, _readIntegerFromBuffer d 10 2,
   _readIntegerFromBuffer d 12 2, _readIntegerFromBuffer d 14 2,
   _readIntegerFromBuffer d 16 2, _readIntegerFromBuffer d 18 2)

/-- The state the dispatcher has reached at line 156, after the link and session
bookkeeping of lines 122-155, for a datagram that passed both guards. -/
def sessionUp (s : State) (curTime : Nat) (srcAddress : IPAddress) : State :=
  if s.serverConnected then
    { s with wifiConnected := true, lastReceiveTime := curTime }
  else
    { s with wifiConnected := true, sentCount := 0, serverConnected := true,
             serverAddress := srcAddress, lastReceiveTime := curTime }

/-- The notifications fired by lines 122-152 for a datagram that passed both guards. -/
def sessionEvents (s : State) (curTime : Nat) : List Event :=
  (if s.wifiConnected then [] else [Event.onWiFiConnected curTime]) ++
  (if s.serverConnected then [] else [Event.onServerConnected curTime])

/-- The acceptance test of line 216, on the incoming id and the cached id. -/
def isNewMsg (msgId lastReceivedMsgId : Nat) : Prop :=
  msgId > lastReceivedMsgId ∨ (lastReceivedMsgId : Int) - (msgId : Int) > 30000

instance (m l : Nat) : Decidable (isNewMsg m l) := by
  unfold isNewMsg
  infer_instance

/-- The response code the application handler returns for the command carried by
`pData`, narrowed to `uint16_t` as stored in `_lastResponse` (line 236). -/
def appResult (app : AppHandler) (pData : List Nat) : Nat :=
  app (pktCommand pData) (pktArg pData 0) (pktArg pData 1) (pktArg pData 2) (pktArg pData 3)
    (pData.drop 20) % U16

/-- The handler invocation of line 236 for the command carried by `pData`. -/
def handlerCall (pData : List Nat) : Event :=
  Event.onPacketReceived (pktCommand pData) (pktArg pData 0) (pktArg pData 1)
    (pktArg pData 2) (pktArg pData 3) (pData.drop 20)

/-- The address `_sendReplyPacket` transmits to when it answers a datagram from
`srcAddress`: the value of `_serverAddress` after lines 146-152. -/
def replyDest (s : State) (srcAddress : IPAddress) : IPAddress :=
  if s.serverConnected then s.serverAddress else srcAddress

instance (s : State) (pData : List Nat) : Decidable (wellFormed s pData) := by
  unfold wellFormed
  infer_instance

instance (c : Nat) : Decidable (isAppCommand c) := by
  unfold isAppCommand
  infer_instance

/-- The device `dev0` with the cached inbound id set to 65000. -/
def dev65000 : State := { dev0 with lastReceivedMsgId := 65000 }

/-- Application command 5 with id 10 for device 7. -/
def pkt10 : List Nat := mkPacket 7 10 5 1 2 3 4 [9, 9]

/-- Application command 5 with id 64000 for device 7. -/
def pkt64000 : List Nat := mkPacket 7 64000 5 1 2 3 4 [9, 9]

/-- Application command 5 with id 1 for device 7. -/
def pkt1 : List Nat := mkPacket 7 1 5 0 0 0 0 []

/-- Application command 5 with id 2 for device 7. -/
def pkt2 : List Nat := mkPacket 7 2 5 0 0 0 0 []

/-- Application command 5 with id 40000 for device 7. -/
def pkt40000 : List Nat := mkPacket 7 40000 5 0 0 0 0 []

/-- The state of `dev0` after the command with id 1 was delivered. -/
def dev0_after1 : State := (onPacketReceived app42 dev0 1 peer 1 pkt1).1

/-- The state of `dev0` after the commands with ids 1 and 2 were delivered. -/
def dev0_after1_2 : State := (onPacketReceived app42 dev0_after1 2 peer 1 pkt2).1

/-- The state of `dev0` after the commands with ids 1 and 40000 were delivered. -/
def dev0_after1_40000 : State := (onPacketReceived app42 dev0_after1 2 peer 1 pkt40000).1

/-- A well-formed INITACK with id 9 for device 7. -/
def initack9 : List Nat := mkPacket 7 9 INITACK 0 0 0 0 []

/-- The device `dev0` after `begin` and the INITACK of the server at `peer`: the
handshake is complete and the server session is up. -/
def dev0_connected : State :=
  (onPacketReceived app42 (begin dev0 0 1 4000 0).1 50 peer 4000 initack9).1

/-- The state of `dev0_connected` after it sent command 7 with arguments
(1, 2, 3, 4) at 100 ms; the message gets id 2. -/
def dev0_sent7 : State :=
  (_sendPacketToServer dev0_connected 100 7 1 2 3 4 [] 0 true false).2.1

/-- The MSGACK for id 2 carrying response code 42, for device 7. -/
def ack2_42 : List Nat := mkPacket 7 2 MSGACK 42 0 0 0 []

/-- Four ticks, each 1001 ms after the previous transmission (the send is at 100). -/
def ticks4 : List (Nat × Nat) := [(1101, 1101), (2102, 2102), (3103, 3103), (4104, 4104)]

/-! ## Reachable states -/

/-- An object as the constructor (lines 21-26) leaves it: a 64-bit device id, a
16-bit version, and two packet buffers of the capacity `_MAX_PACKET_SIZE`.  That
constant comes from `BasicUDP.h` and is taken as a parameter, the length of the
buffers; it holds at least a header and is itself a 16-bit size, as every packet
size in the interface is a `uint16_t`. -/
def constructed (s0 : State) : Prop :=
  s0.deviceId < U64 ∧ s0.deviceVersion < U16 ∧
  20 ≤ s0.sendBuffer.length ∧ s0.sendBuffer.length < U16 ∧
  s0.replyPacket.length = s0.sendBuffer.length

instance (s0 : State) : Decidable (constructed s0) := by
  unfold constructed
  infer_instance

/-- The states a device can be in after `begin`: `begin` on a constructed object,
followed by any sequence of ticks (each delivering any datagrams) and send
calls. -/
inductive Reachable (app : AppHandler) : State → Prop where
  | begin (s0 : State) (millis port serverPort serverId : Nat) :
      constructed s0 → Reachable app (begin s0 millis port serverPort serverId).1
  | update (s : State) (wifiIsConnected : Bool) (curTime : Nat) (arrived : List Datagram)
      (millis : Nat) :
      Reachable app s → Reachable app (update app s wifiIsConnected curTime arrived millis).1
  | send (s : State) (millis command arg1 arg2 arg3 arg4 : Nat) (pData : List Nat)
      (size : Nat) (blocking forceSend : Bool) :
      Reachable app s →
      Reachable app
        (_sendPacketToServer s millis command arg1 arg2 arg3 arg4 pData size blocking
          forceSend).2.1

/-- The part of the state the wire format of outbound packets depends on: the
device id is a 64-bit value stored little-endian in bytes 0..7 of the send buffer,
`curMsgId` is a 16-bit value, and the buffer has its capacity. -/
def sendInv (s : State) : Prop :=
  s.deviceId < U64 ∧ fieldAt s.sendBuffer 0 8 s.deviceId ∧ s.curMsgId < U16 ∧
  20 ≤ s.sendBuffer.length ∧ s.sendBuffer.length < U16

/-- A datagram of three bytes, too short for a header. -/
def shortDatagram : List Nat := [1, 2, 3]

/-- The device `dev0` right after `begin`: the link is not yet known to be up. -/
def dev0_begun : State := (begin dev0 0 1 4000 0).1

/-! ## Public send overloads (RemoteDevice.cpp, lines 267-332) -/

/-- The overload `sendPacketToServer(command, arg1..arg4, pData, size)`
(lines 267-276). -/
def sendPacketToServer_data (s : State) (millis : Nat)
    (command arg1 arg2 arg3 arg4 : Nat) (pData : List Nat) (size : Nat) :
    Nat × State × List Event :=
  _sendPacketToServer s millis command arg1 arg2 arg3 arg4 pData size true false

/-- The overload `sendPacketToServer(command, arg1..arg4)` (lines 279-286). -/
def sendPacketToServer_plain (s : State) (millis : Nat)
    (command arg1 arg2 arg3 arg4 : Nat) : Nat × State × List Event :=
  _sendPacketToServer s millis command arg1 arg2 arg3 arg4 [] 0 true false

/-- The overload `sendPacketToServer(command, arg1..arg4, pData, size, blocking,
forceSend)` (lines 298-309). -/
def sendPacketToServer_data_flags (s : State) (millis : Nat)
    (command arg1 arg2 arg3 arg4 : Nat) (pData : List Nat) (size : Nat)
    (blocking forceSend : Bool) : Nat × State × List Event :=
  _sendPacketToServer s millis command arg1 arg2 arg3 arg4 pData size blocking forceSend

/-- The overload `sendPacketToServer(command, arg1..arg4, blocking, forceSend)`
(lines 311-320).  Its body is
`return _sendPacketToServer(command, arg1, arg2, arg3, arg4, 0, 0, true, false);`:
the two flag parameters are not used. -/
def sendPacketToServer_flags (s : State) (millis : Nat)
    (command arg1 arg2 arg3 arg4 : Nat) (_blocking _forceSend : Bool) :
    Nat × State × List Event :=
  _sendPacketToServer s millis command arg1 arg2 arg3 arg4 [] 0 true false

/-- The overload `sendPacketToServer(command, arg1..arg4, const char* str, blocking,
forceSend)` (lines 322-332); `str` is the string without its terminator. -/
def sendPacketToServer_str_flags (s : State) (millis : Nat)
    (command arg1 arg2 arg3 arg4 : Nat) (str : List Nat) (blocking forceSend : Bool) :
    Nat × State × List Event :=
  _sendPacketToServer s millis command arg1 arg2 arg3 arg4 str (str.length % U16)
    blocking forceSend

/-- The address `10.0.0.5`, not the server's. -/
def stranger : IPAddress := ⟨10, 0, 0, 5⟩

/-- A well-formed PING with id 3 for device 7. -/
def ping3 : List Nat := mkPacket 7 3 PING 0 0 0 0 []

/-- The device `dev0` after `begin` and a tick at 50 ms with the link up that
delivers the server's INITACK from `peer`: link and server session are up. -/
def dev0_online : State :=
  (update app42 dev0_begun true 50 [⟨peer, 4000, initack9⟩] 50).1

/-- The device `dev0_online` after a tick at 60 ms that finds the link down. -/
def dev0_linkLost : State := (update app42 dev0_online false 60 [] 60).1

/-! ## Connectivity notifications in a trace -/

/-- The link-up notifications of a trace. -/
def linkUps (evs : List Event) : List Event :=
  evs.filter (fun e => match e with | Event.onWiFiConnected _ => true | _ => false)

/-- The link-down notifications of a trace. -/
def linkDowns (evs : List Event) : List Event :=
  evs.filter (fun e => match e with | Event.onWiFiDisconnected _ => true | _ => false)

/-- The server-session-up notifications of a trace. -/
def serverUps (evs : List Event) : List Event :=
  evs.filter (fun e => match e with | Event.onServerConnected _ => true | _ => false)

/-- The server-session-down notifications of a trace. -/
def serverDowns (evs : List Event) : List Event :=
  evs.filter (fun e => match e with | Event.onServerDisconnected _ => true | _ => false)

/-- Whether an event is one of the four connectivity notifications. -/
def isConnectivity : Event → Bool
  | Event.onWiFiConnected _ => true
  | Event.onWiFiDisconnected _ => true
  | Event.onServerConnected _ => true
  | Event.onServerDisconnected _ => true
  | _ => false

/-- Ticks number 1 to `n`, the `k`-th at time `k * step`. -/
def ticksEvery (n step : Nat) : List (Nat × Nat) :=
  (List.range n).map (fun k => ((k + 1) * step, (k + 1) * step))

/-- The device `dev0` after `begin` at 0 ms and 254 ticks, 10001 ms apart, with the link
up and no answer from any server: the INIT was transmitted 255 times. -/
def dev0_sent255 : State := (quietRun app42 dev0_begun (ticksEvery 254 10001)).1

/-- The device `dev0_sent7` after the four ticks of `ticks4`: command 7 was
transmitted five times, the server session is still connected. -/
def dev0_sent5times : State := (quietRun app42 dev0_sent7 ticks4).1

/-- Application command 5 with id 0 for device 7. -/
def pkt0 : List Nat := mkPacket 7 0 5 1 2 3 4 []

/-- The device `dev0_connected` after it handled the command with id 10 (cached
response 42) and then a further INITACK, which resets the cached id to 0. -/
def dev0_reset : State :=
  (onPacketReceived app42 (onPacketReceived app42 dev0_connected 60 peer 1 pkt10).1 70 peer 1
    initack9).1

/-- The time of the most recent transmission in a run of ticks with the link up and
no datagram arriving, read off the traces of the ticks: `sendTime`, the time of the
transmission before the run, while no tick of the run has transmitted, and else the
time of the last tick whose trace holds a transmission. -/
def lastTransmissionTime (app : AppHandler) (s : State) (sendTime : Nat) :
    List (Nat × Nat) → Nat
  | [] => sendTime
  | t :: ts =>
    lastTransmissionTime app (update app s true t.1 [] t.2).1
      (if transmissions (update app s true t.1 [] t.2).2 = [] then sendTime else t.1) ts


/-- Nine ticks after the send of `dev0_sent7` at 100 ms: alternately exactly 1000 ms
and 1001 ms after the previous transmission. -/
def ticks9 : List (Nat × Nat) :=
  [(1100, 1100), (1101, 1101), (2101, 2101), (2102, 2102), (3102, 3102), (3103, 3103),
   (4103, 4103), (4104, 4104), (5104, 5104)]

/-- The state of `dev0_connected` after it sent command 7 at 4294967000 ms, 296 ms
before the 32-bit millisecond clock wraps to 0. -/
def dev0_sentLate : State :=
  (_sendPacketToServer dev0_connected 4294967000 7 1 2 3 4 [] 0 true false).2.1

/-- The connected device with its last reception at 4294967196 ms, 100 ms before
the 32-bit millisecond clock wraps to 0. -/
def dev0_heardLate : State :=
  (onPacketReceived app42 dev0_connected 4294967196 peer 4000 ping3).1

/-- A 20-byte PING with id 3 addressed to device 8, not to `dev0`. -/
def pingFor8 : List Nat := mkPacket 8 3 PING 0 0 0 0 []

/-! # Theorems -/

/-! ## Wire codec lemmas -/

theorem writeInt_succ (b : List Nat) (v i n : Nat) :
    _writeIntegerToBuffer b v i (n + 1) =
      (_writeIntegerToBuffer b v i n).set (n + i) (((v % U64) >>> (n * 8)) % U8) := by
  simp [_writeIntegerToBuffer, List.range_succ, List.foldl_append]

theorem getElem?_writeInt (b : List Nat) (v i n j : Nat) :
    (_writeIntegerToBuffer b v i n)[j]? =
      if i ≤ j ∧ j < i + n then (b[j]?).map (fun _ => ((v % U64) >>> ((j - i) * 8)) % U8)
      else b[j]? := by
  induction n with
  | zero =>
    have h0 : ¬ (i ≤ j ∧ j < i + 0) := by omega
    rw [if_neg h0]
    simp [_writeIntegerToBuffer]
  | succ n ih =>
    rw [writeInt_succ, List.getElem?_set', ih]
    by_cases h1 : n + i = j
    · subst h1
      have h2 : i ≤ n + i ∧ n + i < i + (n + 1) := by omega
      have h3 : ¬ (i ≤ n + i ∧ n + i < i + n) := by omega
      rw [if_pos rfl, if_pos h2, if_neg h3, Nat.add_sub_cancel]
      rfl
    · rw [if_neg h1]
      by_cases h4 : i ≤ j ∧ j < i + n
      · have h5 : i ≤ j ∧ j < i + (n + 1) := by omega
        rw [if_pos h4, if_pos h5]
      · have h5 : ¬ (i ≤ j ∧ j < i + (n + 1)) := by omega
        rw [if_neg h4, if_neg h5]

theorem length_writeInt (b : List Nat) (v i n : Nat) :
    (_writeIntegerToBuffer b v i n).length = b.length := by
  induction n with
  | zero => simp [_writeIntegerToBuffer]
  | succ n ih => rw [writeInt_succ, List.length_set, ih]

theorem copyPayload_succ (b p : List Nat) (n : Nat) :
    copyPayload b p (n + 1) = (copyPayload b p n).set (20 + n) (p.getD n 0) := by
  simp [copyPayload, List.range_succ, List.foldl_append]

theorem getElem?_copyPayload (b p : List Nat) (n j : Nat) :
    (copyPayload b p n)[j]? =
      if 20 ≤ j ∧ j < 20 + n then (b[j]?).map (fun _ => p.getD (j - 20) 0) else b[j]? := by
  induction n with
  | zero =>
    have h0 : ¬ (20 ≤ j ∧ j < 20 + 0) := by omega
    rw [if_neg h0]
    simp [copyPayload]
  | succ n ih =>
    rw [copyPayload_succ, List.getElem?_set', ih]
    by_cases h1 : 20 + n = j
    · subst h1
      have h2 : 20 ≤ 20 + n ∧ 20 + n < 20 + (n + 1) := by omega
      have h3 : ¬ (20 ≤ 20 + n ∧ 20 + n < 20 + n) := by omega
      rw [if_pos rfl, if_pos h2, if_neg h3, Nat.add_sub_cancel_left]
      rfl
    · rw [if_neg h1]
      by_cases h4 : 20 ≤ j ∧ j < 20 + n
      · have h5 : 20 ≤ j ∧ j < 20 + (n + 1) := by omega
        rw [if_pos h4, if_pos h5]
      · have h5 : ¬ (20 ≤ j ∧ j < 20 + (n + 1)) := by omega
        rw [if_neg h4, if_neg h5]

theorem length_copyPayload (b p : List Nat) (n : Nat) :
    (copyPayload b p n).length = b.length := by
  induction n with
  | zero => simp [copyPayload]
  | succ n ih => rw [copyPayload_succ, List.length_set, ih]

theorem copyPayload_zero (b p : List Nat) : copyPayload b p 0 = b := by
  simp [copyPayload]

theorem length_writeHeader (b : List Nat) (m c a1 a2 a3 a4 : Nat) :
    (writeHeader b m c a1 a2 a3 a4).length = b.length := by
  simp [writeHeader, length_writeInt]

theorem read2 (b : List Nat) (i : Nat) :
    _readIntegerFromBuffer b i 2 = (b.getD i 0 + b.getD (i + 1) 0 * 256) % U64 := by
  simp only [_readIntegerFromBuffer, List.range_succ, List.range_zero, List.nil_append,
    List.reverse_append, List.reverse_cons, List.reverse_nil, List.singleton_append,
    List.foldl_cons, List.foldl_nil, U64, Nat.zero_add, Nat.zero_mul, Nat.zero_mod]
  rw [Nat.add_comm 1 i]
  omega

theorem shiftByte (v k : Nat) (hv : v < U64) : ((v % U64) >>> (k * 8)) % U8 = (v / 256 ^ k) % 256 := by
  rw [Nat.mod_eq_of_lt hv, Nat.shiftRight_eq_div_pow, Nat.mul_comm, Nat.pow_mul]
  rfl

theorem fieldAt_writeInt (b : List Nat) (v i n : Nat) (hv : v < U64) (hb : i + n ≤ b.length) :
    fieldAt (_writeIntegerToBuffer b v i n) i n v := by
  intro k hk
  have h1 : i ≤ i + k ∧ i + k < i + n := by omega
  have h2 : i + k < b.length := by omega
  rw [getElem?_writeInt, if_pos h1, List.getElem?_eq_getElem h2, Nat.add_sub_cancel_left,
    shiftByte v k hv]
  rfl

theorem read2_of_fieldAt (d : List Nat) (i v : Nat) (h : fieldAt d i 2 v) (hv : v < 65536) :
    _readIntegerFromBuffer d i 2 = v := by
  have h0 := h 0 (by omega)
  have h1 := h 1 (by omega)
  rw [read2]
  simp only [List.getD_eq_getElem?_getD, U64]
  simp only [Nat.add_zero] at h0
  rw [h0, h1]
  simp only [Option.getD_some, pow_zero, pow_one, Nat.div_one]
  omega

theorem read8 (b : List Nat) (i : Nat) :
    _readIntegerFromBuffer b i 8 =
      (b.getD i 0 + 256 * (b.getD (i + 1) 0 + 256 * (b.getD (i + 2) 0 + 256 * (b.getD (i + 3) 0
        + 256 * (b.getD (i + 4) 0 + 256 * (b.getD (i + 5) 0 + 256 * (b.getD (i + 6) 0
        + 256 * b.getD (i + 7) 0))))))) % U64 := by
  simp only [_readIntegerFromBuffer, List.range_succ, List.range_zero, List.nil_append,
    List.reverse_append, List.reverse_cons, List.reverse_nil, List.singleton_append,
    List.foldl_cons, List.foldl_nil, List.append_assoc, List.cons_append,
    U64, Nat.zero_add, Nat.zero_mul, Nat.zero_mod]
  rw [Nat.add_comm 1 i, Nat.add_comm 2 i, Nat.add_comm 3 i, Nat.add_comm 4 i,
    Nat.add_comm 5 i, Nat.add_comm 6 i, Nat.add_comm 7 i]
  omega

theorem le_bytes8 (v : Nat) (hv : v < 18446744073709551616) :
    (v % 256 + 256 * (v / 256 % 256 + 256 * (v / 65536 % 256 + 256 * (v / 16777216 % 256
      + 256 * (v / 4294967296 % 256 + 256 * (v / 1099511627776 % 256
      + 256 * (v / 281474976710656 % 256 + 256 * (v / 72057594037927936 % 256))))))))
      % 18446744073709551616 = v := by
  omega

theorem read8_of_fieldAt (d : List Nat) (i v : Nat) (h : fieldAt d i 8 v) (hv : v < U64) :
    _readIntegerFromBuffer d i 8 = v := by
  have h0 := h 0 (by omega)
  have h1 := h 1 (by omega)
  have h2 := h 2 (by omega)
  have h3 := h 3 (by omega)
  have h4 := h 4 (by omega)
  have h5 := h 5 (by omega)
  have h6 := h 6 (by omega)
  have h7 := h 7 (by omega)
  rw [read8]
  simp only [List.getD_eq_getElem?_getD]
  simp only [Nat.add_zero] at h0
  rw [h0, h1, h2, h3, h4, h5, h6, h7]
  simp only [Option.getD_some]
  have e := le_bytes8 v hv
  norm_num at e ⊢
  exact e

theorem fieldAt_writeInt_other (b : List Nat) (x i n o w v : Nat)
    (h : fieldAt b o w v) (hd : o + w ≤ i ∨ i + n ≤ o) :
    fieldAt (_writeIntegerToBuffer b x i n) o w v := by
  intro k hk
  have h1 : ¬ (i ≤ o + k ∧ o + k < i + n) := by omega
  rw [getElem?_writeInt, if_neg h1]
  exact h k hk

theorem fieldAt_copyPayload_other (b p : List Nat) (n o w v : Nat)
    (h : fieldAt b o w v) (hd : o + w ≤ 20) :
    fieldAt (copyPayload b p n) o w v := by
  intro k hk
  have h1 : ¬ (20 ≤ o + k ∧ o + k < 20 + n) := by omega
  rw [getElem?_copyPayload, if_neg h1]
  exact h k hk

theorem fieldAt_take (b : List Nat) (t o w v : Nat)
    (h : fieldAt b o w v) (hd : o + w ≤ t) :
    fieldAt (b.take t) o w v := by
  intro k hk
  have h1 : o + k < t := by omega
  rw [List.getElem?_take_of_lt h1]
  exact h k hk

theorem fieldAt_writeHeader (b : List Nat) (m c a1 a2 a3 a4 : Nat) (hb : 20 ≤ b.length)
    (hm : m < U16) (hc : c < U16) (h1 : a1 < U16) (h2 : a2 < U16) (h3 : a3 < U16)
    (h4 : a4 < U16) :
    fieldAt (writeHeader b m c a1 a2 a3 a4) 8 2 m ∧
    fieldAt (writeHeader b m c a1 a2 a3 a4) 10 2 c ∧
    fieldAt (writeHeader b m c a1 a2 a3 a4) 12 2 a1 ∧
    fieldAt (writeHeader b m c a1 a2 a3 a4) 14 2 a2 ∧
    fieldAt (writeHeader b m c a1 a2 a3 a4) 16 2 a3 ∧
    fieldAt (writeHeader b m c a1 a2 a3 a4) 18 2 a4 := by
  have big : ∀ x, x < U16 → x < U64 := by
    intro x hx
    simp only [U16, U64] at *
    omega
  simp only [writeHeader]
  refine ⟨?_, ?_, ?_, ?_, ?_, ?_⟩
  · refine fieldAt_writeInt_other _ _ _ _ _ _ _ ?_ (by omega)
    refine fieldAt_writeInt_other _ _ _ _ _ _ _ ?_ (by omega)
    refine fieldAt_writeInt_other _ _ _ _ _ _ _ ?_ (by omega)
    refine fieldAt_writeInt_other _ _ _ _ _ _ _ ?_ (by omega)
    refine fieldAt_writeInt_other _ _ _ _ _ _ _ ?_ (by omega)
    exact fieldAt_writeInt _ _ _ _ (big _ hm) (by omega)
  · refine fieldAt_writeInt_other _ _ _ _ _ _ _ ?_ (by omega)
    refine fieldAt_writeInt_other _ _ _ _ _ _ _ ?_ (by omega)
    refine fieldAt_writeInt_other _ _ _ _ _ _ _ ?_ (by omega)
    refine fieldAt_writeInt_other _ _ _ _ _ _ _ ?_ (by omega)
    exact fieldAt_writeInt _ _ _ _ (big _ hc) (by first | omega | (simp only [length_writeInt]; omega))
  · refine fieldAt_writeInt_other _ _ _ _ _ _ _ ?_ (by omega)
    refine fieldAt_writeInt_other _ _ _ _ _ _ _ ?_ (by omega)
    refine fieldAt_writeInt_other _ _ _ _ _ _ _ ?_ (by omega)
    exact fieldAt_writeInt _ _ _ _ (big _ h1) (by first | omega | (simp only [length_writeInt]; omega))
  · refine fieldAt_writeInt_other _ _ _ _ _ _ _ ?_ (by omega)
    refine fieldAt_writeInt_other _ _ _ _ _ _ _ ?_ (by omega)
    exact fieldAt_writeInt _ _ _ _ (big _ h2) (by first | omega | (simp only [length_writeInt]; omega))
  · refine fieldAt_writeInt_other _ _ _ _ _ _ _ ?_ (by omega)
    exact fieldAt_writeInt _ _ _ _ (big _ h3) (by first | omega | (simp only [length_writeInt]; omega))
  · exact fieldAt_writeInt _ _ _ _ (big _ h4) (by first | omega | (simp only [length_writeInt]; omega))

theorem fieldAt_writeHeader_low (b : List Nat) (m c a1 a2 a3 a4 o w v : Nat)
    (h : fieldAt b o w v) (hd : o + w ≤ 8) :
    fieldAt (writeHeader b m c a1 a2 a3 a4) o w v := by
  simp only [writeHeader]
  refine fieldAt_writeInt_other _ _ _ _ _ _ _ ?_ (by omega)
  refine fieldAt_writeInt_other _ _ _ _ _ _ _ ?_ (by omega)
  refine fieldAt_writeInt_other _ _ _ _ _ _ _ ?_ (by omega)
  refine fieldAt_writeInt_other _ _ _ _ _ _ _ ?_ (by omega)
  refine fieldAt_writeInt_other _ _ _ _ _ _ _ ?_ (by omega)
  refine fieldAt_writeInt_other _ _ _ _ _ _ _ ?_ (by omega)
  exact h

/-! ## Outbound slot: rejection, identifier allocation, supersession -/

/-- C4. A non-forced send while a blocking message occupies the slot returns 0,
leaves every field of the state as it was and produces no event at all (nothing is
transmitted, no notification is fired). -/
theorem C4_priority_rejection (s : State) (millis command arg1 arg2 arg3 arg4 : Nat)
    (pData : List Nat) (size : Nat) (blocking : Bool)
    (hs : s.isSending = true) (hb : s.isBlocking = true) :
    _sendPacketToServer s millis command arg1 arg2 arg3 arg4 pData size blocking false
      = (0, s, []) := by
  simp [_sendPacketToServer, hs, hb]

/-- Witness for C4: a blocking INIT is in flight right after `begin`, and a second
non-forced send is turned away. -/
theorem C4_priority_rejection_witness :
    (begin dev0 100 1 4000 0).1.isSending = true ∧
    (begin dev0 100 1 4000 0).1.isBlocking = true ∧
    _sendPacketToServer (begin dev0 100 1 4000 0).1 200 7 1 2 3 4 [] 0 true false
      = (0, (begin dev0 100 1 4000 0).1, []) :=
  ⟨by decide, by decide,
   C4_priority_rejection (begin dev0 100 1 4000 0).1 200 7 1 2 3 4 [] 0 true
     (by decide) (by decide)⟩

theorem reject_flag_false (s : State) (forceSend : Bool)
    (hacc : ¬ (s.isSending = true ∧ s.isBlocking = true ∧ forceSend = false)) :
    (s.isSending && s.isBlocking && !forceSend) = false := by
  cases h1 : s.isSending <;> cases h2 : s.isBlocking <;> cases h3 : forceSend <;>
    simp_all

theorem nextId_eq (c : Nat) (hcur : c < U16) :
    (if c = 65535 then 1 else (c + 1) % U16) = (if c = 65535 then 1 else c + 1) := by
  split
  · rfl
  · apply Nat.mod_eq_of_lt
    simp only [U16] at *
    omega

theorem nextId_ne_zero (c : Nat) : (if c = 65535 then 1 else c + 1) ≠ 0 := by
  split <;> omega

theorem nextId_lt (c : Nat) (hcur : c < U16) : (if c = 65535 then 1 else c + 1) < U16 := by
  simp only [U16] at *
  split <;> omega

theorem send_ret (s : State) (millis command arg1 arg2 arg3 arg4 : Nat)
    (pData : List Nat) (size : Nat) (blocking forceSend : Bool)
    (hcur : s.curMsgId < U16)
    (hacc : ¬ (s.isSending = true ∧ s.isBlocking = true ∧ forceSend = false)) :
    (_sendPacketToServer s millis command arg1 arg2 arg3 arg4 pData size blocking forceSend).1
      = (if s.curMsgId = 65535 then 1 else s.curMsgId + 1) := by
  simp only [_sendPacketToServer, reject_flag_false s forceSend hacc, nextId_eq _ hcur]
  rfl

/-- C5. With a 16-bit `curMsgId`, a send that is not rejected returns the new
`curMsgId`, which is `1` after `65535` and the successor otherwise and is never 0;
it marks the slot sending, records the blocking flag and sets `sentCount` to 1.
Hence the returned value is 0 exactly when the send was rejected. -/
theorem C5_identifier_allocation (s : State) (millis command arg1 arg2 arg3 arg4 : Nat)
    (pData : List Nat) (size : Nat) (blocking forceSend : Bool)
    (hcur : s.curMsgId < U16) :
    (¬ (s.isSending = true ∧ s.isBlocking = true ∧ forceSend = false) →
      (_sendPacketToServer s millis command arg1 arg2 arg3 arg4 pData size blocking forceSend).1
        = (_sendPacketToServer s millis command arg1 arg2 arg3 arg4 pData size blocking
            forceSend).2.1.curMsgId ∧
      (_sendPacketToServer s millis command arg1 arg2 arg3 arg4 pData size blocking forceSend).1
        = (if s.curMsgId = 65535 then 1 else s.curMsgId + 1) ∧
      (_sendPacketToServer s millis command arg1 arg2 arg3 arg4 pData size blocking forceSend).1
        ≠ 0 ∧
      (_sendPacketToServer s millis command arg1 arg2 arg3 arg4 pData size blocking forceSend).1
        < U16 ∧
      (_sendPacketToServer s millis command arg1 arg2 arg3 arg4 pData size blocking
        forceSend).2.1.isSending = true ∧
      (_sendPacketToServer s millis command arg1 arg2 arg3 arg4 pData size blocking
        forceSend).2.1.isBlocking = blocking ∧
      (_sendPacketToServer s millis command arg1 arg2 arg3 arg4 pData size blocking
        forceSend).2.1.sentCount = 1) ∧
    ((_sendPacketToServer s millis command arg1 arg2 arg3 arg4 pData size blocking forceSend).1
        = 0 ↔ (s.isSending = true ∧ s.isBlocking = true ∧ forceSend = false)) := by
  have hid := nextId_eq s.curMsgId hcur
  have hne := nextId_ne_zero s.curMsgId
  have hlt := nextId_lt s.curMsgId hcur
  by_cases hrej : s.isSending = true ∧ s.isBlocking = true ∧ forceSend = false
  · obtain ⟨h1, h2, h3⟩ := hrej
    simp [_sendPacketToServer, h1, h2, h3]
  · have hc := reject_flag_false s forceSend hrej
    simp only [_sendPacketToServer, hc, hid]
    refine ⟨fun _ => ⟨rfl, rfl, hne, hlt, rfl, rfl, rfl⟩, ?_⟩
    constructor
    · intro h0
      exact absurd h0 hne
    · intro h
      exact absurd h hrej

/-- Witness for C5: the first send of an idle device is accepted and gets id 1. -/
theorem C5_identifier_allocation_witness :
    dev0.curMsgId < U16 ∧
    (_sendPacketToServer dev0 100 7 1 2 3 4 [] 0 true false).1 = 1 :=
  ⟨by decide,
   ((C5_identifier_allocation dev0 100 7 1 2 3 4 [] 0 true false (by decide)).1
      (by decide)).2.1⟩

/-- C6. On every accepted send the trace is the packet-cancelled notification, if
any, followed by the one transmission; packet-cancelled is fired exactly when the
slot was occupied and the command field of the send buffer is not PING, and it
carries the old `curMsgId`.  A forced send over a blocking occupant is accepted
(non-zero id for a 16-bit `curMsgId`). -/
theorem C6_supersession_notification (s : State)
    (millis command arg1 arg2 arg3 arg4 : Nat) (pData : List Nat) (size : Nat)
    (blocking forceSend : Bool)
    (hacc : ¬ (s.isSending = true ∧ s.isBlocking = true ∧ forceSend = false)) :
    (_sendPacketToServer s millis command arg1 arg2 arg3 arg4 pData size blocking
        forceSend).2.2
      = (if s.isSending = true ∧ _readIntegerFromBuffer s.sendBuffer 10 2 ≠ PING
          then [Event.onPacketCancelled s.curMsgId] else [])
        ++ [Event.sendPacket s.serverAddress s.serverPort
              ((_sendPacketToServer s millis command arg1 arg2 arg3 arg4 pData size blocking
                  forceSend).2.1.sendBuffer.take
                (_sendPacketToServer s millis command arg1 arg2 arg3 arg4 pData size blocking
                  forceSend).2.1.sendBufferSize)] ∧
    cancelled (_sendPacketToServer s millis command arg1 arg2 arg3 arg4 pData size blocking
        forceSend).2.2
      = (if s.isSending = true ∧ _readIntegerFromBuffer s.sendBuffer 10 2 ≠ PING
          then [Event.onPacketCancelled s.curMsgId] else []) ∧
    ((∃ id, Event.onPacketCancelled id ∈
        (_sendPacketToServer s millis command arg1 arg2 arg3 arg4 pData size blocking
          forceSend).2.2)
      ↔ (s.isSending = true ∧ _readIntegerFromBuffer s.sendBuffer 10 2 ≠ PING)) ∧
    (forceSend = true → s.curMsgId < U16 →
      (_sendPacketToServer s millis command arg1 arg2 arg3 arg4 pData size blocking
        forceSend).1 ≠ 0) := by
  have hc := reject_flag_false s forceSend hacc
  have hev : (_sendPacketToServer s millis command arg1 arg2 arg3 arg4 pData size blocking
        forceSend).2.2
      = (if s.isSending = true ∧ _readIntegerFromBuffer s.sendBuffer 10 2 ≠ PING
          then [Event.onPacketCancelled s.curMsgId] else [])
        ++ [Event.sendPacket s.serverAddress s.serverPort
              ((_sendPacketToServer s millis command arg1 arg2 arg3 arg4 pData size blocking
                  forceSend).2.1.sendBuffer.take
                (_sendPacketToServer s millis command arg1 arg2 arg3 arg4 pData size blocking
                  forceSend).2.1.sendBufferSize)] := by
    simp only [_sendPacketToServer, hc]
    by_cases hp : s.isSending = true ∧ _readIntegerFromBuffer s.sendBuffer 10 2 ≠ PING
    · simp [hp.1, hp.2]
    · rw [if_neg hp]
      cases h1 : s.isSending
      · simp
      · have : _readIntegerFromBuffer s.sendBuffer 10 2 = PING := by
          by_contra h
          exact hp ⟨h1, h⟩
        simp [this]
  refine ⟨hev, ?_, ?_, ?_⟩
  · rw [hev]
    by_cases hp : s.isSending = true ∧ _readIntegerFromBuffer s.sendBuffer 10 2 ≠ PING
    · simp [hp, cancelled]
    · simp [hp, cancelled]
  · rw [hev]
    by_cases hp : s.isSending = true ∧ _readIntegerFromBuffer s.sendBuffer 10 2 ≠ PING
    · simp [hp]
    · simp [hp]
  · intro _ hcur
    rw [send_ret s millis command arg1 arg2 arg3 arg4 pData size blocking forceSend hcur hacc]
    exact nextId_ne_zero s.curMsgId

/-- Witness for C6: a forced send over the blocking INIT left in flight by `begin`
is accepted and cancels message 1. -/
theorem C6_supersession_notification_witness :
    ¬ ((begin dev0 100 1 4000 0).1.isSending = true ∧
        (begin dev0 100 1 4000 0).1.isBlocking = true ∧ true = false) ∧
    cancelled (_sendPacketToServer (begin dev0 100 1 4000 0).1 200 7 1 2 3 4 [] 0 true
        true).2.2 = [Event.onPacketCancelled 1] :=
  ⟨by decide,
   (C6_supersession_notification (begin dev0 100 1 4000 0).1 200 7 1 2 3 4 [] 0 true true
      (by decide)).2.1⟩

/-! ## Inbound dispatcher -/

theorem sessionEvents_handlerCalls (s : State) (t : Nat) :
    handlerCalls (sessionEvents s t) = [] := by
  cases h1 : s.wifiConnected <;> cases h2 : s.serverConnected <;>
    simp [sessionEvents, handlerCalls, h1, h2]

theorem sessionEvents_transmissions (s : State) (t : Nat) :
    transmissions (sessionEvents s t) = [] := by
  cases h1 : s.wifiConnected <;> cases h2 : s.serverConnected <;>
    simp [sessionEvents, transmissions, h1, h2]

theorem sessionEvents_delivered (s : State) (t : Nat) :
    delivered (sessionEvents s t) = [] := by
  cases h1 : s.wifiConnected <;> cases h2 : s.serverConnected <;>
    simp [sessionEvents, delivered, h1, h2]

/-- The dispatcher on a well-formed application command: the three outcomes of
lines 215-264. -/
theorem onPacketReceived_app (app : AppHandler) (s : State) (t : Nat) (src : IPAddress)
    (port : Nat) (p : List Nat) (hwf : wellFormed s p) (hcmd : isAppCommand (pktCommand p)) :
    onPacketReceived app s t src port p =
      if isNewMsg (pktMsgId p) s.lastReceivedMsgId then
        ((_sendReplyPacket
            { sessionUp s t src with
              lastReceivedMsgId := pktMsgId p
              lastResponse := app (pktCommand p) (pktArg p 0) (pktArg p 1) (pktArg p 2)
                (pktArg p 3) (p.drop 20) % U16 }
            (pktMsgId p) MSGACK
            (app (pktCommand p) (pktArg p 0) (pktArg p 1) (pktArg p 2) (pktArg p 3)
              (p.drop 20) % U16) 0 0 0 [] 0).1,
         sessionEvents s t ++
           [Event.onPacketReceived (pktCommand p) (pktArg p 0) (pktArg p 1) (pktArg p 2)
              (pktArg p 3) (p.drop 20)] ++
           [Event.sendPacket (sessionUp s t src).serverAddress s.serverPort
              ((writeHeader s.replyPacket (pktMsgId p) MSGACK
                (app (pktCommand p) (pktArg p 0) (pktArg p 1) (pktArg p 2) (pktArg p 3)
                  (p.drop 20) % U16) 0 0 0).take 20)])
      else if pktMsgId p = s.lastReceivedMsgId then
        ((_sendReplyPacket (sessionUp s t src) (pktMsgId p) MSGACK s.lastResponse
            0 0 0 [] 0).1,
         sessionEvents s t ++
           [Event.sendPacket (sessionUp s t src).serverAddress s.serverPort
              ((writeHeader s.replyPacket (pktMsgId p) MSGACK s.lastResponse 0 0 0).take 20)])
      else (sessionUp s t src, sessionEvents s t) := by
  obtain ⟨h20, hid⟩ := hwf
  obtain ⟨c1, c2, c3, c4⟩ := hcmd
  have hsz : ¬ (p.length < 20) := by omega
  simp only [pktCommand] at c1 c2 c3 c4
  cases h1 : s.wifiConnected <;> cases h2 : s.serverConnected <;>
    simp [onPacketReceived, hsz, hid, c1, c2, c3, c4, h1, h2, sessionUp, sessionEvents,
      isNewMsg, pktMsgId, pktCommand, pktArg, _sendReplyPacket, copyPayload_zero]

theorem getElem?_writeHeader_outside (b : List Nat) (m c a1 a2 a3 a4 j : Nat)
    (hj : j < 8 ∨ 20 ≤ j) : (writeHeader b m c a1 a2 a3 a4)[j]? = b[j]? := by
  have h1 : ¬ (8 ≤ j ∧ j < 8 + 2) := by omega
  have h2 : ¬ (10 ≤ j ∧ j < 10 + 2) := by omega
  have h3 : ¬ (12 ≤ j ∧ j < 12 + 2) := by omega
  have h4 : ¬ (14 ≤ j ∧ j < 14 + 2) := by omega
  have h5 : ¬ (16 ≤ j ∧ j < 16 + 2) := by omega
  have h6 : ¬ (18 ≤ j ∧ j < 18 + 2) := by omega
  simp only [writeHeader, getElem?_writeInt, if_neg h1, if_neg h2, if_neg h3, if_neg h4,
    if_neg h5, if_neg h6]

theorem writeHeader_idem (b : List Nat) (m c a1 a2 a3 a4 : Nat) :
    writeHeader (writeHeader b m c a1 a2 a3 a4) m c a1 a2 a3 a4
      = writeHeader b m c a1 a2 a3 a4 := by
  apply List.ext_getElem?
  intro j
  by_cases hj : j < 8 ∨ 20 ≤ j
  · rw [getElem?_writeHeader_outside _ _ _ _ _ _ _ _ hj]
  · have h8 : 8 ≤ j := by omega
    have h20 : j < 20 := by omega
    interval_cases j <;>
      simp [writeHeader, getElem?_writeInt, Option.map_map, Function.comp_def]

theorem headerOf_writeHeader (b : List Nat) (m c a1 a2 a3 a4 : Nat) (hb : 20 ≤ b.length)
    (hm : m < U16) (hc : c < U16) (h1 : a1 < U16) (h2 : a2 < U16) (h3 : a3 < U16)
    (h4 : a4 < U16) :
    headerOf ((writeHeader b m c a1 a2 a3 a4).take 20) = (m, c, a1, a2, a3, a4) := by
  obtain ⟨f1, f2, f3, f4, f5, f6⟩ := fieldAt_writeHeader b m c a1 a2 a3 a4 hb hm hc h1 h2 h3 h4
  simp only [headerOf]
  rw [read2_of_fieldAt _ 8 m (fieldAt_take _ 20 _ _ _ f1 (by omega)) hm,
    read2_of_fieldAt _ 10 c (fieldAt_take _ 20 _ _ _ f2 (by omega)) hc,
    read2_of_fieldAt _ 12 a1 (fieldAt_take _ 20 _ _ _ f3 (by omega)) h1,
    read2_of_fieldAt _ 14 a2 (fieldAt_take _ 20 _ _ _ f4 (by omega)) h2,
    read2_of_fieldAt _ 16 a3 (fieldAt_take _ 20 _ _ _ f5 (by omega)) h3,
    read2_of_fieldAt _ 18 a4 (fieldAt_take _ 20 _ _ _ f6 (by omega)) h4]

theorem length_reply (b : List Nat) (m c a1 a2 a3 a4 : Nat) (hb : 20 ≤ b.length) :
    ((writeHeader b m c a1 a2 a3 a4).take 20).length = 20 := by
  rw [List.length_take, length_writeHeader]
  omega

theorem pktMsgId_lt (p : List Nat) : pktMsgId p < U16 := by
  unfold pktMsgId
  exact Nat.mod_lt _ (by decide)

theorem MSGACK_lt : MSGACK < U16 := by decide

theorem zero_lt_U16 : 0 < U16 := by decide

theorem not_isNewMsg_self (m : Nat) : ¬ isNewMsg m m := by
  unfold isNewMsg
  omega

theorem sessionUp_serverAddress (s : State) (t : Nat) (src : IPAddress) :
    (sessionUp s t src).serverAddress = replyDest s src := by
  cases h : s.serverConnected <;> simp [sessionUp, replyDest, h]

theorem appResult_lt (app : AppHandler) (p : List Nat) : appResult app p < U16 := by
  unfold appResult
  exact Nat.mod_lt _ (by decide)

/-- The dispatcher on a well-formed application command accepted as new. -/
theorem onPacketReceived_new (app : AppHandler) (s : State) (t : Nat) (src : IPAddress)
    (port : Nat) (p : List Nat) (hwf : wellFormed s p) (hcmd : isAppCommand (pktCommand p))
    (hnew : isNewMsg (pktMsgId p) s.lastReceivedMsgId) :
    onPacketReceived app s t src port p =
      ({ sessionUp s t src with
          lastReceivedMsgId := pktMsgId p
          lastResponse := appResult app p
          replyPacket := writeHeader s.replyPacket (pktMsgId p) MSGACK (appResult app p) 0 0 0 },
       sessionEvents s t ++ [handlerCall p] ++
         [Event.sendPacket (replyDest s src) s.serverPort
            ((writeHeader s.replyPacket (pktMsgId p) MSGACK (appResult app p) 0 0 0).take 20)])
    := by
  rw [onPacketReceived_app app s t src port p hwf hcmd, if_pos hnew, sessionUp_serverAddress]
  cases h : s.serverConnected <;>
    simp [_sendReplyPacket, copyPayload_zero, appResult, handlerCall, sessionUp, h]

/-- The dispatcher on a well-formed application command repeating the cached id. -/
theorem onPacketReceived_repeat (app : AppHandler) (s : State) (t : Nat) (src : IPAddress)
    (port : Nat) (p : List Nat) (hwf : wellFormed s p) (hcmd : isAppCommand (pktCommand p))
    (hrep : pktMsgId p = s.lastReceivedMsgId) :
    onPacketReceived app s t src port p =
      ({ sessionUp s t src with
          replyPacket := writeHeader s.replyPacket (pktMsgId p) MSGACK s.lastResponse 0 0 0 },
       sessionEvents s t ++
         [Event.sendPacket (replyDest s src) s.serverPort
            ((writeHeader s.replyPacket (pktMsgId p) MSGACK s.lastResponse 0 0 0).take 20)])
    := by
  have hn : ¬ isNewMsg (pktMsgId p) s.lastReceivedMsgId := by
    rw [hrep]
    exact not_isNewMsg_self _
  rw [onPacketReceived_app app s t src port p hwf hcmd, if_neg hn, if_pos hrep,
    sessionUp_serverAddress]
  cases h : s.serverConnected <;>
    simp [_sendReplyPacket, copyPayload_zero, sessionUp, h]

/-- The dispatcher on a well-formed application command that is neither new nor a
repeat. -/
theorem onPacketReceived_stale (app : AppHandler) (s : State) (t : Nat) (src : IPAddress)
    (port : Nat) (p : List Nat) (hwf : wellFormed s p) (hcmd : isAppCommand (pktCommand p))
    (hn : ¬ isNewMsg (pktMsgId p) s.lastReceivedMsgId)
    (hrep : pktMsgId p ≠ s.lastReceivedMsgId) :
    onPacketReceived app s t src port p = (sessionUp s t src, sessionEvents s t) := by
  rw [onPacketReceived_app app s t src port p hwf hcmd, if_neg hn, if_neg hrep]

theorem sessionUp_fields (s : State) (t : Nat) (src : IPAddress) :
    (sessionUp s t src).lastReceivedMsgId = s.lastReceivedMsgId ∧
    (sessionUp s t src).lastResponse = s.lastResponse ∧
    (sessionUp s t src).replyPacket = s.replyPacket ∧
    (sessionUp s t src).deviceId = s.deviceId ∧
    (sessionUp s t src).serverPort = s.serverPort ∧
    (sessionUp s t src).serverConnected = true ∧
    (sessionUp s t src).sendBuffer = s.sendBuffer ∧
    (sessionUp s t src).curMsgId = s.curMsgId ∧
    (sessionUp s t src).isSending = s.isSending := by
  cases h : s.serverConnected <;> simp [sessionUp, h]

theorem handlerCalls_append (a b : List Event) :
    handlerCalls (a ++ b) = handlerCalls a ++ handlerCalls b := by
  simp [handlerCalls]

theorem transmissions_append (a b : List Event) :
    transmissions (a ++ b) = transmissions a ++ transmissions b := by
  simp [transmissions]

/-- C1. For a well-formed application command with id `m` and cached id `L`:
new (`m > L` or `L - m > 30000`) sets the cached id to `m`, invokes the handler
once, caches its result and replies MSGACK(m, result); repeat (`m = L`) replies
MSGACK(m, cached response) without invoking the handler; anything else invokes
nothing, sends nothing and leaves the cache as it was.  The handler runs exactly
when the id is new.  With `L = 65000`, id 10 is new and id 64000 is stale. -/
theorem C1_inbound_acceptance (app : AppHandler) (s : State) (t : Nat) (src : IPAddress)
    (port : Nat) (p : List Nat) (hwf : wellFormed s p) (hcmd : isAppCommand (pktCommand p))
    (hbuf : 20 ≤ s.replyPacket.length) (hresp : s.lastResponse < U16) :
    (isNewMsg (pktMsgId p) s.lastReceivedMsgId →
      (onPacketReceived app s t src port p).1.lastReceivedMsgId = pktMsgId p ∧
      (onPacketReceived app s t src port p).1.lastResponse = appResult app p ∧
      handlerCalls (onPacketReceived app s t src port p).2 = [handlerCall p] ∧
      ∃ d, transmissions (onPacketReceived app s t src port p).2
            = [Event.sendPacket (replyDest s src) s.serverPort d] ∧
          d.length = 20 ∧
          headerOf d = (pktMsgId p, MSGACK, appResult app p, 0, 0, 0)) ∧
    (pktMsgId p = s.lastReceivedMsgId →
      (onPacketReceived app s t src port p).1.lastReceivedMsgId = s.lastReceivedMsgId ∧
      (onPacketReceived app s t src port p).1.lastResponse = s.lastResponse ∧
      handlerCalls (onPacketReceived app s t src port p).2 = [] ∧
      ∃ d, transmissions (onPacketReceived app s t src port p).2
            = [Event.sendPacket (replyDest s src) s.serverPort d] ∧
          d.length = 20 ∧
          headerOf d = (pktMsgId p, MSGACK, s.lastResponse, 0, 0, 0)) ∧
    (¬ isNewMsg (pktMsgId p) s.lastReceivedMsgId → pktMsgId p ≠ s.lastReceivedMsgId →
      (onPacketReceived app s t src port p).1.lastReceivedMsgId = s.lastReceivedMsgId ∧
      (onPacketReceived app s t src port p).1.lastResponse = s.lastResponse ∧
      handlerCalls (onPacketReceived app s t src port p).2 = [] ∧
      transmissions (onPacketReceived app s t src port p).2 = []) ∧
    (handlerCalls (onPacketReceived app s t src port p).2 ≠ []
      ↔ (pktMsgId p > s.lastReceivedMsgId ∨
          (s.lastReceivedMsgId : Int) - (pktMsgId p : Int) > 30000)) ∧
    (isNewMsg 10 65000 ∧ ¬ isNewMsg 64000 65000 ∧ 64000 ≠ 65000) := by
  have hN : isNewMsg (pktMsgId p) s.lastReceivedMsgId →
      (onPacketReceived app s t src port p).1.lastReceivedMsgId = pktMsgId p ∧
      (onPacketReceived app s t src port p).1.lastResponse = appResult app p ∧
      handlerCalls (onPacketReceived app s t src port p).2 = [handlerCall p] ∧
      ∃ d, transmissions (onPacketReceived app s t src port p).2
            = [Event.sendPacket (replyDest s src) s.serverPort d] ∧
          d.length = 20 ∧
          headerOf d = (pktMsgId p, MSGACK, appResult app p, 0, 0, 0) := by
    intro hnew
    rw [onPacketReceived_new app s t src port p hwf hcmd hnew]
    refine ⟨rfl, rfl, ?_, _, ?_, length_reply _ _ _ _ _ _ _ hbuf,
      headerOf_writeHeader _ _ _ _ _ _ _ hbuf (pktMsgId_lt p) MSGACK_lt (appResult_lt app p)
        zero_lt_U16 zero_lt_U16 zero_lt_U16⟩
    · simp only [handlerCalls_append, sessionEvents_handlerCalls]
      simp [handlerCalls, handlerCall]
    · simp only [transmissions_append, sessionEvents_transmissions]
      simp [transmissions, handlerCall]
  have hR : pktMsgId p = s.lastReceivedMsgId →
      (onPacketReceived app s t src port p).1.lastReceivedMsgId = s.lastReceivedMsgId ∧
      (onPacketReceived app s t src port p).1.lastResponse = s.lastResponse ∧
      handlerCalls (onPacketReceived app s t src port p).2 = [] ∧
      ∃ d, transmissions (onPacketReceived app s t src port p).2
            = [Event.sendPacket (replyDest s src) s.serverPort d] ∧
          d.length = 20 ∧
          headerOf d = (pktMsgId p, MSGACK, s.lastResponse, 0, 0, 0) := by
    intro hrep
    rw [onPacketReceived_repeat app s t src port p hwf hcmd hrep]
    obtain ⟨f1, f2, _⟩ := sessionUp_fields s t src
    refine ⟨f1, f2, ?_, _, ?_, length_reply _ _ _ _ _ _ _ hbuf,
      headerOf_writeHeader _ _ _ _ _ _ _ hbuf (pktMsgId_lt p) MSGACK_lt hresp
        zero_lt_U16 zero_lt_U16 zero_lt_U16⟩
    · simp only [handlerCalls_append, sessionEvents_handlerCalls]
      simp [handlerCalls]
    · simp only [transmissions_append, sessionEvents_transmissions]
      simp [transmissions]
  have hS : ¬ isNewMsg (pktMsgId p) s.lastReceivedMsgId →
      pktMsgId p ≠ s.lastReceivedMsgId →
      (onPacketReceived app s t src port p).1.lastReceivedMsgId = s.lastReceivedMsgId ∧
      (onPacketReceived app s t src port p).1.lastResponse = s.lastResponse ∧
      handlerCalls (onPacketReceived app s t src port p).2 = [] ∧
      transmissions (onPacketReceived app s t src port p).2 = [] := by
    intro hn hrep
    rw [onPacketReceived_stale app s t src port p hwf hcmd hn hrep]
    obtain ⟨f1, f2, _⟩ := sessionUp_fields s t src
    exact ⟨f1, f2, sessionEvents_handlerCalls s t, sessionEvents_transmissions s t⟩
  refine ⟨hN, hR, hS, ?_, ?_⟩
  · constructor
    · intro hne
      by_contra hn
      by_cases hrep : pktMsgId p = s.lastReceivedMsgId
      · exact hne (hR hrep).2.2.1
      · exact hne (hS hn hrep).2.2.1
    · intro hnew
      rw [(hN hnew).2.2.1]
      simp
  · unfold isNewMsg
    omega

/-- Witness for C1: with cached id 65000, the command with id 10 is delivered to the
handler and the command with id 64000 is dropped without a reply. -/
theorem C1_inbound_acceptance_witness :
    (wellFormed dev65000 pkt10 ∧ isAppCommand (pktCommand pkt10) ∧
      isNewMsg (pktMsgId pkt10) dev65000.lastReceivedMsgId ∧
      handlerCalls (onPacketReceived app42 dev65000 5 peer 1 pkt10).2 = [handlerCall pkt10]) ∧
    (wellFormed dev65000 pkt64000 ∧ isAppCommand (pktCommand pkt64000) ∧
      ¬ isNewMsg (pktMsgId pkt64000) dev65000.lastReceivedMsgId ∧
      pktMsgId pkt64000 ≠ dev65000.lastReceivedMsgId ∧
      transmissions (onPacketReceived app42 dev65000 5 peer 1 pkt64000).2 = []) :=
  ⟨⟨by decide, by decide, by decide,
    ((C1_inbound_acceptance app42 dev65000 5 peer 1 pkt10 (by decide) (by decide)
        (by decide) (by decide)).1 (by decide)).2.2.1⟩,
   ⟨by decide, by decide, by decide, by decide,
    ((C1_inbound_acceptance app42 dev65000 5 peer 1 pkt64000 (by decide) (by decide)
        (by decide) (by decide)).2.2.1 (by decide) (by decide)).2.2.2⟩⟩

/-- C2. A well-formed application command that is accepted as new and is then
delivered a second time invokes the application handler once in total; each of the
two deliveries transmits exactly one reply, and the two replies are the same
datagram sent to the same address and port.  With a reply buffer of at least 20
bytes that datagram decodes as MSGACK(msgId, handler result). -/
theorem C2_duplicate_suppression (app : AppHandler) (s : State) (t1 t2 : Nat)
    (src1 src2 : IPAddress) (port1 port2 : Nat) (p : List Nat)
    (hwf : wellFormed s p) (hcmd : isAppCommand (pktCommand p))
    (hnew : isNewMsg (pktMsgId p) s.lastReceivedMsgId) :
    handlerCalls ((onPacketReceived app s t1 src1 port1 p).2 ++
        (onPacketReceived app (onPacketReceived app s t1 src1 port1 p).1 t2 src2 port2 p).2)
      = [handlerCall p] ∧
    transmissions
        (onPacketReceived app (onPacketReceived app s t1 src1 port1 p).1 t2 src2 port2 p).2
      = transmissions (onPacketReceived app s t1 src1 port1 p).2 ∧
    ∃ d, transmissions (onPacketReceived app s t1 src1 port1 p).2
          = [Event.sendPacket (replyDest s src1) s.serverPort d] ∧
        (20 ≤ s.replyPacket.length →
          headerOf d = (pktMsgId p, MSGACK, appResult app p, 0, 0, 0)) := by
  have h1 := onPacketReceived_new app s t1 src1 port1 p hwf hcmd hnew
  obtain ⟨f1, f2, f3, f4, f5, f6, _⟩ := sessionUp_fields s t1 src1
  have hwf2 : wellFormed (onPacketReceived app s t1 src1 port1 p).1 p := by
    rw [h1]
    exact ⟨hwf.1, by rw [hwf.2]; exact f4.symm⟩
  have hrep : pktMsgId p = (onPacketReceived app s t1 src1 port1 p).1.lastReceivedMsgId := by
    rw [h1]
  have h2 := onPacketReceived_repeat app _ t2 src2 port2 p hwf2 hcmd hrep
  have e1 : (onPacketReceived app s t1 src1 port1 p).1.serverPort = s.serverPort := by
    rw [h1]
    exact f5
  have e2 : replyDest (onPacketReceived app s t1 src1 port1 p).1 src2 = replyDest s src1 := by
    rw [h1]
    simp only [replyDest, f6, if_true]
    exact sessionUp_serverAddress s t1 src1
  have e3 : (onPacketReceived app s t1 src1 port1 p).1.replyPacket
      = writeHeader s.replyPacket (pktMsgId p) MSGACK (appResult app p) 0 0 0 := by
    rw [h1]
  have e4 : (onPacketReceived app s t1 src1 port1 p).1.lastResponse = appResult app p := by
    rw [h1]
  have e5 : (onPacketReceived app s t1 src1 port1 p).2
      = sessionEvents s t1 ++ [handlerCall p] ++
         [Event.sendPacket (replyDest s src1) s.serverPort
            ((writeHeader s.replyPacket (pktMsgId p) MSGACK (appResult app p) 0 0 0).take 20)]
      := by
    rw [h1]
  rw [h2, e1, e2, e3, e4, e5, writeHeader_idem]
  refine ⟨?_, ?_,
    (writeHeader s.replyPacket (pktMsgId p) MSGACK (appResult app p) 0 0 0).take 20, ?_, ?_⟩
  · simp only [handlerCalls_append, sessionEvents_handlerCalls]
    simp [handlerCalls, handlerCall]
  · simp only [transmissions_append, sessionEvents_transmissions]
    simp [transmissions, handlerCall]
  · simp only [transmissions_append, sessionEvents_transmissions]
    simp [transmissions, handlerCall]
  · intro hbuf
    exact headerOf_writeHeader _ _ _ _ _ _ _ hbuf (pktMsgId_lt p) MSGACK_lt (appResult_lt app p)
        zero_lt_U16 zero_lt_U16 zero_lt_U16

/-- Witness for C2: command id 10 delivered twice to a device whose cached id is
65000. -/
theorem C2_duplicate_suppression_witness :
    wellFormed dev65000 pkt10 ∧ isAppCommand (pktCommand pkt10) ∧
    isNewMsg (pktMsgId pkt10) dev65000.lastReceivedMsgId ∧
    transmissions
        (onPacketReceived app42 (onPacketReceived app42 dev65000 5 peer 1 pkt10).1 6 peer 1
          pkt10).2
      = transmissions (onPacketReceived app42 dev65000 5 peer 1 pkt10).2 :=
  ⟨by decide, by decide, by decide,
   (C2_duplicate_suppression app42 dev65000 5 6 peer peer 1 1 pkt10 (by decide) (by decide)
      (by decide)).2.1⟩

/-- C3, as stated, fails on the code in both of its parts.  After ids 1 and 40000
were accepted in this order, the re-delivered id 1 is accepted as new again (the
distance 39999 exceeds 30000) and the handler runs a second time.  After ids 1 and
2 were accepted in this order, the re-delivered id 1 is not answered at all: no
cached response is replayed. -/
theorem C3_redelivery_counterexample :
    (pktMsgId pkt1 < pktMsgId pkt40000 ∧
      handlerCalls (onPacketReceived app42 dev0 1 peer 1 pkt1).2 = [handlerCall pkt1] ∧
      handlerCalls (onPacketReceived app42 dev0_after1 2 peer 1 pkt40000).2
        = [handlerCall pkt40000] ∧
      handlerCalls (onPacketReceived app42 dev0_after1_40000 3 peer 1 pkt1).2
        = [handlerCall pkt1]) ∧
    (pktMsgId pkt1 < pktMsgId pkt2 ∧
      handlerCalls (onPacketReceived app42 dev0 1 peer 1 pkt1).2 = [handlerCall pkt1] ∧
      handlerCalls (onPacketReceived app42 dev0_after1 2 peer 1 pkt2).2 = [handlerCall pkt2] ∧
      transmissions (onPacketReceived app42 dev0_after1_2 3 peer 1 pkt1).2 = []) := by
  decide

/-- C3, amended.  For ids `a < b` with `b - a ≤ 30000`: once the commands with ids
`a` and `b` have been delivered in this order and both accepted, a re-delivery of
the command with id `a` is discarded as stale: the handler is not invoked, no reply
is transmitted, and the cached id `b` and the cached response stay as they were. -/
theorem C3_stale_redelivery (app : AppHandler) (s : State) (ta tb tc : Nat)
    (srcA srcB srcC : IPAddress) (portA portB portC : Nat) (pa pb : List Nat)
    (hwfa : wellFormed s pa) (hcmda : isAppCommand (pktCommand pa))
    (hwfb : wellFormed s pb) (hcmdb : isAppCommand (pktCommand pb))
    (hlt : pktMsgId pa < pktMsgId pb) (hwin : pktMsgId pb - pktMsgId pa ≤ 30000)
    (hnewa : isNewMsg (pktMsgId pa) s.lastReceivedMsgId) :
    handlerCalls (onPacketReceived app s ta srcA portA pa).2 = [handlerCall pa] ∧
    handlerCalls
        (onPacketReceived app (onPacketReceived app s ta srcA portA pa).1 tb srcB portB pb).2
      = [handlerCall pb] ∧
    handlerCalls
        (onPacketReceived app
          (onPacketReceived app (onPacketReceived app s ta srcA portA pa).1 tb srcB portB pb).1
          tc srcC portC pa).2 = [] ∧
    transmissions
        (onPacketReceived app
          (onPacketReceived app (onPacketReceived app s ta srcA portA pa).1 tb srcB portB pb).1
          tc srcC portC pa).2 = [] ∧
    (onPacketReceived app
        (onPacketReceived app (onPacketReceived app s ta srcA portA pa).1 tb srcB portB pb).1
        tc srcC portC pa).1.lastReceivedMsgId = pktMsgId pb ∧
    (onPacketReceived app
        (onPacketReceived app (onPacketReceived app s ta srcA portA pa).1 tb srcB portB pb).1
        tc srcC portC pa).1.lastResponse = appResult app pb := by
  have h1 := onPacketReceived_new app s ta srcA portA pa hwfa hcmda hnewa
  obtain ⟨_, _, _, g4, _⟩ := sessionUp_fields s ta srcA
  have d1 : (onPacketReceived app s ta srcA portA pa).1.deviceId = s.deviceId := by
    rw [h1]
    exact g4
  have l1 : (onPacketReceived app s ta srcA portA pa).1.lastReceivedMsgId = pktMsgId pa := by
    rw [h1]
  have hwfb1 : wellFormed (onPacketReceived app s ta srcA portA pa).1 pb :=
    ⟨hwfb.1, by rw [hwfb.2, d1]⟩
  have hnewb : isNewMsg (pktMsgId pb) (onPacketReceived app s ta srcA portA pa).1.lastReceivedMsgId
      := by
    rw [l1]
    exact Or.inl hlt
  have h2 := onPacketReceived_new app _ tb srcB portB pb hwfb1 hcmdb hnewb
  obtain ⟨_, _, _, k4, _⟩ :=
    sessionUp_fields (onPacketReceived app s ta srcA portA pa).1 tb srcB
  have d2 : (onPacketReceived app (onPacketReceived app s ta srcA portA pa).1 tb srcB portB
      pb).1.deviceId = s.deviceId := by
    rw [h2]
    exact k4.trans d1
  have l2 : (onPacketReceived app (onPacketReceived app s ta srcA portA pa).1 tb srcB portB
      pb).1.lastReceivedMsgId = pktMsgId pb := by
    rw [h2]
  have r2 : (onPacketReceived app (onPacketReceived app s ta srcA portA pa).1 tb srcB portB
      pb).1.lastResponse = appResult app pb := by
    rw [h2]
  have hwfa2 : wellFormed (onPacketReceived app (onPacketReceived app s ta srcA portA pa).1
      tb srcB portB pb).1 pa := ⟨hwfa.1, by rw [hwfa.2, d2]⟩
  have hn3 : ¬ isNewMsg (pktMsgId pa) (onPacketReceived app
      (onPacketReceived app s ta srcA portA pa).1 tb srcB portB pb).1.lastReceivedMsgId := by
    rw [l2]
    unfold isNewMsg
    omega
  have hr3 : pktMsgId pa ≠ (onPacketReceived app
      (onPacketReceived app s ta srcA portA pa).1 tb srcB portB pb).1.lastReceivedMsgId := by
    rw [l2]
    omega
  have h3 := onPacketReceived_stale app _ tc srcC portC pa hwfa2 hcmda hn3 hr3
  obtain ⟨m1, m2, _⟩ := sessionUp_fields (onPacketReceived app
      (onPacketReceived app s ta srcA portA pa).1 tb srcB portB pb).1 tc srcC
  refine ⟨?_, ?_, ?_, ?_, ?_, ?_⟩
  · rw [h1]
    simp only [handlerCalls_append, sessionEvents_handlerCalls]
    simp [handlerCalls, handlerCall]
  · rw [h2]
    simp only [handlerCalls_append, sessionEvents_handlerCalls]
    simp [handlerCalls, handlerCall]
  · rw [h3]
    exact sessionEvents_handlerCalls _ _
  · rw [h3]
    exact sessionEvents_transmissions _ _
  · rw [h3]
    exact m1.trans l2
  · rw [h3]
    exact m2.trans r2

/-- Witness for C3 (amended): ids 1 and 2, then id 1 again. -/
theorem C3_stale_redelivery_witness :
    wellFormed dev0 pkt1 ∧ wellFormed dev0 pkt2 ∧ pktMsgId pkt1 < pktMsgId pkt2 ∧
    pktMsgId pkt2 - pktMsgId pkt1 ≤ 30000 ∧ isNewMsg (pktMsgId pkt1) dev0.lastReceivedMsgId ∧
    handlerCalls
        (onPacketReceived app42
          (onPacketReceived app42 (onPacketReceived app42 dev0 1 peer 1 pkt1).1 2 peer 1 pkt2).1
          3 peer 1 pkt1).2 = [] :=
  ⟨by decide, by decide, by decide, by decide, by decide,
   (C3_stale_redelivery app42 dev0 1 2 3 peer peer peer 1 1 1 pkt1 pkt2 (by decide) (by decide)
      (by decide) (by decide) (by decide) (by decide) (by decide)).2.2.1⟩

/-- The dispatcher on a well-formed MSGACK (lines 193-213). -/
theorem onPacketReceived_msgack (app : AppHandler) (s : State) (t : Nat) (src : IPAddress)
    (port : Nat) (p : List Nat) (hwf : wellFormed s p) (hack : pktCommand p = MSGACK) :
    onPacketReceived app s t src port p =
      if s.isSending = true ∧ pktMsgId p = s.curMsgId then
        ({ sessionUp s t src with isSending := false, sentCount := 0 },
         sessionEvents s t ++
           (if _readIntegerFromBuffer s.sendBuffer 10 2 ≠ PING then
              [Event.onPacketDelivered s.curMsgId (_readIntegerFromBuffer p 12 2 % U16)]
            else []))
      else (sessionUp s t src, sessionEvents s t) := by
  obtain ⟨h20, hid⟩ := hwf
  have hsz : ¬ (p.length < 20) := by omega
  simp only [pktCommand] at hack
  have n1 : ¬ (MSGACK = INIT) := by decide
  have n2 : ¬ (MSGACK = INITACK) := by decide
  have n3 : ¬ (MSGACK = PING) := by decide
  cases h1 : s.wifiConnected <;> cases h2 : s.serverConnected <;> cases h3 : s.isSending <;>
    by_cases h4 : _readIntegerFromBuffer p 8 2 % U16 = s.curMsgId <;>
    by_cases h5 : _readIntegerFromBuffer s.sendBuffer 10 2 = PING <;>
    simp [onPacketReceived, hsz, hid, hack, h1, h2, h3, h4, h5, sessionUp, sessionEvents,
      pktMsgId, n1, n2, n3]


theorem delivered_append (a b : List Event) :
    delivered (a ++ b) = delivered a ++ delivered b := by
  simp [delivered]

/-- C8. For a well-formed MSGACK with id `m`: if the slot is sending and
`m = curMsgId`, the dispatcher clears `isSending`, sets `sentCount` to 0 and fires
packet-delivered(curMsgId, r), `r` the 16-bit value at offset 12 of the packet,
exactly when the command field of the send buffer is not PING.  If the slot is idle
or `m` differs from `curMsgId`, then `isSending`, `curMsgId` and the send buffer are
as before and packet-delivered is not fired.  In both cases nothing is
transmitted. -/
theorem C8_acknowledgement (app : AppHandler) (s : State) (t : Nat) (src : IPAddress)
    (port : Nat) (p : List Nat) (hwf : wellFormed s p) (hack : pktCommand p = MSGACK) :
    (s.isSending = true ∧ pktMsgId p = s.curMsgId →
      (onPacketReceived app s t src port p).1.isSending = false ∧
      (onPacketReceived app s t src port p).1.sentCount = 0 ∧
      (_readIntegerFromBuffer s.sendBuffer 10 2 ≠ PING →
        delivered (onPacketReceived app s t src port p).2
          = [Event.onPacketDelivered s.curMsgId (_readIntegerFromBuffer p 12 2 % U16)]) ∧
      (_readIntegerFromBuffer s.sendBuffer 10 2 = PING →
        delivered (onPacketReceived app s t src port p).2 = [])) ∧
    (¬ (s.isSending = true ∧ pktMsgId p = s.curMsgId) →
      (onPacketReceived app s t src port p).1.isSending = s.isSending ∧
      (onPacketReceived app s t src port p).1.curMsgId = s.curMsgId ∧
      (onPacketReceived app s t src port p).1.sendBuffer = s.sendBuffer ∧
      delivered (onPacketReceived app s t src port p).2 = []) ∧
    transmissions (onPacketReceived app s t src port p).2 = [] := by
  have h := onPacketReceived_msgack app s t src port p hwf hack
  obtain ⟨_, _, _, _, _, _, f7, f8, f9⟩ := sessionUp_fields s t src
  refine ⟨?_, ?_, ?_⟩
  · intro hm
    rw [h, if_pos hm]
    refine ⟨rfl, rfl, ?_, ?_⟩
    · intro hp
      simp only [delivered_append, sessionEvents_delivered, if_pos hp]
      simp [delivered]
    · intro hp
      have hp2 : ¬ (_readIntegerFromBuffer s.sendBuffer 10 2 ≠ PING) := by
        intro hc
        exact hc hp
      simp only [delivered_append, sessionEvents_delivered, if_neg hp2]
      simp [delivered]
  · intro hm
    rw [h, if_neg hm]
    exact ⟨f9, f8, f7, sessionEvents_delivered s t⟩
  · rw [h]
    by_cases hm : s.isSending = true ∧ pktMsgId p = s.curMsgId
    · rw [if_pos hm]
      simp only [transmissions_append, sessionEvents_transmissions]
      by_cases hp : _readIntegerFromBuffer s.sendBuffer 10 2 ≠ PING
      · rw [if_pos hp]
        simp [transmissions]
      · rw [if_neg hp]
        simp [transmissions]
    · rw [if_neg hm]
      exact sessionEvents_transmissions s t

/-- Witness for C8: after the device sent command 7 with arguments (1, 2, 3, 4) and
got id 2, the MSGACK for id 2 carrying 42 fires packet-delivered(2, 42). -/
theorem C8_acknowledgement_witness :
    (_sendPacketToServer dev0_connected 100 7 1 2 3 4 [] 0 true false).1 = 2 ∧
    headerOf dev0_sent7.sendBuffer = (2, 7, 1, 2, 3, 4) ∧
    wellFormed dev0_sent7 ack2_42 ∧ pktCommand ack2_42 = MSGACK ∧
    (dev0_sent7.isSending = true ∧ pktMsgId ack2_42 = dev0_sent7.curMsgId) ∧
    _readIntegerFromBuffer dev0_sent7.sendBuffer 10 2 ≠ PING ∧
    delivered (onPacketReceived app42 dev0_sent7 200 peer 1 ack2_42).2
      = [Event.onPacketDelivered 2 42] :=
  ⟨by decide, by decide, by decide, by decide, by decide, by decide,
   ((C8_acknowledgement app42 dev0_sent7 200 peer 1 ack2_42 (by decide) (by decide)).1
      (by decide)).2.2.1 (by decide)⟩

/-- The dispatcher on a well-formed INITACK (lines 161-181). -/
theorem onPacketReceived_initack (app : AppHandler) (s : State) (t : Nat) (src : IPAddress)
    (port : Nat) (p : List Nat) (hwf : wellFormed s p) (hack : pktCommand p = INITACK) :
    onPacketReceived app s t src port p =
      ({ sessionUp s t src with lastReceivedMsgId := 0, sentCount := 0, isSending := false },
       sessionEvents s t) := by
  obtain ⟨h20, hid⟩ := hwf
  have hsz : ¬ (p.length < 20) := by omega
  simp only [pktCommand] at hack
  have n1 : ¬ (INITACK = INIT) := by decide
  cases h1 : s.wifiConnected <;> cases h2 : s.serverConnected <;>
    simp [onPacketReceived, hsz, hid, hack, h1, h2, sessionUp, sessionEvents, n1]

/-- The payload copied behind the header is read back unchanged. -/
theorem drop_assembled (b p : List Nat) (hfit : 20 + p.length ≤ b.length) :
    ((copyPayload b p p.length).take (20 + p.length)).drop 20 = p := by
  apply List.ext_getElem?
  intro j
  rw [List.getElem?_drop]
  by_cases hj : j < p.length
  · have h1 : 20 + j < 20 + p.length := by omega
    have h2 : 20 ≤ 20 + j ∧ 20 + j < 20 + p.length := by omega
    have h3 : 20 + j < b.length := by omega
    rw [List.getElem?_take_of_lt h1, getElem?_copyPayload, if_pos h2,
      List.getElem?_eq_getElem h3, Nat.add_sub_cancel_left, List.getElem?_eq_getElem hj]
    simp [List.getD_eq_getElem?_getD, List.getElem?_eq_getElem hj]
  · have h1 : 20 + p.length ≤ 20 + j := by omega
    rw [List.getElem?_take_eq_none h1, List.getElem?_eq_none (by omega)]

theorem length_assembled (b p : List Nat) (m c a1 a2 a3 a4 n : Nat)
    (hfit : 20 + n ≤ b.length) :
    ((copyPayload (writeHeader b m c a1 a2 a3 a4) p n).take (20 + n)).length = 20 + n := by
  rw [List.length_take, length_copyPayload, length_writeHeader]
  omega

theorem headerOf_of_fieldAt (d : List Nat) (m c a1 a2 a3 a4 : Nat)
    (hm : m < U16) (hc : c < U16) (h1 : a1 < U16) (h2 : a2 < U16) (h3 : a3 < U16)
    (h4 : a4 < U16)
    (f1 : fieldAt d 8 2 m) (f2 : fieldAt d 10 2 c) (f3 : fieldAt d 12 2 a1)
    (f4 : fieldAt d 14 2 a2) (f5 : fieldAt d 16 2 a3) (f6 : fieldAt d 18 2 a4) :
    headerOf d = (m, c, a1, a2, a3, a4) := by
  simp only [headerOf]
  rw [read2_of_fieldAt _ 8 m f1 hm, read2_of_fieldAt _ 10 c f2 hc,
    read2_of_fieldAt _ 12 a1 f3 h1, read2_of_fieldAt _ 14 a2 f4 h2,
    read2_of_fieldAt _ 16 a3 f5 h3, read2_of_fieldAt _ 18 a4 f6 h4]

/-- The six header fields of a buffer in which a packet was assembled. -/
theorem headerOf_assembled_buffer (b p : List Nat) (m c a1 a2 a3 a4 n : Nat)
    (hb : 20 ≤ b.length)
    (hm : m < U16) (hc : c < U16) (h1 : a1 < U16) (h2 : a2 < U16) (h3 : a3 < U16)
    (h4 : a4 < U16) :
    headerOf (copyPayload (writeHeader b m c a1 a2 a3 a4) p n) = (m, c, a1, a2, a3, a4) := by
  obtain ⟨f1, f2, f3, f4, f5, f6⟩ := fieldAt_writeHeader b m c a1 a2 a3 a4 hb hm hc h1 h2 h3 h4
  exact headerOf_of_fieldAt _ _ _ _ _ _ _ hm hc h1 h2 h3 h4
    (fieldAt_copyPayload_other _ _ _ _ _ _ f1 (by omega))
    (fieldAt_copyPayload_other _ _ _ _ _ _ f2 (by omega))
    (fieldAt_copyPayload_other _ _ _ _ _ _ f3 (by omega))
    (fieldAt_copyPayload_other _ _ _ _ _ _ f4 (by omega))
    (fieldAt_copyPayload_other _ _ _ _ _ _ f5 (by omega))
    (fieldAt_copyPayload_other _ _ _ _ _ _ f6 (by omega))

theorem INIT_lt : INIT < U16 := by decide

/-- The state and trace of `begin`, spelled out. -/
theorem begin_eq (s0 : State) (millis port serverPort serverId : Nat)
    (hlen : 20 + s0.deviceType.length < U16) :
    begin s0 millis port serverPort serverId =
      ({ s0 with
          serverAddress := broadcast
          serverPort := serverPort
          serverId := serverId
          serverConnected := false
          wifiConnected := false
          isSending := true
          isBlocking := true
          sentCount := 1
          lastReceiveTime := 0
          lastSentTime := millis
          curMsgId := 1
          sendBufferSize := 20 + s0.deviceType.length
          sendBuffer := copyPayload
            (writeHeader (_writeIntegerToBuffer s0.sendBuffer s0.deviceId 0 8) 1 INIT
              s0.deviceVersion serverId 0 0) s0.deviceType s0.deviceType.length
          replyPacket := _writeIntegerToBuffer s0.replyPacket s0.deviceId 0 8 },
       [Event.sendPacket broadcast serverPort
          ((copyPayload
            (writeHeader (_writeIntegerToBuffer s0.sendBuffer s0.deviceId 0 8) 1 INIT
              s0.deviceVersion serverId 0 0) s0.deviceType s0.deviceType.length).take
            (20 + s0.deviceType.length))]) := by
  have h1 : s0.deviceType.length % U16 = s0.deviceType.length := by
    apply Nat.mod_eq_of_lt
    omega
  have h2 : (20 + s0.deviceType.length) % U16 = 20 + s0.deviceType.length :=
    Nat.mod_eq_of_lt hlen
  have h3 : (0 + 1) % U16 = 1 := by decide
  simp [begin, sendPacketToServer_str, _sendPacketToServer, h1, h2, h3]


/-- C10. `begin` leaves the outbound slot occupied by a blocking message with id 1
and `sentCount = 1`.  When the device type fits the send buffer behind the 20-byte
header and version and server id are 16-bit values, the buffered message is INIT
with arg1 = deviceVersion, arg2 = serverId and payload = deviceType, and it is
transmitted once to the broadcast address.  Any well-formed INITACK delivered to
that state clears `isSending` and sets `lastReceivedMsgId` and `sentCount` to 0. -/
theorem C10_handshake (s0 : State) (millis port serverPort serverId : Nat) :
    ((begin s0 millis port serverPort serverId).1.isSending = true ∧
      (begin s0 millis port serverPort serverId).1.isBlocking = true ∧
      (begin s0 millis port serverPort serverId).1.curMsgId = 1 ∧
      (begin s0 millis port serverPort serverId).1.sentCount = 1) ∧
    (20 + s0.deviceType.length ≤ s0.sendBuffer.length → 20 + s0.deviceType.length < U16 →
      s0.deviceVersion < U16 → serverId < U16 →
      headerOf (begin s0 millis port serverPort serverId).1.sendBuffer
        = (1, INIT, s0.deviceVersion, serverId, 0, 0) ∧
      ((begin s0 millis port serverPort serverId).1.sendBuffer.take
          (begin s0 millis port serverPort serverId).1.sendBufferSize).drop 20
        = s0.deviceType ∧
      (begin s0 millis port serverPort serverId).2
        = [Event.sendPacket broadcast serverPort
            ((begin s0 millis port serverPort serverId).1.sendBuffer.take
              (begin s0 millis port serverPort serverId).1.sendBufferSize)]) ∧
    (∀ (app : AppHandler) (t : Nat) (src : IPAddress) (srcPort : Nat) (p : List Nat),
      wellFormed (begin s0 millis port serverPort serverId).1 p → pktCommand p = INITACK →
      (onPacketReceived app (begin s0 millis port serverPort serverId).1 t src srcPort
        p).1.isSending = false ∧
      (onPacketReceived app (begin s0 millis port serverPort serverId).1 t src srcPort
        p).1.lastReceivedMsgId = 0 ∧
      (onPacketReceived app (begin s0 millis port serverPort serverId).1 t src srcPort
        p).1.sentCount = 0) := by
  refine ⟨?_, ?_, ?_⟩
  · have h3 : 1 % U16 = 1 := by decide
    simp [begin, sendPacketToServer_str, _sendPacketToServer, h3]
  · intro hfit hlen hver hsid
    rw [begin_eq s0 millis port serverPort serverId hlen]
    have hb : 20 ≤ (_writeIntegerToBuffer s0.sendBuffer s0.deviceId 0 8).length := by
      rw [length_writeInt]
      omega
    have hone : 1 < U16 := by decide
    refine ⟨headerOf_assembled_buffer _ _ _ _ _ _ _ _ _ hb hone INIT_lt hver hsid
      zero_lt_U16 zero_lt_U16, ?_, rfl⟩
    apply drop_assembled
    rw [length_writeHeader, length_writeInt]
    exact hfit
  · intro app t src srcPort p hwf hack
    rw [onPacketReceived_initack app _ t src srcPort p hwf hack]
    exact ⟨rfl, rfl, rfl⟩

/-- Witness for C10: `begin` on `dev0`, then an INITACK carrying id 9. -/
theorem C10_handshake_witness :
    (20 + dev0.deviceType.length ≤ dev0.sendBuffer.length ∧ 20 + dev0.deviceType.length < U16 ∧
      dev0.deviceVersion < U16 ∧ 0 < U16 ∧
      headerOf (begin dev0 100 1 4000 0).1.sendBuffer = (1, INIT, dev0.deviceVersion, 0, 0, 0)) ∧
    (wellFormed (begin dev0 100 1 4000 0).1 initack9 ∧ pktCommand initack9 = INITACK ∧
      (onPacketReceived app42 (begin dev0 100 1 4000 0).1 200 peer 1 initack9).1.isSending
        = false) :=
  ⟨⟨by decide, by decide, by decide, by decide,
    ((C10_handshake dev0 100 1 4000 0).2.1 (by decide) (by decide) (by decide)
      (by decide)).1⟩,
   ⟨by decide, by decide,
    ((C10_handshake dev0 100 1 4000 0).2.2 app42 200 peer 1 initack9 (by decide)
      (by decide)).1⟩⟩

/-! ## Retry and give-up -/

/-- A tick with the link up and no datagram arriving, while the slot is occupied
(lines 56-88). -/
theorem update_quiet_sending (app : AppHandler) (s : State) (t m : Nat)
    (hs : s.isSending = true) :
    update app s true t [] m =
      if ulongSub t s.lastSentTime
          > (if s.serverConnected then CONNECTED_SEND_INTERVAL else DISCONNECTED_SEND_INTERVAL)
      then
        if s.serverConnected = true ∧ s.sentCount ≥ CONNECTED_SEND_COUNT then
          ({ s with wifiConnected := true, serverConnected := false, serverAddress := broadcast },
           (if s.wifiConnected then [] else [Event.onWiFiConnected t]) ++
             [Event.onServerDisconnected t])
        else
          ({ s with wifiConnected := true, sentCount := (s.sentCount + 1) % U8,
                    lastSentTime := t },
           (if s.wifiConnected then [] else [Event.onWiFiConnected t]) ++
             [Event.sendPacket s.serverAddress s.serverPort
                (s.sendBuffer.take s.sendBufferSize)])
      else
        ({ s with wifiConnected := true },
         if s.wifiConnected then [] else [Event.onWiFiConnected t]) := by
  cases h1 : s.serverConnected <;>
    by_cases h2 : s.sentCount ≥ CONNECTED_SEND_COUNT <;>
    simp [update, BasicUDP_update, hs, h1, h2]

/-- Without arriving datagrams a tick never raises the server session. -/
theorem update_quiet_stays_down (app : AppHandler) (s : State) (t m : Nat)
    (hd : s.serverConnected = false) :
    (update app s true t [] m).1.serverConnected = false := by
  cases hs : s.isSending
  · by_cases h : ulongSub t s.lastReceiveTime ≥ MAX_IDLE_TIME <;>
      simp [update, BasicUDP_update, hs, hd, h, _sendPacketToServer]
  · rw [update_quiet_sending app s t m hs]
    simp only [hd]
    split_ifs <;> simp_all

theorem quietRun_stays_down (app : AppHandler) (ticks : List (Nat × Nat)) :
    ∀ s : State, s.serverConnected = false →
      (quietRun app s ticks).1.serverConnected = false := by
  induction ticks with
  | nil =>
    intro s hd
    exact hd
  | cons t ts ih =>
    intro s hd
    simp only [quietRun]
    exact ih _ (update_quiet_stays_down app s t.1 t.2 hd)


theorem transmissions_wifi (s : State) (t : Nat) :
    transmissions (if s.wifiConnected then [] else [Event.onWiFiConnected t]) = [] := by
  cases h : s.wifiConnected <;> simp [transmissions, h]

/-- One quiet tick on an occupied slot of a connected session that leaves the
session connected: either nothing is transmitted, or the buffered datagram is
retransmitted after more than `CONNECTED_SEND_INTERVAL` ms and `sentCount` grows
by one. -/
theorem update_quiet_connected (app : AppHandler) (u : State) (t m : Nat)
    (hs : u.isSending = true) (hc : u.serverConnected = true)
    (hn : u.sentCount ≤ CONNECTED_SEND_COUNT)
    (hc2 : (update app u true t [] m).1.serverConnected = true) :
    (update app u true t [] m).1.isSending = true ∧
    (update app u true t [] m).1.sendBuffer = u.sendBuffer ∧
    (update app u true t [] m).1.sendBufferSize = u.sendBufferSize ∧
    (update app u true t [] m).1.serverAddress = u.serverAddress ∧
    (update app u true t [] m).1.serverPort = u.serverPort ∧
    (update app u true t [] m).1.wifiConnected = true ∧
    (update app u true t [] m).1.sentCount ≤ CONNECTED_SEND_COUNT ∧
    ((transmissions (update app u true t [] m).2 = [] ∧
        (update app u true t [] m).1.sentCount = u.sentCount) ∨
     (transmissions (update app u true t [] m).2
          = [Event.sendPacket u.serverAddress u.serverPort (u.sendBuffer.take u.sendBufferSize)] ∧
        (update app u true t [] m).1.sentCount = u.sentCount + 1 ∧
        ulongSub t u.lastSentTime > CONNECTED_SEND_INTERVAL)) := by
  rw [update_quiet_sending app u t m hs] at hc2 ⊢
  simp only [hc, if_true] at hc2 ⊢
  by_cases h1 : ulongSub t u.lastSentTime > CONNECTED_SEND_INTERVAL
  · rw [if_pos h1] at hc2 ⊢
    by_cases h2 : True ∧ u.sentCount ≥ CONNECTED_SEND_COUNT
    · rw [if_pos h2] at hc2
      simp at hc2
    · rw [if_neg h2]
      have h3 : u.sentCount < 5 := by
        simp only [CONNECTED_SEND_COUNT, true_and, ge_iff_le, not_le] at h2
        exact h2
      have h4 : (u.sentCount + 1) % U8 = u.sentCount + 1 := by
        apply Nat.mod_eq_of_lt
        simp only [U8]
        omega
      refine ⟨hs, rfl, rfl, rfl, rfl, rfl, ?_, Or.inr ⟨?_, h4, h1⟩⟩
      · show (u.sentCount + 1) % U8 ≤ CONNECTED_SEND_COUNT
        rw [h4]
        simp only [CONNECTED_SEND_COUNT]
        omega
      · simp only [transmissions_append, transmissions_wifi]
        simp [transmissions]
  · rw [if_neg h1]
    exact ⟨hs, rfl, rfl, rfl, rfl, rfl, hn, Or.inl ⟨transmissions_wifi u t, rfl⟩⟩

/-- A quiet run on an occupied slot of a connected session that ends with the session
still connected: only the buffered datagram was transmitted, once per increment of
`sentCount`. -/
theorem quietRun_connected (app : AppHandler) (ticks : List (Nat × Nat)) :
    ∀ u : State, u.isSending = true → u.serverConnected = true →
      u.sentCount ≤ CONNECTED_SEND_COUNT →
      (quietRun app u ticks).1.serverConnected = true →
      (quietRun app u ticks).1.isSending = true ∧
      (quietRun app u ticks).1.sendBuffer = u.sendBuffer ∧
      (quietRun app u ticks).1.sendBufferSize = u.sendBufferSize ∧
      (quietRun app u ticks).1.serverAddress = u.serverAddress ∧
      (quietRun app u ticks).1.serverPort = u.serverPort ∧
      (ticks ≠ [] → (quietRun app u ticks).1.wifiConnected = true) ∧
      (quietRun app u ticks).1.sentCount ≤ CONNECTED_SEND_COUNT ∧
      u.sentCount ≤ (quietRun app u ticks).1.sentCount ∧
      transmissions (quietRun app u ticks).2
        = List.replicate ((quietRun app u ticks).1.sentCount - u.sentCount)
            (Event.sendPacket u.serverAddress u.serverPort
              (u.sendBuffer.take u.sendBufferSize)) := by
  induction ticks with
  | nil =>
    intro u hs _ hn _
    simp [quietRun, hs, hn, transmissions]
  | cons t ts ih =>
    intro u hs hc hn hend
    simp only [quietRun] at hend ⊢
    have hc1 : (update app u true t.1 [] t.2).1.serverConnected = true := by
      by_contra hcon
      have hf : (update app u true t.1 [] t.2).1.serverConnected = false := by
        simpa using hcon
      rw [quietRun_stays_down app ts _ hf] at hend
      exact Bool.noConfusion hend
    obtain ⟨a1, a2, a3, a4, a5, a6, a7, a8⟩ :=
      update_quiet_connected app u t.1 t.2 hs hc hn hc1
    obtain ⟨b1, b2, b3, b4, b5, b6, b7, b8, b9⟩ := ih _ a1 hc1 a7 hend
    have hw : (quietRun app (update app u true t.1 [] t.2).1 ts).1.wifiConnected = true := by
      cases ts with
      | nil => simpa [quietRun] using a6
      | cons x xs => exact b6 (by simp)
    refine ⟨b1, b2.trans a2, b3.trans a3, b4.trans a4, b5.trans a5, fun _ => hw, b7, ?_, ?_⟩
    · rcases a8 with ⟨_, e⟩ | ⟨_, e, _⟩ <;> omega
    · rw [transmissions_append, b9, a2, a3, a4, a5]
      rcases a8 with ⟨e1, e2⟩ | ⟨e1, e2, _⟩
      · rw [e1, e2]
        rfl
      · rw [e1, e2]
        have hk : (quietRun app (update app u true t.1 [] t.2).1 ts).1.sentCount - u.sentCount
            = ((quietRun app (update app u true t.1 [] t.2).1 ts).1.sentCount
                - (u.sentCount + 1)) + 1 := by
          omega
        rw [hk, List.replicate_succ]
        rfl

theorem quietRun_append (app : AppHandler) (a b : List (Nat × Nat)) :
    ∀ s : State, quietRun app s (a ++ b) =
      ((quietRun app (quietRun app s a).1 b).1,
       (quietRun app s a).2 ++ (quietRun app (quietRun app s a).1 b).2) := by
  induction a with
  | nil =>
    intro s
    simp [quietRun]
  | cons t ts ih =>
    intro s
    rw [List.cons_append]
    simp only [quietRun]
    rw [ih]
    simp only [List.append_assoc]


/-- The subtraction of lines 66 and 91 is the difference modulo 2^32. -/
theorem ulongSub_emod (a b : Nat) :
    ((ulongSub a b : Nat) : Int) = ((a : Int) - (b : Int)) % 4294967296 := by
  unfold ulongSub ULONG
  omega

/-- Without wrap-around the subtraction is the plain difference. -/
theorem ulongSub_of_le (a b : Nat) (ha : a < 4294967296) (hb : b ≤ a) :
    ulongSub a b = a - b := by
  unfold ulongSub ULONG
  omega

/-- When the clock has wrapped, the subtraction adds 2^32. -/
theorem ulongSub_of_lt (a b : Nat) (hb : b < 4294967296) (hab : a < b) :
    ulongSub a b = a + 4294967296 - b := by
  unfold ulongSub ULONG
  omega

/-- A quiet tick on an occupied slot keeps it occupied, and `lastSentTime` becomes
the time of the tick exactly when the tick transmits. -/
theorem update_quiet_sending_time (app : AppHandler) (s : State) (t m : Nat)
    (hs : s.isSending = true) :
    (update app s true t [] m).1.isSending = true ∧
    (update app s true t [] m).1.lastSentTime
      = (if transmissions (update app s true t [] m).2 = [] then s.lastSentTime else t) := by
  rw [update_quiet_sending app s t m hs]
  by_cases h1 : ulongSub t s.lastSentTime
      > (if s.serverConnected then CONNECTED_SEND_INTERVAL else DISCONNECTED_SEND_INTERVAL)
  · rw [if_pos h1]
    by_cases h2 : s.serverConnected = true ∧ s.sentCount ≥ CONNECTED_SEND_COUNT
    · rw [if_pos h2]
      refine ⟨hs, ?_⟩
      simp [transmissions_append, transmissions_wifi, transmissions]
    · rw [if_neg h2]
      refine ⟨hs, ?_⟩
      simp [transmissions_append, transmissions_wifi, transmissions]
  · rw [if_neg h1]
    refine ⟨hs, ?_⟩
    simp [transmissions_wifi]

/-- On an occupied slot the field `lastSentTime` is the time of the most recent
transmission, throughout a quiet run. -/
theorem lastTransmissionTime_eq (app : AppHandler) (ticks : List (Nat × Nat)) :
    ∀ s : State, s.isSending = true →
      lastTransmissionTime app s s.lastSentTime ticks
        = (quietRun app s ticks).1.lastSentTime := by
  induction ticks with
  | nil =>
    intro s _
    rfl
  | cons t ts ih =>
    intro s hs
    obtain ⟨h1, h2⟩ := update_quiet_sending_time app s t.1 t.2 hs
    simp only [lastTransmissionTime, quietRun]
    rw [← h2]
    exact ih _ h1

/-- An accepted send, spelled out (lines 351-381). -/
theorem send_accepted_eq (s : State) (millis command arg1 arg2 arg3 arg4 : Nat)
    (pData : List Nat) (size : Nat) (blocking forceSend : Bool)
    (hacc : ¬ (s.isSending = true ∧ s.isBlocking = true ∧ forceSend = false)) :
    _sendPacketToServer s millis command arg1 arg2 arg3 arg4 pData size blocking forceSend =
      ((if s.curMsgId = 65535 then 1 else (s.curMsgId + 1) % U16),
       { s with
          curMsgId := (if s.curMsgId = 65535 then 1 else (s.curMsgId + 1) % U16)
          sendBuffer := copyPayload (writeHeader s.sendBuffer
            (if s.curMsgId = 65535 then 1 else (s.curMsgId + 1) % U16)
            command arg1 arg2 arg3 arg4) pData size
          isSending := true
          isBlocking := blocking
          sentCount := 1
          sendBufferSize := (20 + size) % U16
          lastSentTime := millis },
       (if s.isSending = true ∧ _readIntegerFromBuffer s.sendBuffer 10 2 ≠ PING
          then [Event.onPacketCancelled s.curMsgId] else []) ++
         [Event.sendPacket s.serverAddress s.serverPort
            ((copyPayload (writeHeader s.sendBuffer
              (if s.curMsgId = 65535 then 1 else (s.curMsgId + 1) % U16)
              command arg1 arg2 arg3 arg4) pData size).take ((20 + size) % U16))]) := by
  have hc := reject_flag_false s forceSend hacc
  simp only [_sendPacketToServer, hc, Bool.false_eq_true, if_false]
  by_cases hp : s.isSending = true ∧ _readIntegerFromBuffer s.sendBuffer 10 2 ≠ PING
  · simp [hp.1, hp.2]
  · rw [if_neg hp]
    cases h1 : s.isSending
    · simp
    · have : _readIntegerFromBuffer s.sendBuffer 10 2 = PING := by
        by_contra h
        exact hp ⟨h1, h⟩
      simp [this]

/-- What an accepted send leaves behind. -/
theorem send_accepted_facts (s : State) (millis command arg1 arg2 arg3 arg4 : Nat)
    (pData : List Nat) (size : Nat) (blocking forceSend : Bool)
    (hacc : ¬ (s.isSending = true ∧ s.isBlocking = true ∧ forceSend = false)) :
    (_sendPacketToServer s millis command arg1 arg2 arg3 arg4 pData size blocking
      forceSend).2.1.isSending = true ∧
    (_sendPacketToServer s millis command arg1 arg2 arg3 arg4 pData size blocking
      forceSend).2.1.sentCount = 1 ∧
    (_sendPacketToServer s millis command arg1 arg2 arg3 arg4 pData size blocking
      forceSend).2.1.serverConnected = s.serverConnected ∧
    (_sendPacketToServer s millis command arg1 arg2 arg3 arg4 pData size blocking
      forceSend).2.1.serverAddress = s.serverAddress ∧
    (_sendPacketToServer s millis command arg1 arg2 arg3 arg4 pData size blocking
      forceSend).2.1.serverPort = s.serverPort ∧
    transmissions (_sendPacketToServer s millis command arg1 arg2 arg3 arg4 pData size blocking
      forceSend).2.2
      = [Event.sendPacket s.serverAddress s.serverPort
          ((_sendPacketToServer s millis command arg1 arg2 arg3 arg4 pData size blocking
              forceSend).2.1.sendBuffer.take
            (_sendPacketToServer s millis command arg1 arg2 arg3 arg4 pData size blocking
              forceSend).2.1.sendBufferSize)] := by
  rw [send_accepted_eq s millis command arg1 arg2 arg3 arg4 pData size blocking forceSend hacc]
  refine ⟨rfl, rfl, rfl, rfl, rfl, ?_⟩
  rw [transmissions_append]
  split <;> simp [transmissions]

/-- A quiet tick on an occupied slot of a connected session that leaves the session
connected transmits exactly when the test of line 68 succeeds. -/
theorem update_quiet_connected_iff (app : AppHandler) (u : State) (t m : Nat)
    (hs : u.isSending = true) (hc : u.serverConnected = true)
    (hc2 : (update app u true t [] m).1.serverConnected = true) :
    transmissions (update app u true t [] m).2 ≠ []
      ↔ ulongSub t u.lastSentTime > CONNECTED_SEND_INTERVAL := by
  rw [update_quiet_sending app u t m hs] at hc2 ⊢
  simp only [hc, if_true] at hc2 ⊢
  by_cases h1 : ulongSub t u.lastSentTime > CONNECTED_SEND_INTERVAL
  · rw [if_pos h1] at hc2 ⊢
    by_cases h2 : True ∧ u.sentCount ≥ CONNECTED_SEND_COUNT
    · rw [if_pos h2] at hc2
      simp at hc2
    · rw [if_neg h2]
      simp [transmissions_append, transmissions_wifi, transmissions, h1]
  · rw [if_neg h1]
    simp [transmissions_wifi, h1]

/-- C9. After an accepted send at time `millis` on a connected session, run any
sequence of ticks with the link up and no datagram arriving.  If after `ticks` the
session is still connected and the next tick takes it down, then the transmissions
so far, the initial one included, are exactly 5 copies of the buffered datagram to
the server.  The send records `millis` as `lastSentTime`.  A tick of the run
transmits exactly when its time minus the time of the previous transmission,
modulo 2^32, is above 1000 ms, the previous transmission being the send or the
last tick before it that transmitted.  The give-up tick comes more than 1000 ms
after the last transmission, and its trace is the server-session-down notification
and nothing else. -/
theorem C9_give_up_timing (app : AppHandler) (s S : State) (id : Nat) (evs : List Event)
    (millis command arg1 arg2 arg3 arg4 : Nat) (pData : List Nat) (size : Nat)
    (blocking forceSend : Bool) (ticks : List (Nat × Nat)) (tick : Nat × Nat)
    (hacc : ¬ (s.isSending = true ∧ s.isBlocking = true ∧ forceSend = false))
    (hsend : _sendPacketToServer s millis command arg1 arg2 arg3 arg4 pData size blocking
      forceSend = (id, S, evs))
    (hconn : s.serverConnected = true)
    (hrun : (quietRun app S ticks).1.serverConnected = true)
    (hdown : (update app (quietRun app S ticks).1 true tick.1 [] tick.2).1.serverConnected
      = false) :
    transmissions (evs ++ (quietRun app S ticks).2)
      = List.replicate 5
          (Event.sendPacket s.serverAddress s.serverPort (S.sendBuffer.take S.sendBufferSize)) ∧
    S.lastSentTime = millis ∧
    (∀ (pre post : List (Nat × Nat)) (t : Nat × Nat), ticks = pre ++ t :: post →
      (quietRun app S pre).1.lastSentTime = lastTransmissionTime app S millis pre ∧
      (transmissions (update app (quietRun app S pre).1 true t.1 [] t.2).2 ≠ []
        ↔ ((t.1 : Int) - (lastTransmissionTime app S millis pre : Int)) % 4294967296
            > 1000)) ∧
    ((tick.1 : Int) - (lastTransmissionTime app S millis ticks : Int)) % 4294967296 > 1000 ∧
    (update app (quietRun app S ticks).1 true tick.1 [] tick.2).2
      = [Event.onServerDisconnected tick.1] := by
  obtain ⟨s1, s2, s3, s4, s5, s6⟩ := send_accepted_facts s millis command arg1 arg2 arg3 arg4
    pData size blocking forceSend hacc
  have s7 : (_sendPacketToServer s millis command arg1 arg2 arg3 arg4 pData size blocking
      forceSend).2.1.lastSentTime = millis := by
    simp only [_sendPacketToServer, reject_flag_false s forceSend hacc, Bool.false_eq_true,
      if_false]
  have hi : ∀ a b : Nat, ulongSub a b > CONNECTED_SEND_INTERVAL
      ↔ ((a : Int) - (b : Int)) % 4294967296 > 1000 := by
    intro a b
    unfold ulongSub ULONG CONNECTED_SEND_INTERVAL
    omega
  rw [hsend] at s1 s2 s3 s4 s5 s6 s7
  simp only at s1 s2 s3 s4 s5 s6 s7
  have hSc : S.serverConnected = true := s3.trans hconn
  have hS5 : S.sentCount ≤ CONNECTED_SEND_COUNT := by
    rw [s2]
    decide
  have hlast : ∀ l : List (Nat × Nat),
      lastTransmissionTime app S millis l = (quietRun app S l).1.lastSentTime := by
    intro l
    have h := lastTransmissionTime_eq app l S s1
    rw [s7] at h
    exact h
  obtain ⟨r1, r2, r3, r4, r5, r6, r7, r8, r9⟩ := quietRun_connected app ticks S s1 hSc hS5 hrun
  -- the give-up tick
  have hg := update_quiet_sending app (quietRun app S ticks).1 tick.1 tick.2 r1
  simp only [hrun, if_true] at hg
  have hel : ulongSub tick.1 (quietRun app S ticks).1.lastSentTime > CONNECTED_SEND_INTERVAL := by
    by_contra hno
    rw [hg, if_neg hno] at hdown
    simp only [hrun] at hdown
    exact Bool.noConfusion hdown
  have hcnt : (quietRun app S ticks).1.sentCount ≥ CONNECTED_SEND_COUNT := by
    by_contra hno
    have hno2 : ¬ (True ∧ (quietRun app S ticks).1.sentCount ≥ CONNECTED_SEND_COUNT) := by
      simpa using hno
    rw [hg, if_pos hel, if_neg hno2] at hdown
    simp only [hrun] at hdown
    exact Bool.noConfusion hdown
  have h5 : (quietRun app S ticks).1.sentCount = 5 := by
    simp only [CONNECTED_SEND_COUNT] at r7 hcnt
    omega
  have hne : ticks ≠ [] := by
    intro he
    rw [he] at h5
    simp only [quietRun] at h5
    omega
  refine ⟨?_, s7, ?_, ?_, ?_⟩
  · rw [transmissions_append, s6, r9, h5, s2, s4, s5]
    rfl
  · intro pre post t hsplit
    have hrun2 := hrun
    rw [hsplit, quietRun_append] at hrun2
    simp only [quietRun] at hrun2
    have hpre : (quietRun app S pre).1.serverConnected = true := by
      by_contra hcon
      have hf : (quietRun app S pre).1.serverConnected = false := by simpa using hcon
      have hf2 := update_quiet_stays_down app _ t.1 t.2 hf
      rw [quietRun_stays_down app post _ hf2] at hrun2
      exact Bool.noConfusion hrun2
    obtain ⟨p1, _, _, _, _, _, _, _, _⟩ := quietRun_connected app pre S s1 hSc hS5 hpre
    have hstep : (update app (quietRun app S pre).1 true t.1 [] t.2).1.serverConnected = true := by
      by_contra hcon
      have hf : (update app (quietRun app S pre).1 true t.1 [] t.2).1.serverConnected = false := by
        simpa using hcon
      rw [quietRun_stays_down app post _ hf] at hrun2
      exact Bool.noConfusion hrun2
    refine ⟨(hlast pre).symm, ?_⟩
    rw [hlast pre]
    exact (update_quiet_connected_iff app _ t.1 t.2 p1 hpre hstep).trans
      (hi _ _)
  · rw [hlast ticks]
    exact (hi _ _).mp hel
  · have hyes : True ∧ (quietRun app S ticks).1.sentCount ≥ CONNECTED_SEND_COUNT := ⟨trivial, hcnt⟩
    rw [hg, if_pos hel, if_pos hyes]
    simp [r6 hne]

/-- Witness for C9: command 7 sent at 100 ms on `dev0_connected`, then the nine
ticks of `ticks9`.  The ticks at 1100, 2101, 3102, 4103 and 5104 ms come exactly
1000 ms after the previous transmission and transmit nothing; the ticks at 1101,
2102, 3103 and 4104 ms come 1001 ms after it and retransmit; the tick at 5105 ms
gives up.  With the send at 4294967000 ms instead, the tick at 704 ms, after the
clock has wrapped, is 1000 ms later and transmits nothing, the tick at 705 ms
retransmits. -/
theorem C9_give_up_timing_witness :
    ¬ (dev0_connected.isSending = true ∧ dev0_connected.isBlocking = true ∧ false = false) ∧
    dev0_connected.serverConnected = true ∧
    (quietRun app42 dev0_sent7 ticks9).1.serverConnected = true ∧
    (update app42 (quietRun app42 dev0_sent7 ticks9).1 true 5105 [] 5105).1.serverConnected
      = false ∧
    transmissions ((_sendPacketToServer dev0_connected 100 7 1 2 3 4 [] 0 true false).2.2 ++
        (quietRun app42 dev0_sent7 ticks9).2)
      = List.replicate 5
          (Event.sendPacket peer 4000
            [7, 0, 0, 0, 0, 0, 0, 0, 2, 0, 7, 0, 1, 0, 2, 0, 3, 0, 4, 0]) ∧
    dev0_sent7.lastSentTime = 100 ∧
    transmissions (update app42 dev0_sent7 true 1100 [] 1100).2 = [] ∧
    transmissions (update app42 dev0_sent7 true 1101 [] 1101).2
      = [Event.sendPacket peer 4000
          [7, 0, 0, 0, 0, 0, 0, 0, 2, 0, 7, 0, 1, 0, 2, 0, 3, 0, 4, 0]] ∧
    transmissions (quietRun app42 dev0_sent7 ticks9).2
      = List.replicate 4
          (Event.sendPacket peer 4000
            [7, 0, 0, 0, 0, 0, 0, 0, 2, 0, 7, 0, 1, 0, 2, 0, 3, 0, 4, 0]) ∧
    lastTransmissionTime app42 dev0_sent7 100 ticks9 = 4104 ∧
    (quietRun app42 dev0_sent7 ticks9).1.lastSentTime = 4104 ∧
    (update app42 (quietRun app42 dev0_sent7 ticks9).1 true 5104 [] 5104).2 = [] ∧
    (update app42 (quietRun app42 dev0_sent7 ticks9).1 true 5105 [] 5105).2
      = [Event.onServerDisconnected 5105] ∧
    dev0_sentLate.lastSentTime = 4294967000 ∧
    transmissions (update app42 dev0_sentLate true 704 [] 704).2 = [] ∧
    transmissions (update app42 dev0_sentLate true 705 [] 705).2
      = [Event.sendPacket peer 4000
          [7, 0, 0, 0, 0, 0, 0, 0, 2, 0, 7, 0, 1, 0, 2, 0, 3, 0, 4, 0]] :=
  ⟨by decide, by decide, by decide, by decide,
   (C9_give_up_timing app42 dev0_connected dev0_sent7
      (_sendPacketToServer dev0_connected 100 7 1 2 3 4 [] 0 true false).1
      (_sendPacketToServer dev0_connected 100 7 1 2 3 4 [] 0 true false).2.2
      100 7 1 2 3 4 [] 0 true false ticks9 (5105, 5105)
      (by decide) rfl (by decide) (by decide) (by decide)).1,
   by decide, by decide, by decide, by decide, by decide, by decide, by decide, by decide,
   by decide, by decide, by decide⟩

/-! ## Wire format of outbound packets -/

/-- The dispatcher on a datagram that fails one of the guards of lines 130-144. -/
theorem onPacketReceived_malformed (app : AppHandler) (s : State) (t : Nat) (src : IPAddress)
    (port : Nat) (p : List Nat) (hwf : ¬ wellFormed s p) :
    onPacketReceived app s t src port p =
      ({ s with wifiConnected := true },
       if s.wifiConnected then [] else [Event.onWiFiConnected t]) := by
  by_cases hsz : p.length < 20
  · simp [onPacketReceived, hsz]
  · have hid : ¬ (s.deviceId = _readIntegerFromBuffer p 0 8) := by
      intro h
      exact hwf ⟨by omega, h.symm⟩
    simp [onPacketReceived, hsz, hid]

/-- The dispatcher on a well-formed INIT (lines 161-172). -/
theorem onPacketReceived_init (app : AppHandler) (s : State) (t : Nat) (src : IPAddress)
    (port : Nat) (p : List Nat) (hwf : wellFormed s p) (hc : pktCommand p = INIT) :
    onPacketReceived app s t src port p =
      ((_sendReplyPacket { sessionUp s t src with lastReceivedMsgId := 0, sentCount := 0 }
          (pktMsgId p) INITACK s.deviceVersion s.serverId 0 0 s.deviceType
          (s.deviceType.length % U16)).1,
       sessionEvents s t ++
         (_sendReplyPacket { sessionUp s t src with lastReceivedMsgId := 0, sentCount := 0 }
          (pktMsgId p) INITACK s.deviceVersion s.serverId 0 0 s.deviceType
          (s.deviceType.length % U16)).2) := by
  obtain ⟨h20, hid⟩ := hwf
  have hsz : ¬ (p.length < 20) := by omega
  simp only [pktCommand] at hc
  cases h1 : s.wifiConnected <;> cases h2 : s.serverConnected <;>
    simp [onPacketReceived, hsz, hid, hc, h1, h2, sessionUp, sessionEvents, pktMsgId]

/-- The dispatcher on a well-formed PING (lines 183-191). -/
theorem onPacketReceived_ping (app : AppHandler) (s : State) (t : Nat) (src : IPAddress)
    (port : Nat) (p : List Nat) (hwf : wellFormed s p) (hc : pktCommand p = PING) :
    onPacketReceived app s t src port p =
      ((_sendReplyPacket (sessionUp s t src) (pktMsgId p) MSGACK 0 0 0 0 [] 0).1,
       sessionEvents s t ++
         (_sendReplyPacket (sessionUp s t src) (pktMsgId p) MSGACK 0 0 0 0 [] 0).2) := by
  obtain ⟨h20, hid⟩ := hwf
  have hsz : ¬ (p.length < 20) := by omega
  simp only [pktCommand] at hc
  have n1 : ¬ (PING = INIT) := by decide
  have n2 : ¬ (PING = INITACK) := by decide
  cases h1 : s.wifiConnected <;> cases h2 : s.serverConnected <;>
    simp [onPacketReceived, hsz, hid, hc, h1, h2, sessionUp, sessionEvents, pktMsgId, n1, n2]

/-- The dispatcher never touches the send buffer, the device id or `curMsgId`. -/
theorem onPacketReceived_frame (app : AppHandler) (s : State) (t : Nat) (src : IPAddress)
    (port : Nat) (p : List Nat) :
    (onPacketReceived app s t src port p).1.sendBuffer = s.sendBuffer ∧
    (onPacketReceived app s t src port p).1.deviceId = s.deviceId ∧
    (onPacketReceived app s t src port p).1.curMsgId = s.curMsgId := by
  obtain ⟨_, _, _, f4, _, _, f7, f8, _⟩ := sessionUp_fields s t src
  by_cases hwf : wellFormed s p
  · by_cases c1 : pktCommand p = INIT
    · rw [onPacketReceived_init app s t src port p hwf c1]
      exact ⟨f7, f4, f8⟩
    · by_cases c2 : pktCommand p = INITACK
      · rw [onPacketReceived_initack app s t src port p hwf c2]
        exact ⟨f7, f4, f8⟩
      · by_cases c3 : pktCommand p = PING
        · rw [onPacketReceived_ping app s t src port p hwf c3]
          exact ⟨f7, f4, f8⟩
        · by_cases c4 : pktCommand p = MSGACK
          · rw [onPacketReceived_msgack app s t src port p hwf c4]
            split
            · exact ⟨f7, f4, f8⟩
            · exact ⟨f7, f4, f8⟩
          · have hcmd : isAppCommand (pktCommand p) := ⟨c1, c2, c4, c3⟩
            by_cases hn : isNewMsg (pktMsgId p) s.lastReceivedMsgId
            · rw [onPacketReceived_new app s t src port p hwf hcmd hn]
              exact ⟨f7, f4, f8⟩
            · by_cases hr : pktMsgId p = s.lastReceivedMsgId
              · rw [onPacketReceived_repeat app s t src port p hwf hcmd hr]
                exact ⟨f7, f4, f8⟩
              · rw [onPacketReceived_stale app s t src port p hwf hcmd hn hr]
                exact ⟨f7, f4, f8⟩
  · rw [onPacketReceived_malformed app s t src port p hwf]
    exact ⟨rfl, rfl, rfl⟩

theorem BasicUDP_update_frame (app : AppHandler) (t : Nat) (arrived : List Datagram) :
    ∀ (s : State) (e : List Event),
      (arrived.foldl
        (fun acc d =>
          ((onPacketReceived app acc.1 t d.srcAddress d.srcPort d.data).1,
           acc.2 ++ (onPacketReceived app acc.1 t d.srcAddress d.srcPort d.data).2))
        (s, e)).1.sendBuffer = s.sendBuffer ∧
      (arrived.foldl
        (fun acc d =>
          ((onPacketReceived app acc.1 t d.srcAddress d.srcPort d.data).1,
           acc.2 ++ (onPacketReceived app acc.1 t d.srcAddress d.srcPort d.data).2))
        (s, e)).1.deviceId = s.deviceId ∧
      (arrived.foldl
        (fun acc d =>
          ((onPacketReceived app acc.1 t d.srcAddress d.srcPort d.data).1,
           acc.2 ++ (onPacketReceived app acc.1 t d.srcAddress d.srcPort d.data).2))
        (s, e)).1.curMsgId = s.curMsgId := by
  induction arrived with
  | nil =>
    intro s e
    exact ⟨rfl, rfl, rfl⟩
  | cons d ds ih =>
    intro s e
    simp only [List.foldl_cons]
    obtain ⟨a1, a2, a3⟩ := ih (onPacketReceived app s t d.srcAddress d.srcPort d.data).1
      (e ++ (onPacketReceived app s t d.srcAddress d.srcPort d.data).2)
    obtain ⟨b1, b2, b3⟩ := onPacketReceived_frame app s t d.srcAddress d.srcPort d.data
    exact ⟨a1.trans b1, a2.trans b2, a3.trans b3⟩


theorem sendInv_congr (s u : State) (h1 : u.deviceId = s.deviceId)
    (h2 : u.sendBuffer = s.sendBuffer) (h3 : u.curMsgId = s.curMsgId) (h : sendInv s) :
    sendInv u := by
  unfold sendInv at h ⊢
  rw [h1, h2, h3]
  exact h

theorem send_inv (s : State) (millis command arg1 arg2 arg3 arg4 : Nat)
    (pData : List Nat) (size : Nat) (blocking forceSend : Bool) (h : sendInv s) :
    sendInv (_sendPacketToServer s millis command arg1 arg2 arg3 arg4 pData size blocking
      forceSend).2.1 := by
  by_cases hacc : s.isSending = true ∧ s.isBlocking = true ∧ forceSend = false
  · obtain ⟨h1, h2, h3⟩ := hacc
    simp only [_sendPacketToServer, h1, h2, h3, Bool.and_self, Bool.not_false, if_true]
    exact h
  · rw [send_accepted_eq s millis command arg1 arg2 arg3 arg4 pData size blocking forceSend hacc]
    obtain ⟨i1, i2, i3, i4, i5⟩ := h
    refine ⟨i1, ?_, ?_, ?_, ?_⟩
    · exact fieldAt_copyPayload_other _ _ _ _ _ _
        (fieldAt_writeHeader_low _ _ _ _ _ _ _ _ _ _ i2 (by omega)) (by omega)
    · show (if s.curMsgId = 65535 then 1 else (s.curMsgId + 1) % U16) < U16
      rw [nextId_eq _ i3]
      exact nextId_lt _ i3
    · show 20 ≤ (copyPayload _ _ _).length
      rw [length_copyPayload, length_writeHeader]
      exact i4
    · show (copyPayload _ _ _).length < U16
      rw [length_copyPayload, length_writeHeader]
      exact i5

theorem begin_inv (s0 : State) (millis port serverPort serverId : Nat)
    (h : constructed s0) : sendInv (begin s0 millis port serverPort serverId).1 := by
  obtain ⟨c1, _, c3, c4, _⟩ := h
  simp only [begin, sendPacketToServer_str]
  apply send_inv
  refine ⟨c1, ?_, ?_, ?_, ?_⟩
  · exact fieldAt_writeInt _ _ _ _ c1 (by omega)
  · show 0 < U16
    decide
  · show 20 ≤ (_writeIntegerToBuffer _ _ _ _).length
    rw [length_writeInt]
    exact c3
  · show (_writeIntegerToBuffer _ _ _ _).length < U16
    rw [length_writeInt]
    exact c4

theorem update_inv (app : AppHandler) (s : State) (wifi : Bool) (t : Nat)
    (arrived : List Datagram) (m : Nat) (h : sendInv s) :
    sendInv (update app s wifi t arrived m).1 := by
  obtain ⟨b1, b2, b3⟩ := BasicUDP_update_frame app t arrived { s with wifiConnected := true } []
  have hr : sendInv (BasicUDP_update app { s with wifiConnected := true } t arrived).1 :=
    sendInv_congr s _ b2 b1 b3 h
  cases wifi
  · simp only [update, Bool.false_eq_true, if_false]
    split_ifs <;> exact h
  · simp only [update, if_true]
    split_ifs
    all_goals first
      | exact hr
      | exact sendInv_congr _ _ rfl rfl rfl hr
      | exact send_inv _ _ _ _ _ _ _ _ _ _ _ hr

theorem reachable_inv (app : AppHandler) (s : State) (h : Reachable app s) : sendInv s := by
  induction h with
  | begin s0 millis port serverPort serverId hc => exact begin_inv s0 millis port serverPort serverId hc
  | update s wifi t arrived m _ ih => exact update_inv app s wifi t arrived m ih
  | send s millis command arg1 arg2 arg3 arg4 pData size blocking forceSend _ ih =>
    exact send_inv s millis command arg1 arg2 arg3 arg4 pData size blocking forceSend ih


/-- C7. In every state reachable after `begin`, an accepted `_sendPacketToServer`
with 16-bit command and arguments and a payload that fits the send buffer behind
the header transmits one datagram of length 20 + payload length.  Decoding it with
`_readIntegerFromBuffer` at (0,8), (8,2), (10,2), (12,2), (14,2), (16,2), (18,2)
gives the device id, the returned msgId, the command and the four arguments; each
field is stored little-endian; the payload follows unchanged from offset 20. -/
theorem C7_wire_roundtrip (app : AppHandler) (s : State) (hr : Reachable app s)
    (millis command arg1 arg2 arg3 arg4 : Nat) (pData : List Nat) (blocking forceSend : Bool)
    (hacc : ¬ (s.isSending = true ∧ s.isBlocking = true ∧ forceSend = false))
    (hc : command < U16) (h1 : arg1 < U16) (h2 : arg2 < U16) (h3 : arg3 < U16)
    (h4 : arg4 < U16) (hfit : 20 + pData.length ≤ s.sendBuffer.length) :
    ∃ d : List Nat,
      transmissions (_sendPacketToServer s millis command arg1 arg2 arg3 arg4 pData
          pData.length blocking forceSend).2.2
        = [Event.sendPacket s.serverAddress s.serverPort d] ∧
      d.length = 20 + pData.length ∧
      _readIntegerFromBuffer d 0 8 = s.deviceId ∧
      headerOf d
        = ((_sendPacketToServer s millis command arg1 arg2 arg3 arg4 pData pData.length
              blocking forceSend).1, command, arg1, arg2, arg3, arg4) ∧
      fieldAt d 0 8 s.deviceId ∧
      fieldAt d 8 2 (_sendPacketToServer s millis command arg1 arg2 arg3 arg4 pData
          pData.length blocking forceSend).1 ∧
      fieldAt d 10 2 command ∧ fieldAt d 12 2 arg1 ∧ fieldAt d 14 2 arg2 ∧
      fieldAt d 16 2 arg3 ∧ fieldAt d 18 2 arg4 ∧
      d.drop 20 = pData := by
  obtain ⟨i1, i2, i3, i4, i5⟩ := reachable_inv app s hr
  have hsz : (20 + pData.length) % U16 = 20 + pData.length := by
    apply Nat.mod_eq_of_lt
    omega
  have hid := nextId_lt s.curMsgId i3
  rw [send_accepted_eq s millis command arg1 arg2 arg3 arg4 pData pData.length blocking
    forceSend hacc, nextId_eq _ i3, hsz]
  obtain ⟨f1, f2, f3, f4, f5, f6⟩ := fieldAt_writeHeader s.sendBuffer
    (if s.curMsgId = 65535 then 1 else s.curMsgId + 1) command arg1 arg2 arg3 arg4 i4 hid hc
    h1 h2 h3 h4
  have f0 := fieldAt_writeHeader_low s.sendBuffer
    (if s.curMsgId = 65535 then 1 else s.curMsgId + 1) command arg1 arg2 arg3 arg4 0 8
    s.deviceId i2 (by omega)
  have g0 := fieldAt_take _ (20 + pData.length) _ _ _
    (fieldAt_copyPayload_other _ pData pData.length _ _ _ f0 (by omega)) (by omega)
  have g1 := fieldAt_take _ (20 + pData.length) _ _ _
    (fieldAt_copyPayload_other _ pData pData.length _ _ _ f1 (by omega)) (by omega)
  have g2 := fieldAt_take _ (20 + pData.length) _ _ _
    (fieldAt_copyPayload_other _ pData pData.length _ _ _ f2 (by omega)) (by omega)
  have g3 := fieldAt_take _ (20 + pData.length) _ _ _
    (fieldAt_copyPayload_other _ pData pData.length _ _ _ f3 (by omega)) (by omega)
  have g4 := fieldAt_take _ (20 + pData.length) _ _ _
    (fieldAt_copyPayload_other _ pData pData.length _ _ _ f4 (by omega)) (by omega)
  have g5 := fieldAt_take _ (20 + pData.length) _ _ _
    (fieldAt_copyPayload_other _ pData pData.length _ _ _ f5 (by omega)) (by omega)
  have g6 := fieldAt_take _ (20 + pData.length) _ _ _
    (fieldAt_copyPayload_other _ pData pData.length _ _ _ f6 (by omega)) (by omega)
  refine ⟨(copyPayload (writeHeader s.sendBuffer
      (if s.curMsgId = 65535 then 1 else s.curMsgId + 1) command arg1 arg2 arg3 arg4)
      pData pData.length).take (20 + pData.length), ?_, ?_, ?_, ?_, g0, g1, g2, g3, g4, g5, g6, ?_⟩
  · rw [transmissions_append]
    split <;> simp [transmissions]
  · exact length_assembled _ _ _ _ _ _ _ _ _ hfit
  · exact read8_of_fieldAt _ 0 _ g0 i1
  · exact headerOf_of_fieldAt _ _ _ _ _ _ _ hid hc h1 h2 h3 h4 g1 g2 g3 g4 g5 g6
  · apply drop_assembled
    rw [length_writeHeader]
    exact hfit

/-- Witness for C7: command 7 with arguments (1, 2, 3, 4) and a three-byte payload,
sent right after `begin` with `forceSend` set. -/
theorem C7_wire_roundtrip_witness :
    constructed dev0 ∧
    ¬ ((begin dev0 0 1 4000 0).1.isSending = true ∧ (begin dev0 0 1 4000 0).1.isBlocking = true ∧
        true = false) ∧
    20 + [10, 20, 30].length ≤ (begin dev0 0 1 4000 0).1.sendBuffer.length ∧
    ∃ d : List Nat,
      transmissions (_sendPacketToServer (begin dev0 0 1 4000 0).1 100 7 1 2 3 4 [10, 20, 30]
          [10, 20, 30].length true true).2.2
        = [Event.sendPacket (begin dev0 0 1 4000 0).1.serverAddress
            (begin dev0 0 1 4000 0).1.serverPort d] ∧
      d.length = 20 + [10, 20, 30].length ∧
      _readIntegerFromBuffer d 0 8 = (begin dev0 0 1 4000 0).1.deviceId ∧
      headerOf d
        = ((_sendPacketToServer (begin dev0 0 1 4000 0).1 100 7 1 2 3 4 [10, 20, 30]
              [10, 20, 30].length true true).1, 7, 1, 2, 3, 4) ∧
      fieldAt d 0 8 (begin dev0 0 1 4000 0).1.deviceId ∧
      fieldAt d 8 2 (_sendPacketToServer (begin dev0 0 1 4000 0).1 100 7 1 2 3 4 [10, 20, 30]
          [10, 20, 30].length true true).1 ∧
      fieldAt d 10 2 7 ∧ fieldAt d 12 2 1 ∧ fieldAt d 14 2 2 ∧
      fieldAt d 16 2 3 ∧ fieldAt d 18 2 4 ∧
      d.drop 20 = [10, 20, 30] :=
  ⟨by decide, by decide, by decide,
   C7_wire_roundtrip app42 (begin dev0 0 1 4000 0).1
     (Reachable.begin dev0 0 1 4000 0 (by decide)) 100 7 1 2 3 4 [10, 20, 30] true true
     (by decide) (by decide) (by decide) (by decide) (by decide) (by decide) (by decide)⟩

/-! ## Malformed input -/

theorem not_wellFormed_of (s : State) (p : List Nat)
    (h : p.length < 20 ∨ _readIntegerFromBuffer p 0 8 ≠ s.deviceId) : ¬ wellFormed s p := by
  intro hw
  rcases h with h | h
  · exact absurd hw.1 (by omega)
  · exact h hw.2

/-- The pump on datagrams that all fail the guards, with the link already known to be
up: nothing happens. -/
theorem BasicUDP_update_malformed (app : AppHandler) (t : Nat) (arrived : List Datagram) :
    ∀ (s : State), s.wifiConnected = true → (∀ d ∈ arrived, ¬ wellFormed s d.data) →
      BasicUDP_update app s t arrived = (s, []) := by
  induction arrived with
  | nil =>
    intro s _ _
    rfl
  | cons d ds ih =>
    intro s hw hall
    have hd : ¬ wellFormed s d.data := hall d (by simp)
    have hstep : onPacketReceived app s t d.srcAddress d.srcPort d.data = (s, []) := by
      rw [onPacketReceived_malformed app s t d.srcAddress d.srcPort d.data hd]
      cases s
      simp_all
    have ih2 := ih s hw (fun x hx => hall x (by simp [hx]))
    simp only [BasicUDP_update, List.foldl_cons, hstep, List.append_nil] at ih2 ⊢
    exact ih2

/-! ## Public send overloads -/

/-- The two payload-carrying overloads with flags pass every parameter on. -/
theorem overloads_with_payload_refine (s : State) (millis command arg1 arg2 arg3 arg4 : Nat)
    (pData : List Nat) (size : Nat) (str : List Nat) (blocking forceSend : Bool) :
    sendPacketToServer_data_flags s millis command arg1 arg2 arg3 arg4 pData size blocking
        forceSend
      = _sendPacketToServer s millis command arg1 arg2 arg3 arg4 pData size blocking
          forceSend ∧
    sendPacketToServer_str_flags s millis command arg1 arg2 arg3 arg4 str blocking forceSend
      = _sendPacketToServer s millis command arg1 arg2 arg3 arg4 str (str.length % U16)
          blocking forceSend :=
  ⟨rfl, rfl⟩

/-- C12: the code at the failing input.  With the blocking INIT of `begin` in flight,
the payload-less overload called with `forceSend = true` returns 0 and leaves the
state as it was, while `_sendPacketToServer` and the payload-carrying overload with
the same arguments are accepted with id 2.  On the idle connected device the same
overload called with `blocking = false` records a blocking message, while
`_sendPacketToServer` records a non-blocking one. -/
theorem C12_payloadless_overload_drops_flags :
    (dev0_begun.isSending = true ∧ dev0_begun.isBlocking = true) ∧
    sendPacketToServer_flags dev0_begun 100 7 1 2 3 4 true true = (0, dev0_begun, []) ∧
    (_sendPacketToServer dev0_begun 100 7 1 2 3 4 [] 0 true true).1 = 2 ∧
    (sendPacketToServer_data_flags dev0_begun 100 7 1 2 3 4 [] 0 true true).1 = 2 ∧
    (sendPacketToServer_str_flags dev0_begun 100 7 1 2 3 4 [] true true).1 = 2 ∧
    (sendPacketToServer_flags dev0_connected 100 7 1 2 3 4 false false).2.1.isBlocking = true ∧
    (_sendPacketToServer dev0_connected 100 7 1 2 3 4 [] 0 false false).2.1.isBlocking
      = false := by
  decide

/-! ## Reply destination -/

theorem sendReply_transmissions (s : State) (m c a1 a2 a3 a4 : Nat) (pData : List Nat)
    (size : Nat) :
    transmissions (_sendReplyPacket s m c a1 a2 a3 a4 pData size).2
      = [Event.sendPacket s.serverAddress s.serverPort
          ((copyPayload (writeHeader s.replyPacket m c a1 a2 a3 a4) pData size).take
            (20 + size))] := by
  simp [_sendReplyPacket, transmissions]

/-- C13, as stated, fails on the code: the device is connected to the server at
`192.168.1.10`, a PING arrives from `10.0.0.5`, and the MSGACK goes to
`192.168.1.10`. -/
theorem C13_reply_destination_counterexample :
    wellFormed dev0_connected ping3 ∧ pktCommand ping3 = PING ∧ stranger ≠ peer ∧
    transmissions (onPacketReceived app42 dev0_connected 60 stranger 1 ping3).2
      = [Event.sendPacket peer 4000
          [7, 0, 0, 0, 0, 0, 0, 0, 3, 0, 253, 255, 0, 0, 0, 0, 0, 0, 0, 0]] := by
  decide

/-- C13, amended.  Every reply of the dispatcher (INITACK for INIT, MSGACK for PING,
MSGACK for a new or repeated application command) is one datagram transmitted to
`_serverAddress` and `_serverPort` as they stand after the session bookkeeping:
the source address of the answered datagram when the server session was
disconnected on arrival, the recorded server address when it was connected, whatever
the source; the port is always the configured server port. -/
theorem C13_reply_destination (app : AppHandler) (s : State) (t : Nat) (src : IPAddress)
    (port : Nat) (p : List Nat) (hwf : wellFormed s p)
    (hreply : pktCommand p = INIT ∨ pktCommand p = PING ∨
      (isAppCommand (pktCommand p) ∧
        (isNewMsg (pktMsgId p) s.lastReceivedMsgId ∨ pktMsgId p = s.lastReceivedMsgId))) :
    ∃ d : List Nat,
      transmissions (onPacketReceived app s t src port p).2
        = [Event.sendPacket (if s.serverConnected then s.serverAddress else src)
            s.serverPort d] := by
  obtain ⟨_, _, _, _, f5, _⟩ := sessionUp_fields s t src
  have hdest : (sessionUp s t src).serverAddress
      = (if s.serverConnected then s.serverAddress else src) := sessionUp_serverAddress s t src
  rcases hreply with hc | hc | ⟨hcmd, hn | hr⟩
  · rw [onPacketReceived_init app s t src port p hwf hc, transmissions_append,
      sessionEvents_transmissions, sendReply_transmissions]
    refine ⟨(copyPayload (writeHeader (sessionUp s t src).replyPacket (pktMsgId p) INITACK
      s.deviceVersion s.serverId 0 0) s.deviceType (s.deviceType.length % U16)).take
      (20 + s.deviceType.length % U16), ?_⟩
    rw [List.nil_append]
    show [Event.sendPacket (sessionUp s t src).serverAddress (sessionUp s t src).serverPort _]
      = _
    rw [hdest, f5]
  · rw [onPacketReceived_ping app s t src port p hwf hc, transmissions_append,
      sessionEvents_transmissions, sendReply_transmissions]
    refine ⟨(copyPayload (writeHeader (sessionUp s t src).replyPacket (pktMsgId p) MSGACK
      0 0 0 0) [] 0).take (20 + 0), ?_⟩
    rw [List.nil_append, hdest, f5]
  · rw [onPacketReceived_new app s t src port p hwf hcmd hn]
    refine ⟨(writeHeader s.replyPacket (pktMsgId p) MSGACK (appResult app p) 0 0 0).take 20, ?_⟩
    simp only [transmissions_append, sessionEvents_transmissions]
    simp [transmissions, handlerCall, replyDest]
  · rw [onPacketReceived_repeat app s t src port p hwf hcmd hr]
    refine ⟨(writeHeader s.replyPacket (pktMsgId p) MSGACK s.lastResponse 0 0 0).take 20, ?_⟩
    simp only [transmissions_append, sessionEvents_transmissions]
    simp [transmissions, replyDest]


/-- Witness for C13 (amended): a PING from `10.0.0.5` reaching the device before any
server session exists is answered to `10.0.0.5`. -/
theorem C13_reply_destination_witness :
    wellFormed dev0_begun ping3 ∧ pktCommand ping3 = PING ∧
    dev0_begun.serverConnected = false ∧
    ∃ d : List Nat,
      transmissions (onPacketReceived app42 dev0_begun 60 stranger 1 ping3).2
        = [Event.sendPacket stranger 4000 d] :=
  ⟨by decide, by decide, by decide,
   C13_reply_destination app42 dev0_begun 60 stranger 1 ping3 (by decide)
     (Or.inr (Or.inl (by decide)))⟩

/-! ## Loss of the server session -/

/-- C14: the code at the failing input.  After `begin`, a tick that delivers the
server's INITACK from `192.168.1.10` and a tick that finds the link down, the state
is reachable, the server session went from connected to disconnected with
server-session-down fired, and `serverAddress` is still `192.168.1.10`, not the
broadcast address. -/
theorem C14_link_loss_keeps_address :
    Reachable app42 dev0_linkLost ∧
    dev0_online.serverConnected = true ∧ dev0_online.serverAddress = peer ∧
    (update app42 dev0_online false 60 [] 60).2
      = [Event.onServerDisconnected 60, Event.onWiFiDisconnected 60] ∧
    dev0_linkLost.serverConnected = false ∧
    dev0_linkLost.serverAddress = peer ∧
    dev0_linkLost.serverAddress ≠ broadcast :=
  ⟨Reachable.update _ _ _ _ _
      (Reachable.update _ _ _ _ _ (Reachable.begin dev0 0 1 4000 0 (by decide))),
   by decide, by decide, by decide, by decide, by decide, by decide⟩

/-! ## Connectivity state machines -/

theorem linkUps_append (a b : List Event) : linkUps (a ++ b) = linkUps a ++ linkUps b := by
  simp [linkUps]

theorem linkDowns_append (a b : List Event) :
    linkDowns (a ++ b) = linkDowns a ++ linkDowns b := by
  simp [linkDowns]

theorem serverUps_append (a b : List Event) :
    serverUps (a ++ b) = serverUps a ++ serverUps b := by
  simp [serverUps]

theorem serverDowns_append (a b : List Event) :
    serverDowns (a ++ b) = serverDowns a ++ serverDowns b := by
  simp [serverDowns]

/-- A trace without connectivity notifications contributes to none of the four
filters. -/
theorem filters_of_not_connectivity (x : List Event)
    (h : ∀ e ∈ x, isConnectivity e = false) :
    linkUps x = [] ∧ linkDowns x = [] ∧ serverUps x = [] ∧ serverDowns x = [] := by
  refine ⟨?_, ?_, ?_, ?_⟩
  · simp only [linkUps, List.filter_eq_nil_iff]
    intro e he
    have := h e he
    cases e <;> simp_all [isConnectivity]
  · simp only [linkDowns, List.filter_eq_nil_iff]
    intro e he
    have := h e he
    cases e <;> simp_all [isConnectivity]
  · simp only [serverUps, List.filter_eq_nil_iff]
    intro e he
    have := h e he
    cases e <;> simp_all [isConnectivity]
  · simp only [serverDowns, List.filter_eq_nil_iff]
    intro e he
    have := h e he
    cases e <;> simp_all [isConnectivity]

theorem sessionEvents_filters (s : State) (t : Nat) :
    linkUps (sessionEvents s t) = (if s.wifiConnected then [] else [Event.onWiFiConnected t]) ∧
    linkDowns (sessionEvents s t) = [] ∧
    serverUps (sessionEvents s t)
      = (if s.serverConnected then [] else [Event.onServerConnected t]) ∧
    serverDowns (sessionEvents s t) = [] := by
  cases h1 : s.wifiConnected <;> cases h2 : s.serverConnected <;>
    simp [sessionEvents, linkUps, linkDowns, serverUps, serverDowns, h1, h2]

theorem sendReply_not_connectivity (s : State) (m c a1 a2 a3 a4 : Nat) (pData : List Nat)
    (size : Nat) :
    ∀ e ∈ (_sendReplyPacket s m c a1 a2 a3 a4 pData size).2, isConnectivity e = false := by
  intro e he
  simp only [_sendReplyPacket, List.mem_singleton] at he
  rw [he]
  rfl

/-- The shape of the dispatcher's result on a well-formed datagram: the session
notifications followed by events that are not connectivity notifications; the link
and the session are up afterwards and `sentCount` is what the session bookkeeping
left or 0. -/
theorem onPacketReceived_shape (app : AppHandler) (s : State) (t : Nat) (src : IPAddress)
    (port : Nat) (p : List Nat) (hwf : wellFormed s p) :
    ∃ x : List Event,
      (onPacketReceived app s t src port p).2 = sessionEvents s t ++ x ∧
      (∀ e ∈ x, isConnectivity e = false) ∧
      (onPacketReceived app s t src port p).1.wifiConnected = true ∧
      (onPacketReceived app s t src port p).1.serverConnected = true ∧
      ((onPacketReceived app s t src port p).1.sentCount = (sessionUp s t src).sentCount ∨
        (onPacketReceived app s t src port p).1.sentCount = 0) := by
  have hw : (sessionUp s t src).wifiConnected = true := by
    cases h : s.serverConnected <;> simp [sessionUp, h]
  obtain ⟨_, _, _, _, _, hc, _⟩ := sessionUp_fields s t src
  by_cases c1 : pktCommand p = INIT
  · rw [onPacketReceived_init app s t src port p hwf c1]
    exact ⟨_, rfl, sendReply_not_connectivity _ _ _ _ _ _ _ _ _, hw, hc, Or.inr rfl⟩
  · by_cases c2 : pktCommand p = INITACK
    · rw [onPacketReceived_initack app s t src port p hwf c2]
      exact ⟨[], by simp, by simp, hw, hc, Or.inr rfl⟩
    · by_cases c3 : pktCommand p = PING
      · rw [onPacketReceived_ping app s t src port p hwf c3]
        exact ⟨_, rfl, sendReply_not_connectivity _ _ _ _ _ _ _ _ _, hw, hc, Or.inl rfl⟩
      · by_cases c4 : pktCommand p = MSGACK
        · rw [onPacketReceived_msgack app s t src port p hwf c4]
          by_cases hm : s.isSending = true ∧ pktMsgId p = s.curMsgId
          · rw [if_pos hm]
            refine ⟨_, rfl, ?_, hw, hc, Or.inr rfl⟩
            intro e he
            split at he
            · simp only [List.mem_singleton] at he
              rw [he]
              rfl
            · simp at he
          · rw [if_neg hm]
            exact ⟨[], by simp, by simp, hw, hc, Or.inl rfl⟩
        · have hcmd : isAppCommand (pktCommand p) := ⟨c1, c2, c4, c3⟩
          by_cases hn : isNewMsg (pktMsgId p) s.lastReceivedMsgId
          · rw [onPacketReceived_new app s t src port p hwf hcmd hn]
            refine ⟨[handlerCall p] ++ [Event.sendPacket (replyDest s src) s.serverPort
              ((writeHeader s.replyPacket (pktMsgId p) MSGACK (appResult app p) 0 0 0).take 20)],
              by simp, ?_, hw, hc, Or.inl rfl⟩
            intro e he
            simp only [List.singleton_append, List.mem_cons, List.mem_singleton,
              List.not_mem_nil, or_false] at he
            rcases he with he | he <;> rw [he] <;> rfl
          · by_cases hr : pktMsgId p = s.lastReceivedMsgId
            · rw [onPacketReceived_repeat app s t src port p hwf hcmd hr]
              refine ⟨_, rfl, ?_, hw, hc, Or.inl rfl⟩
              intro e he
              simp only [List.mem_singleton] at he
              rw [he]
              rfl
            · rw [onPacketReceived_stale app s t src port p hwf hcmd hn hr]
              exact ⟨[], by simp, by simp, hw, hc, Or.inl rfl⟩

/-- What one call of the dispatcher does to the two connectivity flags, to
`sentCount`, and which connectivity notifications it fires. -/
theorem onPacketReceived_connectivity (app : AppHandler) (s : State) (t : Nat)
    (src : IPAddress) (port : Nat) (p : List Nat) :
    (onPacketReceived app s t src port p).1.wifiConnected = true ∧
    linkUps (onPacketReceived app s t src port p).2
      = (if s.wifiConnected then [] else [Event.onWiFiConnected t]) ∧
    linkDowns (onPacketReceived app s t src port p).2 = [] ∧
    serverDowns (onPacketReceived app s t src port p).2 = [] ∧
    (s.serverConnected = true →
      (onPacketReceived app s t src port p).1.serverConnected = true ∧
      serverUps (onPacketReceived app s t src port p).2 = [] ∧
      ((onPacketReceived app s t src port p).1.sentCount = s.sentCount ∨
        (onPacketReceived app s t src port p).1.sentCount = 0)) ∧
    (s.serverConnected = false →
      ((onPacketReceived app s t src port p).1.serverConnected = false ∧
        serverUps (onPacketReceived app s t src port p).2 = [] ∧
        (onPacketReceived app s t src port p).1.sentCount = s.sentCount) ∨
      ((onPacketReceived app s t src port p).1.serverConnected = true ∧
        serverUps (onPacketReceived app s t src port p).2 = [Event.onServerConnected t] ∧
        (onPacketReceived app s t src port p).1.sentCount = 0)) := by
  by_cases hwf : wellFormed s p
  · obtain ⟨x, hx, hnc, hw, hc, hcnt⟩ := onPacketReceived_shape app s t src port p hwf
    obtain ⟨x1, x2, x3, x4⟩ := filters_of_not_connectivity x hnc
    obtain ⟨e1, e2, e3, e4⟩ := sessionEvents_filters s t
    rw [hx, linkUps_append, linkDowns_append, serverUps_append, serverDowns_append,
      x1, x2, x3, x4, e1, e2, e3, e4]
    refine ⟨hw, List.append_nil _, rfl, rfl, ?_, ?_⟩
    · intro hs
      refine ⟨hc, by simp [hs], ?_⟩
      have : (sessionUp s t src).sentCount = s.sentCount := by simp [sessionUp, hs]
      rw [this] at hcnt
      exact hcnt
    · intro hs
      refine Or.inr ⟨hc, by simp [hs], ?_⟩
      have : (sessionUp s t src).sentCount = 0 := by simp [sessionUp, hs]
      rw [this] at hcnt
      rcases hcnt with h | h <;> exact h
  · rw [onPacketReceived_malformed app s t src port p hwf]
    refine ⟨rfl, ?_, ?_, ?_, ?_, ?_⟩
    · cases h : s.wifiConnected <;> simp [linkUps, h]
    · cases h : s.wifiConnected <;> simp [linkDowns, h]
    · cases h : s.wifiConnected <;> simp [serverDowns, h]
    · intro hs
      refine ⟨hs, ?_, Or.inl rfl⟩
      cases h : s.wifiConnected <;> simp [serverUps, h]
    · intro hs
      refine Or.inl ⟨hs, ?_, rfl⟩
      cases h : s.wifiConnected <;> simp [serverUps, h]

/-- The accumulated trace of the pump can be split off. -/
theorem BasicUDP_update_acc (app : AppHandler) (t : Nat) (arrived : List Datagram) :
    ∀ (s : State) (e : List Event),
      arrived.foldl
        (fun acc d =>
          ((onPacketReceived app acc.1 t d.srcAddress d.srcPort d.data).1,
           acc.2 ++ (onPacketReceived app acc.1 t d.srcAddress d.srcPort d.data).2))
        (s, e)
      = ((BasicUDP_update app s t arrived).1, e ++ (BasicUDP_update app s t arrived).2) := by
  induction arrived with
  | nil =>
    intro s e
    simp [BasicUDP_update]
  | cons d ds ih =>
    intro s e
    simp only [BasicUDP_update, List.foldl_cons]
    rw [ih, ih _ ([] ++ _)]
    simp [BasicUDP_update, List.append_assoc]

theorem BasicUDP_update_cons (app : AppHandler) (s : State) (t : Nat) (d : Datagram)
    (ds : List Datagram) :
    BasicUDP_update app s t (d :: ds)
      = ((BasicUDP_update app (onPacketReceived app s t d.srcAddress d.srcPort d.data).1 t ds).1,
         (onPacketReceived app s t d.srcAddress d.srcPort d.data).2 ++
           (BasicUDP_update app (onPacketReceived app s t d.srcAddress d.srcPort d.data).1 t
             ds).2) := by
  have h := BasicUDP_update_acc app t ds
    (onPacketReceived app s t d.srcAddress d.srcPort d.data).1
    ([] ++ (onPacketReceived app s t d.srcAddress d.srcPort d.data).2)
  simp only [BasicUDP_update, List.foldl_cons] at h ⊢
  rw [h]
  simp

/-- What the pump does to the connectivity flags when the link is already known to be
up: it fires no link notification and no server-session-down; the server session
comes up at most once, and when it does `sentCount` ends at 0. -/
theorem BasicUDP_update_connectivity (app : AppHandler) (t : Nat) (arrived : List Datagram) :
    ∀ s : State, s.wifiConnected = true →
      (BasicUDP_update app s t arrived).1.wifiConnected = true ∧
      linkUps (BasicUDP_update app s t arrived).2 = [] ∧
      linkDowns (BasicUDP_update app s t arrived).2 = [] ∧
      serverDowns (BasicUDP_update app s t arrived).2 = [] ∧
      (s.serverConnected = true →
        (BasicUDP_update app s t arrived).1.serverConnected = true ∧
        serverUps (BasicUDP_update app s t arrived).2 = [] ∧
        ((BasicUDP_update app s t arrived).1.sentCount = s.sentCount ∨
          (BasicUDP_update app s t arrived).1.sentCount = 0)) ∧
      (s.serverConnected = false →
        ((BasicUDP_update app s t arrived).1.serverConnected = false ∧
          serverUps (BasicUDP_update app s t arrived).2 = [] ∧
          (BasicUDP_update app s t arrived).1.sentCount = s.sentCount) ∨
        ((BasicUDP_update app s t arrived).1.serverConnected = true ∧
          serverUps (BasicUDP_update app s t arrived).2 = [Event.onServerConnected t] ∧
          (BasicUDP_update app s t arrived).1.sentCount = 0)) := by
  induction arrived with
  | nil =>
    intro s hw
    refine ⟨hw, rfl, rfl, rfl, fun hs => ⟨hs, rfl, Or.inl rfl⟩, fun hs => Or.inl ⟨hs, rfl, rfl⟩⟩
  | cons d ds ih =>
    intro s hw
    obtain ⟨d1, d2, d3, d4, d5, d6⟩ :=
      onPacketReceived_connectivity app s t d.srcAddress d.srcPort d.data
    obtain ⟨i1, i2, i3, i4, i5, i6⟩ := ih _ d1
    rw [BasicUDP_update_cons]
    simp only [hw, if_true] at d2
    refine ⟨i1, ?_, ?_, ?_, ?_, ?_⟩
    · rw [linkUps_append, d2, i2]
      rfl
    · rw [linkDowns_append, d3, i3]
      rfl
    · rw [serverDowns_append, d4, i4]
      rfl
    · intro hs
      obtain ⟨a1, a2, a3⟩ := d5 hs
      obtain ⟨b1, b2, b3⟩ := i5 a1
      refine ⟨b1, ?_, ?_⟩
      · rw [serverUps_append, a2, b2]
        rfl
      · rcases a3 with a3 | a3 <;> rcases b3 with b3 | b3
        · exact Or.inl (b3.trans a3)
        · exact Or.inr b3
        · exact Or.inr (b3.trans a3)
        · exact Or.inr b3
    · intro hs
      rcases d6 hs with ⟨a1, a2, a3⟩ | ⟨a1, a2, a3⟩
      · rcases i6 a1 with ⟨b1, b2, b3⟩ | ⟨b1, b2, b3⟩
        · refine Or.inl ⟨b1, ?_, b3.trans a3⟩
          rw [serverUps_append, a2, b2]
          rfl
        · refine Or.inr ⟨b1, ?_, b3⟩
          rw [serverUps_append, a2, b2]
          rfl
      · obtain ⟨b1, b2, b3⟩ := i5 a1
        refine Or.inr ⟨b1, ?_, ?_⟩
        · rw [serverUps_append, a2, b2]
          rfl
        · rcases b3 with b3 | b3
          · exact b3.trans a3
          · exact b3

theorem send_not_connectivity (s : State) (millis command arg1 arg2 arg3 arg4 : Nat)
    (pData : List Nat) (size : Nat) (blocking forceSend : Bool) :
    ∀ e ∈ (_sendPacketToServer s millis command arg1 arg2 arg3 arg4 pData size blocking
      forceSend).2.2, isConnectivity e = false := by
  intro e he
  by_cases hacc : s.isSending = true ∧ s.isBlocking = true ∧ forceSend = false
  · obtain ⟨h1, h2, h3⟩ := hacc
    simp [_sendPacketToServer, h1, h2, h3] at he
  · rw [send_accepted_eq s millis command arg1 arg2 arg3 arg4 pData size blocking forceSend
      hacc] at he
    simp only [List.mem_append, List.mem_singleton] at he
    rcases he with he | he
    · split at he
      · simp only [List.mem_singleton] at he
        rw [he]
        rfl
      · simp at he
    · rw [he]
      rfl

theorem send_keeps_flags (s : State) (millis command arg1 arg2 arg3 arg4 : Nat)
    (pData : List Nat) (size : Nat) (blocking forceSend : Bool) :
    (_sendPacketToServer s millis command arg1 arg2 arg3 arg4 pData size blocking
      forceSend).2.1.serverConnected = s.serverConnected ∧
    (_sendPacketToServer s millis command arg1 arg2 arg3 arg4 pData size blocking
      forceSend).2.1.wifiConnected = s.wifiConnected ∧
    (_sendPacketToServer s millis command arg1 arg2 arg3 arg4 pData size blocking
      forceSend).2.1.serverAddress = s.serverAddress := by
  by_cases hacc : s.isSending = true ∧ s.isBlocking = true ∧ forceSend = false
  · obtain ⟨h1, h2, h3⟩ := hacc
    simp [_sendPacketToServer, h1, h2, h3]
  · rw [send_accepted_eq s millis command arg1 arg2 arg3 arg4 pData size blocking forceSend
      hacc]
    exact ⟨rfl, rfl, rfl⟩

/-- A tick with the link up, in terms of the state and trace the pump leaves: either
the tick gives up, or it keeps the server-session flag and appends events that are
not connectivity notifications. -/
theorem update_up_cases (app : AppHandler) (s : State) (t : Nat) (arrived : List Datagram)
    (m : Nat) :
    ((BasicUDP_update app { s with wifiConnected := true } t arrived).1.serverConnected = true ∧
      (BasicUDP_update app { s with wifiConnected := true } t arrived).1.sentCount
        ≥ CONNECTED_SEND_COUNT ∧
      update app s true t arrived m
        = ({ (BasicUDP_update app { s with wifiConnected := true } t arrived).1 with
              serverConnected := false, serverAddress := broadcast },
           (if s.wifiConnected then [] else [Event.onWiFiConnected t]) ++
             (BasicUDP_update app { s with wifiConnected := true } t arrived).2 ++
             [Event.onServerDisconnected t])) ∨
    ((update app s true t arrived m).1.serverConnected
        = (BasicUDP_update app { s with wifiConnected := true } t arrived).1.serverConnected ∧
      (update app s true t arrived m).1.wifiConnected
        = (BasicUDP_update app { s with wifiConnected := true } t arrived).1.wifiConnected ∧
      ∃ x : List Event,
        (update app s true t arrived m).2
          = (if s.wifiConnected then [] else [Event.onWiFiConnected t]) ++
              (BasicUDP_update app { s with wifiConnected := true } t arrived).2 ++ x ∧
        ∀ e ∈ x, isConnectivity e = false) := by
  simp only [update, if_true]
  generalize BasicUDP_update app { s with wifiConnected := true } t arrived = r
  by_cases hS : r.1.isSending = true
  · by_cases hE : ulongSub t r.1.lastSentTime
        > (if r.1.serverConnected = true then CONNECTED_SEND_INTERVAL
            else DISCONNECTED_SEND_INTERVAL)
    · by_cases hG : (r.1.serverConnected && decide (r.1.sentCount ≥ CONNECTED_SEND_COUNT)) = true
      · left
        have hG2 := hG
        simp only [Bool.and_eq_true, decide_eq_true_eq] at hG2
        refine ⟨hG2.1, hG2.2, ?_⟩
        simp only [hS, hE, hG, if_true]
      · right
        simp only [hS, hE, hG, if_true, if_false]
        refine ⟨rfl, rfl, [Event.sendPacket _ _ _], rfl, ?_⟩
        intro e he
        simp only [List.mem_singleton] at he
        rw [he]
        rfl
    · right
      simp only [hS, hE, if_true, if_false]
      exact ⟨trivial, trivial, [], by simp, by simp⟩
  · right
    by_cases hI : ulongSub t r.1.lastReceiveTime ≥ MAX_IDLE_TIME
    · simp only [hS, hI, if_true, if_false]
      obtain ⟨k1, k2, _⟩ := send_keeps_flags r.1 m PING 0 0 0 0 [] 0 false false
      exact ⟨k1, k2, _, rfl, send_not_connectivity _ _ _ _ _ _ _ _ _ _ _⟩
    · simp only [hS, hI, if_false]
      exact ⟨rfl, rfl, [], by simp, by simp⟩

theorem wifiEvent_filters (s : State) (t : Nat) :
    linkUps (if s.wifiConnected then [] else [Event.onWiFiConnected t])
      = (if s.wifiConnected then [] else [Event.onWiFiConnected t]) ∧
    linkDowns (if s.wifiConnected then [] else [Event.onWiFiConnected t]) = [] ∧
    serverUps (if s.wifiConnected then [] else [Event.onWiFiConnected t]) = [] ∧
    serverDowns (if s.wifiConnected then [] else [Event.onWiFiConnected t]) = [] := by
  cases h : s.wifiConnected <;> simp [linkUps, linkDowns, serverUps, serverDowns]

/-- A tick with the link down (lines 99-111). -/
theorem update_down (app : AppHandler) (s : State) (t : Nat) (arrived : List Datagram)
    (m : Nat) :
    update app s false t arrived m =
      if s.wifiConnected then
        if s.serverConnected then
          ({ s with wifiConnected := false, serverConnected := false },
           [Event.onServerDisconnected t, Event.onWiFiDisconnected t])
        else ({ s with wifiConnected := false }, [Event.onWiFiDisconnected t])
      else (s, []) := by
  cases h1 : s.wifiConnected <;> cases h2 : s.serverConnected <;> simp [update, h1, h2]

/-- The connectivity notifications of a tick with the link up, and the flags it
leaves. -/
theorem update_up_connectivity (app : AppHandler) (s : State) (t : Nat)
    (arrived : List Datagram) (m : Nat) :
    (update app s true t arrived m).1.wifiConnected = true ∧
    linkUps (update app s true t arrived m).2
      = (if s.wifiConnected then [] else [Event.onWiFiConnected t]) ∧
    linkDowns (update app s true t arrived m).2 = [] ∧
    serverUps (update app s true t arrived m).2
      = (if s.serverConnected = false ∧ (update app s true t arrived m).1.serverConnected = true
          then [Event.onServerConnected t] else []) ∧
    serverDowns (update app s true t arrived m).2
      = (if s.serverConnected = true ∧ (update app s true t arrived m).1.serverConnected = false
          then [Event.onServerDisconnected t] else []) := by
  obtain ⟨p1, p2, p3, p4, p5, p6⟩ :=
    BasicUDP_update_connectivity app t arrived { s with wifiConnected := true } rfl
  have p5 : s.serverConnected = true → _ := p5
  have p6 : s.serverConnected = false → _ := p6
  obtain ⟨w1, w2, w3, w4⟩ := wifiEvent_filters s t
  have hcases := update_up_cases app s t arrived m
  generalize BasicUDP_update app { s with wifiConnected := true } t arrived = r at *
  generalize update app s true t arrived m = u at *
  rcases hcases with ⟨g1, g2, g3⟩ | ⟨o1, o2, x, o3, o4⟩
  · have hs : s.serverConnected = true := by
      by_contra hcon
      have hf : s.serverConnected = false := by simpa using hcon
      rcases p6 hf with ⟨a, _, _⟩ | ⟨_, _, c⟩
      · rw [g1] at a
        exact Bool.noConfusion a
      · rw [c] at g2
        simp [CONNECTED_SEND_COUNT] at g2
    obtain ⟨_, q2, _⟩ := p5 hs
    rw [g3]
    simp only [linkUps_append, linkDowns_append, serverUps_append, serverDowns_append,
      w1, w2, w3, w4, p2, p3, p4, q2, hs]
    refine ⟨p1, ?_, ?_, ?_, ?_⟩ <;> simp [linkUps, linkDowns, serverUps, serverDowns]
  · obtain ⟨x1, x2, x3, x4⟩ := filters_of_not_connectivity x o4
    rw [o3, o1, o2]
    simp only [linkUps_append, linkDowns_append, serverUps_append, serverDowns_append,
      w1, w2, w3, w4, p2, p3, p4, x1, x2, x3, x4, List.append_nil, List.nil_append]
    refine ⟨p1, trivial, trivial, ?_, ?_⟩
    · cases hs : s.serverConnected
      · rcases p6 hs with ⟨a, b, _⟩ | ⟨a, b, _⟩
        · rw [a, b]
          simp
        · rw [a, b]
          simp
      · obtain ⟨a, b, _⟩ := p5 hs
        rw [b]
        simp
    · cases hs : s.serverConnected
      · simp
      · obtain ⟨a, _, _⟩ := p5 hs
        rw [a]
        simp

/-- In every reachable state a connected server session implies a connected link. -/
theorem reachable_connectivity (app : AppHandler) (s : State) (h : Reachable app s) :
    s.serverConnected = true → s.wifiConnected = true := by
  induction h with
  | begin s0 millis port serverPort serverId _ =>
    intro hc
    have hf : (begin s0 millis port serverPort serverId).1.serverConnected = false := by
      simp only [begin, sendPacketToServer_str]
      exact (send_keeps_flags _ _ _ _ _ _ _ _ _ _ _).1
    rw [hf] at hc
    exact Bool.noConfusion hc
  | update s wifi t arrived m _ ih =>
    intro hc
    cases wifi
    · rw [update_down] at hc ⊢
      cases h1 : s.wifiConnected
      · simp only [h1, Bool.false_eq_true, if_false] at hc ⊢
        have := ih hc
        rw [h1] at this
        exact Bool.noConfusion this
      · cases h2 : s.serverConnected <;> simp [h1, h2] at hc
    · exact (update_up_connectivity app s t arrived m).1
  | send s millis command arg1 arg2 arg3 arg4 pData size blocking forceSend _ ih =>
    intro hc
    obtain ⟨k1, k2, _⟩ := send_keeps_flags s millis command arg1 arg2 arg3 arg4 pData size
      blocking forceSend
    rw [k2]
    rw [k1] at hc
    exact ih hc

/-- C15. In every state reachable from `begin` by ticks (with any link status and any
delivered datagrams) and send calls, `serverConnected = true` implies
`wifiConnected = true`. -/
theorem C15_connectivity_invariant (app : AppHandler) (s : State) (h : Reachable app s)
    (hc : s.serverConnected = true) : s.wifiConnected = true :=
  reachable_connectivity app s h hc

/-- Witness for C15: the device after `begin` and the tick that delivers the INITACK. -/
theorem C15_connectivity_invariant_witness :
    Reachable app42 dev0_online ∧ dev0_online.serverConnected = true ∧
    dev0_online.wifiConnected = true :=
  ⟨Reachable.update _ _ _ _ _ (Reachable.begin dev0 0 1 4000 0 (by decide)), by decide,
   C15_connectivity_invariant app42 dev0_online
     (Reachable.update _ _ _ _ _ (Reachable.begin dev0 0 1 4000 0 (by decide))) (by decide)⟩

/-- C17. The connectivity notifications are edge-triggered.  A tick fires link-up
once if the link is up and `wifiConnected` was false, and not otherwise; it fires
link-down once if the link is down and `wifiConnected` was true, and not otherwise,
and then its whole trace is server-session-down, present exactly when
`serverConnected` was true, followed by link-down.  A tick fires server-session-up
once if `serverConnected` goes from false to true over the tick and not otherwise,
and server-session-down once if it goes from true to false and not otherwise.  The
dispatcher alone fires link-up exactly when `wifiConnected` was false,
server-session-up exactly when `serverConnected` goes from false to true, and
never a down notification. -/
theorem C17_edge_triggered (app : AppHandler) (s : State) (wifi : Bool) (t : Nat)
    (arrived : List Datagram) (m : Nat) :
    linkUps (update app s wifi t arrived m).2
      = (if wifi = true ∧ s.wifiConnected = false then [Event.onWiFiConnected t] else []) ∧
    linkDowns (update app s wifi t arrived m).2
      = (if wifi = false ∧ s.wifiConnected = true then [Event.onWiFiDisconnected t] else []) ∧
    (wifi = false → s.wifiConnected = true →
      (update app s wifi t arrived m).2
        = (if s.serverConnected then [Event.onServerDisconnected t] else []) ++
            [Event.onWiFiDisconnected t]) ∧
    serverUps (update app s wifi t arrived m).2
      = (if s.serverConnected = false ∧ (update app s wifi t arrived m).1.serverConnected = true
          then [Event.onServerConnected t] else []) ∧
    serverDowns (update app s wifi t arrived m).2
      = (if s.serverConnected = true ∧ (update app s wifi t arrived m).1.serverConnected = false
          then [Event.onServerDisconnected t] else []) ∧
    (∀ (src : IPAddress) (port : Nat) (p : List Nat),
      linkUps (onPacketReceived app s t src port p).2
        = (if s.wifiConnected = false then [Event.onWiFiConnected t] else []) ∧
      serverUps (onPacketReceived app s t src port p).2
        = (if s.serverConnected = false ∧
              (onPacketReceived app s t src port p).1.serverConnected = true
            then [Event.onServerConnected t] else []) ∧
      linkDowns (onPacketReceived app s t src port p).2 = [] ∧
      serverDowns (onPacketReceived app s t src port p).2 = []) := by
  refine ⟨?_, ?_, ?_, ?_, ?_, ?_⟩
  · cases wifi
    · rw [update_down]
      cases h1 : s.wifiConnected <;> cases h2 : s.serverConnected <;> simp [linkUps]
    · rw [(update_up_connectivity app s t arrived m).2.1]
      cases h1 : s.wifiConnected <;> simp
  · cases wifi
    · rw [update_down]
      cases h1 : s.wifiConnected <;> cases h2 : s.serverConnected <;> simp [linkDowns]
    · rw [(update_up_connectivity app s t arrived m).2.2.1]
      simp
  · intro hw h1
    rw [hw, update_down]
    cases h2 : s.serverConnected <;> simp [h1]
  · cases wifi
    · rw [update_down]
      cases h1 : s.wifiConnected <;> cases h2 : s.serverConnected <;> simp [serverUps, h2]
    · exact (update_up_connectivity app s t arrived m).2.2.2.1
  · cases wifi
    · rw [update_down]
      cases h1 : s.wifiConnected <;> cases h2 : s.serverConnected <;> simp [serverDowns, h2]
    · exact (update_up_connectivity app s t arrived m).2.2.2.2
  · intro src port p
    obtain ⟨_, d2, d3, d4, d5, d6⟩ := onPacketReceived_connectivity app s t src port p
    refine ⟨?_, ?_, d3, d4⟩
    · rw [d2]
      cases h1 : s.wifiConnected <;> simp
    · cases hs : s.serverConnected
      · rcases d6 hs with ⟨a, b, _⟩ | ⟨a, b, _⟩
        · rw [a, b]
          simp
        · rw [a, b]
          simp
      · obtain ⟨_, b, _⟩ := d5 hs
        rw [b]
        simp

/-- Witness for C17: the tick at 60 ms finds the link down while link and server
session were up; it fires server-session-down and then link-down. -/
theorem C17_edge_triggered_witness :
    dev0_online.wifiConnected = true ∧ dev0_online.serverConnected = true ∧
    (update app42 dev0_online false 60 [] 60).2
      = [Event.onServerDisconnected 60, Event.onWiFiDisconnected 60] :=
  ⟨by decide, by decide,
   (C17_edge_triggered app42 dev0_online false 60 [] 60).2.2.1 rfl (by decide)⟩

/-! ## Malformed input at the tick -/

/-- The pump on a list of datagrams in two parts. -/
theorem BasicUDP_update_append (app : AppHandler) (t : Nat) (a b : List Datagram) :
    ∀ s : State, BasicUDP_update app s t (a ++ b)
      = ((BasicUDP_update app (BasicUDP_update app s t a).1 t b).1,
         (BasicUDP_update app s t a).2 ++
           (BasicUDP_update app (BasicUDP_update app s t a).1 t b).2) := by
  induction a with
  | nil =>
    intro s
    simp [BasicUDP_update]
  | cons d ds ih =>
    intro s
    rw [List.cons_append, BasicUDP_update_cons, BasicUDP_update_cons, ih]
    simp only [List.append_assoc]

/-- The pump never changes the device id. -/
theorem BasicUDP_update_deviceId (app : AppHandler) (t : Nat) (arrived : List Datagram) :
    ∀ s : State, (BasicUDP_update app s t arrived).1.deviceId = s.deviceId := by
  induction arrived with
  | nil =>
    intro s
    rfl
  | cons d ds ih =>
    intro s
    rw [BasicUDP_update_cons]
    exact (ih _).trans (onPacketReceived_frame app s t d.srcAddress d.srcPort d.data).2.1

/-- The dispatcher, entered with the link recorded as up, on a datagram that fails
one of the two guards of lines 130-144. -/
theorem onPacketReceived_discard (app : AppHandler) (u : State) (t : Nat) (src : IPAddress)
    (port : Nat) (p : List Nat) (hw : u.wifiConnected = true)
    (hbad : p.length < 20 ∨ _readIntegerFromBuffer p 0 8 ≠ u.deviceId) :
    onPacketReceived app u t src port p = (u, []) := by
  rw [onPacketReceived_malformed app u t src port p (not_wellFormed_of u p hbad)]
  cases u
  simp_all

/-- C11. A datagram shorter than 20 bytes, or whose bytes 0..7 do not decode to this
device's id, is discarded silently.  The dispatcher runs inside the pump of a tick
(line 63), which the tick calls after recording the link as up (lines 58-62).  For
every state, a tick with the link up that has such a datagram among the arrived
ones, at any position, enters the dispatcher for it in a state that the dispatcher
returns unchanged together with the empty trace: the whole session state is
unchanged, nothing is transmitted and no notification is fired.  So, whatever the
link status, the tick ends in the same state and leaves the same trace as the tick
without that datagram.  In the dispatcher's own terms: entered with `wifiConnected`
true it returns the state it was given and the empty trace. -/
theorem C11_malformed_discarded (app : AppHandler) (s : State) (t : Nat) (src : IPAddress)
    (port : Nat) (p : List Nat)
    (hbad : p.length < 20 ∨ _readIntegerFromBuffer p 0 8 ≠ s.deviceId) :
    (∀ pre : List Datagram,
      onPacketReceived app
          (BasicUDP_update app { s with wifiConnected := true } t pre).1 t src port p
        = ((BasicUDP_update app { s with wifiConnected := true } t pre).1, [])) ∧
    (∀ (wifiIsConnected : Bool) (pre post : List Datagram) (m : Nat),
      update app s wifiIsConnected t (pre ++ ⟨src, port, p⟩ :: post) m
        = update app s wifiIsConnected t (pre ++ post) m) ∧
    (s.wifiConnected = true → onPacketReceived app s t src port p = (s, [])) := by
  have hstep : ∀ pre : List Datagram,
      onPacketReceived app
          (BasicUDP_update app { s with wifiConnected := true } t pre).1 t src port p
        = ((BasicUDP_update app { s with wifiConnected := true } t pre).1, []) := by
    intro pre
    apply onPacketReceived_discard
    · exact (BasicUDP_update_connectivity app t pre { s with wifiConnected := true } rfl).1
    · rw [BasicUDP_update_deviceId]
      exact hbad
  refine ⟨hstep, ?_, fun hw => onPacketReceived_discard app s t src port p hw hbad⟩
  intro wifiIsConnected pre post m
  cases wifiIsConnected
  · rw [update_down, update_down]
  · have hp : BasicUDP_update app { s with wifiConnected := true } t
          (pre ++ ⟨src, port, p⟩ :: post)
        = BasicUDP_update app { s with wifiConnected := true } t (pre ++ post) := by
      rw [BasicUDP_update_append, BasicUDP_update_append, BasicUDP_update_cons]
      simp only [hstep pre, List.nil_append]
    simp only [update, hp]

/-- Witness for C11: right after `begin`, with the link not yet recorded as up, a
tick at 5 ms delivers the server's INITACK, then a three-byte datagram, then a PING
addressed to device 8.  The tick ends in the same state and leaves the same trace
as the tick that delivers the INITACK alone; the two datagrams transmit nothing
and fire no notification.  The link-up notification in the trace of a tick is the
tick's own (lines 58-62): the tick without any datagram fires it as well. -/
theorem C11_malformed_discarded_witness :
    (shortDatagram.length < 20 ∨ _readIntegerFromBuffer shortDatagram 0 8 ≠ dev0_begun.deviceId) ∧
    (pingFor8.length < 20 ∨ _readIntegerFromBuffer pingFor8 0 8 ≠ dev0_begun.deviceId) ∧
    dev0_begun.wifiConnected = false ∧
    update app42 dev0_begun true 5
        [⟨peer, 4000, initack9⟩, ⟨stranger, 1, shortDatagram⟩, ⟨stranger, 1, pingFor8⟩] 5
      = update app42 dev0_begun true 5 [⟨peer, 4000, initack9⟩] 5 ∧
    update app42 dev0_begun true 5 [⟨stranger, 1, shortDatagram⟩] 5
      = update app42 dev0_begun true 5 [] 5 ∧
    (update app42 dev0_begun true 5 [⟨stranger, 1, shortDatagram⟩] 5).2
      = [Event.onWiFiConnected 5] :=
  ⟨by decide, by decide, by decide,
   ((C11_malformed_discarded app42 dev0_begun 5 stranger 1 shortDatagram (by decide)).2.1
      true [⟨peer, 4000, initack9⟩] [⟨stranger, 1, pingFor8⟩] 5).trans
    ((C11_malformed_discarded app42 dev0_begun 5 stranger 1 pingFor8 (by decide)).2.1
      true [⟨peer, 4000, initack9⟩] [] 5),
   (C11_malformed_discarded app42 dev0_begun 5 stranger 1 shortDatagram (by decide)).2.1
      true [] [] 5,
   by decide⟩

/-! ## Keepalive -/

/-- A tick with the link up and no datagram arriving, while the slot is idle
(lines 89-97). -/
theorem update_quiet_idle (app : AppHandler) (s : State) (t m : Nat)
    (hs : s.isSending = false) :
    update app s true t [] m =
      if ulongSub t s.lastReceiveTime ≥ MAX_IDLE_TIME then
        ((_sendPacketToServer { s with wifiConnected := true } m PING 0 0 0 0 [] 0 false
            false).2.1,
         (if s.wifiConnected then [] else [Event.onWiFiConnected t]) ++
           (_sendPacketToServer { s with wifiConnected := true } m PING 0 0 0 0 [] 0 false
             false).2.2)
      else
        ({ s with wifiConnected := true },
         if s.wifiConnected then [] else [Event.onWiFiConnected t]) := by
  by_cases h : ulongSub t s.lastReceiveTime ≥ MAX_IDLE_TIME <;>
    simp [update, BasicUDP_update, hs, h]

theorem PING_lt : PING < U16 := by decide

/-- The two cases of a quiet tick on an idle slot, in the terms of the code: when
the test of line 92 succeeds the tick does the non-blocking, non-forced send of a
PING, otherwise it transmits nothing and leaves the slot idle. -/
theorem update_idle_cases (app : AppHandler) (s : State) (t m : Nat)
    (hs : s.isSending = false) :
    (ulongSub t s.lastReceiveTime ≥ MAX_IDLE_TIME →
      update app s true t [] m
        = ((_sendPacketToServer { s with wifiConnected := true } m PING 0 0 0 0 [] 0 false
              false).2.1,
           (if s.wifiConnected then [] else [Event.onWiFiConnected t]) ++
             (_sendPacketToServer { s with wifiConnected := true } m PING 0 0 0 0 [] 0 false
               false).2.2) ∧
      (update app s true t [] m).1.isSending = true ∧
      (update app s true t [] m).1.isBlocking = false ∧
      (update app s true t [] m).1.sentCount = 1 ∧
      (update app s true t [] m).1.curMsgId
        = (if s.curMsgId = 65535 then 1 else (s.curMsgId + 1) % U16) ∧
      transmissions (update app s true t [] m).2
        = [Event.sendPacket s.serverAddress s.serverPort
            ((update app s true t [] m).1.sendBuffer.take
              (update app s true t [] m).1.sendBufferSize)] ∧
      (20 ≤ s.sendBuffer.length → s.curMsgId < U16 →
        ((update app s true t [] m).1.sendBuffer.take
            (update app s true t [] m).1.sendBufferSize).length = 20 ∧
        headerOf ((update app s true t [] m).1.sendBuffer.take
            (update app s true t [] m).1.sendBufferSize)
          = ((update app s true t [] m).1.curMsgId, PING, 0, 0, 0, 0))) ∧
    (ulongSub t s.lastReceiveTime < MAX_IDLE_TIME →
      update app s true t [] m
        = ({ s with wifiConnected := true },
           if s.wifiConnected then [] else [Event.onWiFiConnected t]) ∧
      transmissions (update app s true t [] m).2 = [] ∧
      (update app s true t [] m).1.isSending = false) ∧
    (transmissions (update app s true t [] m).2 ≠ []
      ↔ ulongSub t s.lastReceiveTime ≥ MAX_IDLE_TIME) := by
  have hq := update_quiet_idle app s t m hs
  have hacc : ¬ (({ s with wifiConnected := true } : State).isSending = true ∧
      ({ s with wifiConnected := true } : State).isBlocking = true ∧ false = false) := by
    intro h
    rw [show ({ s with wifiConnected := true } : State).isSending = s.isSending from rfl, hs]
      at h
    exact Bool.noConfusion h.1
  have hsend := send_accepted_eq { s with wifiConnected := true } m PING 0 0 0 0 [] 0 false
    false hacc
  have hyes : ulongSub t s.lastReceiveTime ≥ MAX_IDLE_TIME →
      update app s true t [] m
        = ((_sendPacketToServer { s with wifiConnected := true } m PING 0 0 0 0 [] 0 false
              false).2.1,
           (if s.wifiConnected then [] else [Event.onWiFiConnected t]) ++
             (_sendPacketToServer { s with wifiConnected := true } m PING 0 0 0 0 [] 0 false
               false).2.2) := by
    intro h
    rw [hq, if_pos h]
  have hno : ulongSub t s.lastReceiveTime < MAX_IDLE_TIME →
      update app s true t [] m
        = ({ s with wifiConnected := true },
           if s.wifiConnected then [] else [Event.onWiFiConnected t]) := by
    intro h
    rw [hq, if_neg (by omega)]
  have htx : ulongSub t s.lastReceiveTime ≥ MAX_IDLE_TIME →
      transmissions (update app s true t [] m).2
        = [Event.sendPacket s.serverAddress s.serverPort
            ((update app s true t [] m).1.sendBuffer.take
              (update app s true t [] m).1.sendBufferSize)] := by
    intro h
    rw [hyes h, hsend]
    simp only [transmissions_append, transmissions_wifi, copyPayload_zero]
    simp [transmissions, hs]
  refine ⟨?_, ?_, ?_⟩
  · intro h
    refine ⟨hyes h, ?_, ?_, ?_, ?_, htx h, ?_⟩
    · rw [hyes h, hsend]
    · rw [hyes h, hsend]
    · rw [hyes h, hsend]
    · rw [hyes h, hsend]
    · intro hb hcur
      rw [hyes h, hsend]
      simp only [copyPayload_zero]
      have h20 : (20 + 0) % U16 = 20 := by decide
      rw [h20, nextId_eq _ hcur]
      exact ⟨length_reply _ _ _ _ _ _ _ hb,
        headerOf_writeHeader _ _ _ _ _ _ _ hb (nextId_lt _ hcur) PING_lt zero_lt_U16
          zero_lt_U16 zero_lt_U16 zero_lt_U16⟩
  · intro h
    refine ⟨hno h, ?_, ?_⟩
    · rw [hno h]
      exact transmissions_wifi s t
    · rw [hno h]
      exact hs
  · constructor
    · intro hne
      by_contra hlt
      have hlt2 : ulongSub t s.lastReceiveTime < MAX_IDLE_TIME := by omega
      rw [hno hlt2] at hne
      exact hne (transmissions_wifi s t)
    · intro h
      rw [htx h]
      simp

/-- C16. On a tick with the link up, no datagram arriving and the slot idle, let
`elapsed` be `now - lastReceiveTime` modulo 2^32, the unsigned subtraction of line 91.
If `elapsed ≥ 5000` the tick does exactly the non-blocking, non-forced
`_sendPacketToServer(65532, 0, 0, 0, 0, 0, 0)`: the slot is occupied, non-blocking,
with the next id, and one datagram goes to the server; with a send buffer of at
least 20 bytes and a 16-bit `curMsgId` that datagram is 20 bytes long and decodes
as (id, 65532, 0, 0, 0, 0).  If `elapsed < 5000` the tick transmits nothing and
leaves the slot idle.  So the tick transmits exactly when `elapsed ≥ 5000`. -/
theorem C16_keepalive (app : AppHandler) (s : State) (t m : Nat)
    (hs : s.isSending = false) :
    (((t : Int) - (s.lastReceiveTime : Int)) % 4294967296 ≥ 5000 →
      update app s true t [] m
        = ((_sendPacketToServer { s with wifiConnected := true } m 65532 0 0 0 0 [] 0 false
              false).2.1,
           (if s.wifiConnected then [] else [Event.onWiFiConnected t]) ++
             (_sendPacketToServer { s with wifiConnected := true } m 65532 0 0 0 0 [] 0 false
               false).2.2) ∧
      (update app s true t [] m).1.isSending = true ∧
      (update app s true t [] m).1.isBlocking = false ∧
      (update app s true t [] m).1.sentCount = 1 ∧
      (update app s true t [] m).1.curMsgId
        = (if s.curMsgId = 65535 then 1 else (s.curMsgId + 1) % 65536) ∧
      transmissions (update app s true t [] m).2
        = [Event.sendPacket s.serverAddress s.serverPort
            ((update app s true t [] m).1.sendBuffer.take
              (update app s true t [] m).1.sendBufferSize)] ∧
      (20 ≤ s.sendBuffer.length → s.curMsgId < 65536 →
        ((update app s true t [] m).1.sendBuffer.take
            (update app s true t [] m).1.sendBufferSize).length = 20 ∧
        headerOf ((update app s true t [] m).1.sendBuffer.take
            (update app s true t [] m).1.sendBufferSize)
          = ((update app s true t [] m).1.curMsgId, 65532, 0, 0, 0, 0))) ∧
    (((t : Int) - (s.lastReceiveTime : Int)) % 4294967296 < 5000 →
      update app s true t [] m
        = ({ s with wifiConnected := true },
           if s.wifiConnected then [] else [Event.onWiFiConnected t]) ∧
      transmissions (update app s true t [] m).2 = [] ∧
      (update app s true t [] m).1.isSending = false) ∧
    (transmissions (update app s true t [] m).2 ≠ []
      ↔ ((t : Int) - (s.lastReceiveTime : Int)) % 4294967296 ≥ 5000) := by
  obtain ⟨h1, h2, h3⟩ := update_idle_cases app s t m hs
  have hi : ulongSub t s.lastReceiveTime ≥ MAX_IDLE_TIME
      ↔ ((t : Int) - (s.lastReceiveTime : Int)) % 4294967296 ≥ 5000 := by
    unfold ulongSub ULONG MAX_IDLE_TIME
    omega
  refine ⟨fun h => h1 (hi.mpr h), fun h => h2 ?_, h3.trans hi⟩
  by_contra hc
  have hge : ulongSub t s.lastReceiveTime ≥ MAX_IDLE_TIME := by omega
  have := hi.mp hge
  omega

/-- Witness for C16.  The connected device last heard from the server at 50 ms: the
tick at 5049 ms, 4999 ms later, transmits nothing and the tick at 5050 ms sends the
PING with id 2 and occupies the slot.  The device `dev0_heardLate` last heard at
4294967196 ms: after the clock has wrapped, the tick at 4899 ms, 4999 ms later,
transmits nothing and the tick at 4900 ms sends the PING. -/
theorem C16_keepalive_witness :
    dev0_connected.isSending = false ∧ dev0_connected.lastReceiveTime = 50 ∧
    ((5050 : Int) - (dev0_connected.lastReceiveTime : Int)) % 4294967296 ≥ 5000 ∧
    (update app42 dev0_connected true 5050 [] 5050).1.isSending = true ∧
    transmissions (update app42 dev0_connected true 5050 [] 5050).2
      = [Event.sendPacket peer 4000
          [7, 0, 0, 0, 0, 0, 0, 0, 2, 0, 252, 255, 0, 0, 0, 0, 0, 0, 0, 0]] ∧
    transmissions (update app42 dev0_connected true 5049 [] 5049).2 = [] ∧
    dev0_heardLate.isSending = false ∧ dev0_heardLate.lastReceiveTime = 4294967196 ∧
    ((4899 : Int) - (dev0_heardLate.lastReceiveTime : Int)) % 4294967296 < 5000 ∧
    (update app42 dev0_heardLate true 4899 [] 4899).1.isSending = false ∧
    transmissions (update app42 dev0_heardLate true 4899 [] 4899).2 = [] ∧
    transmissions (update app42 dev0_heardLate true 4900 [] 4900).2
      = [Event.sendPacket peer 4000
          [7, 0, 0, 0, 0, 0, 0, 0, 2, 0, 252, 255, 0, 0, 0, 0, 0, 0, 0, 0]] :=
  ⟨by decide, by decide, by decide,
   ((C16_keepalive app42 dev0_connected 5050 5050 (by decide)).1 (by decide)).2.1,
   by decide, by decide, by decide, by decide, by decide,
   ((C16_keepalive app42 dev0_heardLate 4899 4899 (by decide)).2.1 (by decide)).2.2,
   by decide, by decide⟩

/-! ## Retry decision -/

theorem reachable_quietRun (app : AppHandler) (ticks : List (Nat × Nat)) :
    ∀ s : State, Reachable app s → Reachable app (quietRun app s ticks).1 := by
  induction ticks with
  | nil =>
    intro s h
    exact h
  | cons t ts ih =>
    intro s h
    simp only [quietRun]
    exact ih _ (Reachable.update s true t.1 [] t.2 h)

set_option maxRecDepth 100000

/-- C18, as stated, fails on the code where it says the tick increments `sentCount`:
the counter is a `uint8_t`.  After `begin` and 254 unanswered retransmissions of the
INIT, 10001 ms apart, the state is reachable, the session is disconnected, the slot
is occupied and `sentCount` is 255; the next tick, again 10001 ms later,
retransmits and leaves `sentCount` at 0. -/
theorem C18_retry_counterexample :
    Reachable app42 dev0_sent255 ∧
    dev0_sent255.isSending = true ∧ dev0_sent255.serverConnected = false ∧
    dev0_sent255.sentCount = 255 ∧
    ulongSub 2550255 dev0_sent255.lastSentTime > DISCONNECTED_SEND_INTERVAL ∧
    transmissions (update app42 dev0_sent255 true 2550255 [] 2550255).2 ≠ [] ∧
    (update app42 dev0_sent255 true 2550255 [] 2550255).1.sentCount = 0 :=
  ⟨reachable_quietRun app42 _ _ (Reachable.begin dev0 0 1 4000 0 (by decide)),
   by decide, by decide, by decide, by decide, by decide, by decide⟩

/-- The cases of a quiet tick on an occupied slot, in the terms of the code: when
the test of line 68 fails nothing is transmitted and only `wifiConnected` may change;
when it succeeds without the give-up condition, the buffered datagram is
retransmitted, `sentCount` is incremented modulo 256 and `lastSentTime` is set. -/
theorem update_sending_cases (app : AppHandler) (s : State) (t m : Nat)
    (hs : s.isSending = true) :
    (ulongSub t s.lastSentTime
        ≤ (if s.serverConnected then CONNECTED_SEND_INTERVAL else DISCONNECTED_SEND_INTERVAL) →
      (update app s true t [] m).1 = { s with wifiConnected := true } ∧
      transmissions (update app s true t [] m).2 = []) ∧
    (ulongSub t s.lastSentTime
        > (if s.serverConnected then CONNECTED_SEND_INTERVAL else DISCONNECTED_SEND_INTERVAL) →
      ¬ (s.serverConnected = true ∧ s.sentCount ≥ CONNECTED_SEND_COUNT) →
      (update app s true t [] m).1
        = { s with wifiConnected := true, sentCount := (s.sentCount + 1) % U8,
                   lastSentTime := t } ∧
      (s.sentCount < 255 → (update app s true t [] m).1.sentCount = s.sentCount + 1) ∧
      transmissions (update app s true t [] m).2
        = [Event.sendPacket s.serverAddress s.serverPort
            (s.sendBuffer.take s.sendBufferSize)]) := by
  have hq := update_quiet_sending app s t m hs
  refine ⟨?_, ?_⟩
  · intro hle
    have hn : ¬ (ulongSub t s.lastSentTime
        > (if s.serverConnected then CONNECTED_SEND_INTERVAL else DISCONNECTED_SEND_INTERVAL)) := by
      omega
    rw [hq, if_neg hn]
    exact ⟨rfl, transmissions_wifi s t⟩
  · intro hgt hng
    rw [hq, if_pos hgt, if_neg hng]
    refine ⟨rfl, ?_, ?_⟩
    · intro h255
      show (s.sentCount + 1) % U8 = s.sentCount + 1
      apply Nat.mod_eq_of_lt
      simp only [U8]
      omega
    · simp only [transmissions_append, transmissions_wifi]
      simp [transmissions]

/-- C18, amended.  On a tick with the link up, no datagram arriving and the slot
occupied, let `elapsed` be `now - lastSentTime` modulo 2^32, the wrap-around
unsigned subtraction of line 66, and `interval` be 1000 ms when the server session
is connected and 10000 ms otherwise.  If `elapsed ≤ interval` the tick transmits
nothing and changes no field except `wifiConnected`, which it sets.  If
`elapsed > interval` and not (connected and `sentCount ≥ 5`), the tick sets
`sentCount` to `(sentCount + 1) mod 256`, which is `sentCount + 1` below 255, sets
`lastSentTime` to `now`, transmits the first `sendBufferSize` bytes of the send
buffer to `serverAddress:serverPort` and changes nothing else except
`wifiConnected`. -/
theorem C18_retry_decision (app : AppHandler) (s : State) (t m : Nat)
    (hs : s.isSending = true) :
    (((t : Int) - (s.lastSentTime : Int)) % 4294967296
        ≤ (if s.serverConnected then 1000 else 10000) →
      (update app s true t [] m).1 = { s with wifiConnected := true } ∧
      transmissions (update app s true t [] m).2 = []) ∧
    (((t : Int) - (s.lastSentTime : Int)) % 4294967296
        > (if s.serverConnected then 1000 else 10000) →
      ¬ (s.serverConnected = true ∧ s.sentCount ≥ 5) →
      (update app s true t [] m).1
        = { s with wifiConnected := true, sentCount := (s.sentCount + 1) % 256,
                   lastSentTime := t } ∧
      (s.sentCount < 255 → (update app s true t [] m).1.sentCount = s.sentCount + 1) ∧
      transmissions (update app s true t [] m).2
        = [Event.sendPacket s.serverAddress s.serverPort
            (s.sendBuffer.take s.sendBufferSize)]) := by
  obtain ⟨h1, h2⟩ := update_sending_cases app s t m hs
  have hi : ulongSub t s.lastSentTime
        > (if s.serverConnected then CONNECTED_SEND_INTERVAL else DISCONNECTED_SEND_INTERVAL)
      ↔ ((t : Int) - (s.lastSentTime : Int)) % 4294967296
        > (if s.serverConnected then 1000 else 10000) := by
    cases s.serverConnected
    · simp only [Bool.false_eq_true, if_false]
      unfold ulongSub ULONG DISCONNECTED_SEND_INTERVAL
      omega
    · simp only [if_true]
      unfold ulongSub ULONG CONNECTED_SEND_INTERVAL
      omega
  refine ⟨fun hle => h1 (not_lt.mp (fun hgt => absurd (hi.mp hgt) (not_lt.mpr hle))),
    fun hgt hng => h2 (hi.mpr hgt) hng⟩

/-- Witness for C18 (amended).  Command 7 was sent at 100 ms on the connected device:
the tick at 1100 ms, 1000 ms later, transmits nothing, and the tick at 1101 ms
retransmits it, `sentCount` becoming 2 and `lastSentTime` 1101.  After `begin` at
0 ms the session is disconnected: the tick at 10000 ms transmits nothing and the
tick at 10001 ms retransmits the INIT.  Command 7 sent at 4294967000 ms: after the
clock has wrapped, the tick at 704 ms, 1000 ms later, transmits nothing and the
tick at 705 ms retransmits. -/
theorem C18_retry_decision_witness :
    dev0_sent7.isSending = true ∧ dev0_sent7.lastSentTime = 100 ∧
    dev0_sent7.serverConnected = true ∧ dev0_sent7.sentCount = 1 ∧
    ((1101 : Int) - (dev0_sent7.lastSentTime : Int)) % 4294967296
      > (if dev0_sent7.serverConnected then 1000 else 10000) ∧
    ¬ (dev0_sent7.serverConnected = true ∧ dev0_sent7.sentCount ≥ 5) ∧
    dev0_sent7.sentCount < 255 ∧
    (update app42 dev0_sent7 true 1101 [] 1101).1.sentCount = dev0_sent7.sentCount + 1 ∧
    (update app42 dev0_sent7 true 1101 [] 1101).1.lastSentTime = 1101 ∧
    transmissions (update app42 dev0_sent7 true 1101 [] 1101).2
      = [Event.sendPacket peer 4000
          [7, 0, 0, 0, 0, 0, 0, 0, 2, 0, 7, 0, 1, 0, 2, 0, 3, 0, 4, 0]] ∧
    transmissions (update app42 dev0_sent7 true 1100 [] 1100).2 = [] ∧
    dev0_begun.isSending = true ∧ dev0_begun.lastSentTime = 0 ∧
    dev0_begun.serverConnected = false ∧
    transmissions (update app42 dev0_begun true 10000 [] 10000).2 = [] ∧
    transmissions (update app42 dev0_begun true 10001 [] 10001).2
      = [Event.sendPacket broadcast 4000
          [7, 0, 0, 0, 0, 0, 0, 0, 1, 0, 255, 255, 3, 0, 0, 0, 0, 0, 0, 0, 65, 66]] ∧
    dev0_sentLate.isSending = true ∧ dev0_sentLate.lastSentTime = 4294967000 ∧
    dev0_sentLate.serverConnected = true ∧
    transmissions (update app42 dev0_sentLate true 704 [] 704).2 = [] ∧
    transmissions (update app42 dev0_sentLate true 705 [] 705).2
      = [Event.sendPacket peer 4000
          [7, 0, 0, 0, 0, 0, 0, 0, 2, 0, 7, 0, 1, 0, 2, 0, 3, 0, 4, 0]] :=
  ⟨by decide, by decide, by decide, by decide, by decide, by decide, by decide,
   ((C18_retry_decision app42 dev0_sent7 1101 1101 (by decide)).2 (by decide)
      (by decide)).2.1 (by decide),
   by decide, by decide, by decide, by decide, by decide, by decide, by decide, by decide,
   by decide, by decide, by decide, by decide, by decide⟩

/-! ## After the give-up -/

/-- One quiet tick on an occupied slot of a disconnected session: the buffered
datagram is retransmitted exactly when more than `DISCONNECTED_SEND_INTERVAL` ms
have elapsed, and the slot, the buffer and the destination stay as they are. -/
theorem update_quiet_disconnected (app : AppHandler) (u : State) (t m : Nat)
    (hs : u.isSending = true) (hc : u.serverConnected = false) :
    (update app u true t [] m).1.isSending = true ∧
    (update app u true t [] m).1.serverConnected = false ∧
    (update app u true t [] m).1.serverAddress = u.serverAddress ∧
    (update app u true t [] m).1.serverPort = u.serverPort ∧
    (update app u true t [] m).1.sendBuffer = u.sendBuffer ∧
    (update app u true t [] m).1.sendBufferSize = u.sendBufferSize ∧
    (update app u true t [] m).1.curMsgId = u.curMsgId ∧
    (update app u true t [] m).1.isBlocking = u.isBlocking ∧
    transmissions (update app u true t [] m).2
      = (if ulongSub t u.lastSentTime > DISCONNECTED_SEND_INTERVAL then
          [Event.sendPacket u.serverAddress u.serverPort (u.sendBuffer.take u.sendBufferSize)]
         else []) := by
  rw [update_quiet_sending app u t m hs]
  simp only [hc, Bool.false_eq_true, if_false, false_and]
  by_cases h : ulongSub t u.lastSentTime > DISCONNECTED_SEND_INTERVAL
  · rw [if_pos h, if_pos h]
    refine ⟨hs, rfl, rfl, rfl, rfl, rfl, rfl, rfl, ?_⟩
    simp only [transmissions_append, transmissions_wifi]
    simp [transmissions]
  · rw [if_neg h, if_neg h]
    exact ⟨hs, rfl, rfl, rfl, rfl, rfl, rfl, rfl, transmissions_wifi u t⟩

/-- A quiet run on an occupied slot of a disconnected session keeps the slot, the
buffer and the destination. -/
theorem quietRun_disconnected (app : AppHandler) (ticks : List (Nat × Nat)) :
    ∀ u : State, u.isSending = true → u.serverConnected = false →
      (quietRun app u ticks).1.isSending = true ∧
      (quietRun app u ticks).1.serverConnected = false ∧
      (quietRun app u ticks).1.serverAddress = u.serverAddress ∧
      (quietRun app u ticks).1.serverPort = u.serverPort ∧
      (quietRun app u ticks).1.sendBuffer = u.sendBuffer ∧
      (quietRun app u ticks).1.sendBufferSize = u.sendBufferSize ∧
      (quietRun app u ticks).1.curMsgId = u.curMsgId ∧
      (quietRun app u ticks).1.isBlocking = u.isBlocking := by
  induction ticks with
  | nil =>
    intro u hs hc
    exact ⟨hs, hc, rfl, rfl, rfl, rfl, rfl, rfl⟩
  | cons t ts ih =>
    intro u hs hc
    obtain ⟨a1, a2, a3, a4, a5, a6, a7, a8, _⟩ := update_quiet_disconnected app u t.1 t.2 hs hc
    obtain ⟨b1, b2, b3, b4, b5, b6, b7, b8⟩ := ih _ a1 a2
    simp only [quietRun]
    exact ⟨b1, b2, b3.trans a3, b4.trans a4, b5.trans a5, b6.trans a6, b7.trans a7,
      b8.trans a8⟩

/-- The give-up tick and the ticks after it, in the terms of the code: the give-up
changes `serverConnected` and `serverAddress` only and fires the
server-session-down notification; afterwards the slot, the buffer and the
destination stay, and a tick retransmits exactly when the test of line 68 succeeds
with the disconnected interval. -/
theorem update_give_up_cases (app : AppHandler) (s : State) (t m : Nat)
    (hr : Reachable app s) (hs : s.isSending = true) (hc : s.serverConnected = true)
    (hn : s.sentCount ≥ CONNECTED_SEND_COUNT)
    (he : ulongSub t s.lastSentTime > CONNECTED_SEND_INTERVAL) :
    update app s true t [] m
      = ({ s with serverConnected := false, serverAddress := broadcast },
         [Event.onServerDisconnected t]) ∧
    (update app s true t [] m).1.isSending = true ∧
    (∀ (ticks : List (Nat × Nat)) (tick : Nat × Nat),
      (quietRun app (update app s true t [] m).1 ticks).1.isSending = true ∧
      (quietRun app (update app s true t [] m).1 ticks).1.serverConnected = false ∧
      (quietRun app (update app s true t [] m).1 ticks).1.serverAddress = broadcast ∧
      (quietRun app (update app s true t [] m).1 ticks).1.curMsgId = s.curMsgId ∧
      (quietRun app (update app s true t [] m).1 ticks).1.sendBuffer = s.sendBuffer ∧
      (quietRun app (update app s true t [] m).1 ticks).1.sendBufferSize = s.sendBufferSize ∧
      (quietRun app (update app s true t [] m).1 ticks).1.isBlocking = s.isBlocking ∧
      transmissions
          (update app (quietRun app (update app s true t [] m).1 ticks).1 true tick.1 []
            tick.2).2
        = (if ulongSub tick.1 (quietRun app (update app s true t [] m).1 ticks).1.lastSentTime
              > DISCONNECTED_SEND_INTERVAL then
            [Event.sendPacket broadcast s.serverPort (s.sendBuffer.take s.sendBufferSize)]
           else [])) := by
  have hw : s.wifiConnected = true := reachable_connectivity app s hr hc
  have hq : update app s true t [] m
      = ({ s with serverConnected := false, serverAddress := broadcast },
         [Event.onServerDisconnected t]) := by
    rw [update_quiet_sending app s t m hs]
    simp only [hc, if_true] at he ⊢
    rw [if_pos he, if_pos ⟨trivial, hn⟩]
    cases s
    simp_all
  refine ⟨hq, ?_, ?_⟩
  · rw [hq]
    exact hs
  · intro ticks tick
    rw [hq]
    obtain ⟨b1, b2, b3, b4, b5, b6, b7, b8⟩ := quietRun_disconnected app ticks
      { s with serverConnected := false, serverAddress := broadcast } hs rfl
    obtain ⟨_, _, _, _, _, _, _, _, c9⟩ := update_quiet_disconnected app _ tick.1 tick.2 b1 b2
    refine ⟨b1, b2, b3, b7, b5, b6, b8, ?_⟩
    rw [c9, b3, b4, b5, b6]

/-- The connected example device is reachable: it is the state after `begin` and the
tick that delivers the INITACK. -/
theorem reachable_dev0_connected : Reachable app42 dev0_connected := by
  have h : dev0_online = dev0_connected := by decide
  rw [← h]
  exact Reachable.update _ _ _ _ _ (Reachable.begin dev0 0 1 4000 0 (by decide))

/-- C19. Take a reachable state with the slot occupied, the server session connected
and `sentCount ≥ 5`, and a tick with the link up and no datagram arriving; let
`elapsed` be `now - lastSentTime` modulo 2^32.  If `elapsed ≤ 1000` the tick
changes nothing and its trace is empty.  If `elapsed > 1000` the tick gives up: it
changes `serverConnected` to false and `serverAddress` to the broadcast address and
nothing else, and its trace is the server-session-down notification alone; in
particular `isSending` stays true and `sentCount` and `lastSentTime` are as before.
From then on, after any further such ticks, the slot is still occupied with the
same `curMsgId`, buffer, size and blocking flag, `lastSentTime` is the time of the
most recent transmission, and the next tick retransmits the buffered datagram to
the broadcast address exactly when its time minus the time of the most recent
transmission, modulo 2^32, is above 10000 ms; otherwise it transmits nothing. -/
theorem C19_give_up_keeps_slot (app : AppHandler) (s : State) (t m : Nat)
    (hr : Reachable app s) (hs : s.isSending = true) (hc : s.serverConnected = true)
    (hn : s.sentCount ≥ 5) :
    (((t : Int) - (s.lastSentTime : Int)) % 4294967296 ≤ 1000 →
      update app s true t [] m = (s, [])) ∧
    (((t : Int) - (s.lastSentTime : Int)) % 4294967296 > 1000 →
      update app s true t [] m
        = ({ s with serverConnected := false, serverAddress := broadcast },
           [Event.onServerDisconnected t]) ∧
      (update app s true t [] m).1.isSending = true ∧
      (∀ (ticks : List (Nat × Nat)) (tick : Nat × Nat),
        (quietRun app (update app s true t [] m).1 ticks).1.isSending = true ∧
        (quietRun app (update app s true t [] m).1 ticks).1.serverConnected = false ∧
        (quietRun app (update app s true t [] m).1 ticks).1.serverAddress = broadcast ∧
        (quietRun app (update app s true t [] m).1 ticks).1.curMsgId = s.curMsgId ∧
        (quietRun app (update app s true t [] m).1 ticks).1.sendBuffer = s.sendBuffer ∧
        (quietRun app (update app s true t [] m).1 ticks).1.sendBufferSize
          = s.sendBufferSize ∧
        (quietRun app (update app s true t [] m).1 ticks).1.isBlocking = s.isBlocking ∧
        (quietRun app (update app s true t [] m).1 ticks).1.lastSentTime
          = lastTransmissionTime app (update app s true t [] m).1 s.lastSentTime ticks ∧
        transmissions
            (update app (quietRun app (update app s true t [] m).1 ticks).1 true tick.1 []
              tick.2).2
          = (if ((tick.1 : Int)
                  - (lastTransmissionTime app (update app s true t [] m).1 s.lastSentTime
                      ticks : Int)) % 4294967296 > 10000 then
              [Event.sendPacket broadcast s.serverPort (s.sendBuffer.take s.sendBufferSize)]
             else []))) := by
  have hc1 : ulongSub t s.lastSentTime > CONNECTED_SEND_INTERVAL
      ↔ ((t : Int) - (s.lastSentTime : Int)) % 4294967296 > 1000 := by
    unfold ulongSub ULONG CONNECTED_SEND_INTERVAL
    omega
  have hi : ∀ a b : Nat, ulongSub a b > DISCONNECTED_SEND_INTERVAL
      ↔ ((a : Int) - (b : Int)) % 4294967296 > 10000 := by
    intro a b
    unfold ulongSub ULONG DISCONNECTED_SEND_INTERVAL
    omega
  refine ⟨?_, ?_⟩
  · intro hle
    have hw : s.wifiConnected = true := reachable_connectivity app s hr hc
    have hno : ¬ (ulongSub t s.lastSentTime > CONNECTED_SEND_INTERVAL) :=
      fun hgt => absurd (hc1.mp hgt) (not_lt.mpr hle)
    rw [update_quiet_sending app s t m hs]
    simp only [hc, if_true]
    rw [if_neg hno]
    cases s
    simp_all
  · intro he
    obtain ⟨g1, g2, g3⟩ := update_give_up_cases app s t m hr hs hc hn (hc1.mpr he)
    refine ⟨g1, g2, ?_⟩
    intro ticks tick
    obtain ⟨b1, b2, b3, b4, b5, b6, b7, b8⟩ := g3 ticks tick
    have hl : (update app s true t [] m).1.lastSentTime = s.lastSentTime := by
      rw [g1]
    have hlt := lastTransmissionTime_eq app ticks (update app s true t [] m).1 g2
    rw [hl] at hlt
    refine ⟨b1, b2, b3, b4, b5, b6, b7, hlt.symm, ?_⟩
    rw [b8, hlt]
    exact if_congr (hi _ _) rfl rfl

/-- Witness for C19: command 7 on the connected device after five transmissions,
the last one at 4104 ms.  The tick at 5104 ms, 1000 ms later, changes nothing; the
tick at 5105 ms gives up and leaves the slot occupied.  After it the tick at
14104 ms, 10000 ms after the last transmission, transmits nothing and the tick at
14105 ms retransmits the datagram to the broadcast address; after that
retransmission the tick at 24105 ms transmits nothing and the tick at 24106 ms
retransmits. -/
theorem C19_give_up_keeps_slot_witness :
    Reachable app42 dev0_sent5times ∧
    dev0_sent5times.isSending = true ∧ dev0_sent5times.serverConnected = true ∧
    dev0_sent5times.sentCount ≥ 5 ∧ dev0_sent5times.lastSentTime = 4104 ∧
    ((5105 : Int) - (dev0_sent5times.lastSentTime : Int)) % 4294967296 > 1000 ∧
    (update app42 dev0_sent5times true 5105 [] 5105).1.isSending = true ∧
    (update app42 dev0_sent5times true 5105 [] 5105).1.serverConnected = false ∧
    (update app42 dev0_sent5times true 5105 [] 5105).2 = [Event.onServerDisconnected 5105] ∧
    update app42 dev0_sent5times true 5104 [] 5104 = (dev0_sent5times, []) ∧
    transmissions (update app42 (update app42 dev0_sent5times true 5105 [] 5105).1 true
      14104 [] 14104).2 = [] ∧
    transmissions (update app42 (update app42 dev0_sent5times true 5105 [] 5105).1 true
      14105 [] 14105).2
      = [Event.sendPacket broadcast 4000
          [7, 0, 0, 0, 0, 0, 0, 0, 2, 0, 7, 0, 1, 0, 2, 0, 3, 0, 4, 0]] ∧
    transmissions (update app42
      (quietRun app42 (update app42 dev0_sent5times true 5105 [] 5105).1
        [(14105, 14105)]).1 true 24105 [] 24105).2 = [] ∧
    transmissions (update app42
      (quietRun app42 (update app42 dev0_sent5times true 5105 [] 5105).1
        [(14105, 14105)]).1 true 24106 [] 24106).2
      = [Event.sendPacket broadcast 4000
          [7, 0, 0, 0, 0, 0, 0, 0, 2, 0, 7, 0, 1, 0, 2, 0, 3, 0, 4, 0]] :=
  ⟨reachable_quietRun app42 _ _
      (Reachable.send _ _ _ _ _ _ _ _ _ _ _ reachable_dev0_connected),
   by decide, by decide, by decide, by decide, by decide,
   ((C19_give_up_keeps_slot app42 dev0_sent5times 5105 5105
      (reachable_quietRun app42 _ _
        (Reachable.send _ _ _ _ _ _ _ _ _ _ _ reachable_dev0_connected))
      (by decide) (by decide) (by decide)).2 (by decide)).2.1,
   by decide, by decide, by decide, by decide, by decide, by decide, by decide⟩

/-! ## INITACK and the outbound slot -/

theorem sessionEvents_cancelled (s : State) (t : Nat) :
    cancelled (sessionEvents s t) = [] := by
  cases h1 : s.wifiConnected <;> cases h2 : s.serverConnected <;>
    simp [sessionEvents, cancelled, h1, h2]

/-- C20. In a state with the slot occupied, a well-formed INITACK clears `isSending`
whatever command is buffered and whatever msgId the packet carries; the trace
consists of the link-up and server-session-up notifications due on arrival only, so
neither packet-delivered nor packet-cancelled is fired and nothing is transmitted;
`curMsgId` and the send buffer stay as they were. -/
theorem C20_initack_retires_slot (app : AppHandler) (s : State) (t : Nat) (src : IPAddress)
    (port : Nat) (p : List Nat) (hwf : wellFormed s p) (hack : pktCommand p = INITACK)
    (_hs : s.isSending = true) :
    (onPacketReceived app s t src port p).1.isSending = false ∧
    (onPacketReceived app s t src port p).2 = sessionEvents s t ∧
    delivered (onPacketReceived app s t src port p).2 = [] ∧
    cancelled (onPacketReceived app s t src port p).2 = [] ∧
    transmissions (onPacketReceived app s t src port p).2 = [] ∧
    (onPacketReceived app s t src port p).1.curMsgId = s.curMsgId ∧
    (onPacketReceived app s t src port p).1.sendBuffer = s.sendBuffer := by
  obtain ⟨_, _, _, _, _, _, f7, f8, _⟩ := sessionUp_fields s t src
  rw [onPacketReceived_initack app s t src port p hwf hack]
  exact ⟨rfl, rfl, sessionEvents_delivered s t, sessionEvents_cancelled s t,
    sessionEvents_transmissions s t, f8, f7⟩

/-- Witness for C20: command 7 with id 2 is in flight and an INITACK carrying id 9
arrives. -/
theorem C20_initack_retires_slot_witness :
    wellFormed dev0_sent7 initack9 ∧ pktCommand initack9 = INITACK ∧
    dev0_sent7.isSending = true ∧ headerOf dev0_sent7.sendBuffer = (2, 7, 1, 2, 3, 4) ∧
    pktMsgId initack9 = 9 ∧
    (onPacketReceived app42 dev0_sent7 200 peer 1 initack9).1.isSending = false :=
  ⟨by decide, by decide, by decide, by decide, by decide,
   (C20_initack_retires_slot app42 dev0_sent7 200 peer 1 initack9 (by decide) (by decide)
      (by decide)).1⟩

/-! ## Identifier 0 after a reset -/

/-- INIT and INITACK handling sets the cached id to 0 and keeps the cached response
and the device id. -/
theorem onPacketReceived_reset (app : AppHandler) (s : State) (t : Nat) (src : IPAddress)
    (port : Nat) (q : List Nat) (hwf : wellFormed s q)
    (hc : pktCommand q = INIT ∨ pktCommand q = INITACK) :
    (onPacketReceived app s t src port q).1.lastReceivedMsgId = 0 ∧
    (onPacketReceived app s t src port q).1.lastResponse = s.lastResponse ∧
    (onPacketReceived app s t src port q).1.deviceId = s.deviceId := by
  obtain ⟨_, f2, _, f4, _⟩ := sessionUp_fields s t src
  rcases hc with hc | hc
  · rw [onPacketReceived_init app s t src port q hwf hc]
    exact ⟨rfl, f2, f4⟩
  · rw [onPacketReceived_initack app s t src port q hwf hc]
    exact ⟨rfl, f2, f4⟩

/-- A well-formed application command with id 0 arriving while the cached id is 0:
the repeat branch. -/
theorem onPacketReceived_zero (app : AppHandler) (s : State) (t : Nat) (src : IPAddress)
    (port : Nat) (p : List Nat) (hwf : wellFormed s p) (hcmd : isAppCommand (pktCommand p))
    (hL : s.lastReceivedMsgId = 0) (hm : pktMsgId p = 0) :
    handlerCalls (onPacketReceived app s t src port p).2 = [] ∧
    (onPacketReceived app s t src port p).1.lastReceivedMsgId = 0 ∧
    (onPacketReceived app s t src port p).1.lastResponse = s.lastResponse ∧
    transmissions (onPacketReceived app s t src port p).2
      = [Event.sendPacket (replyDest s src) s.serverPort
          ((writeHeader s.replyPacket 0 MSGACK s.lastResponse 0 0 0).take 20)] := by
  have hrep : pktMsgId p = s.lastReceivedMsgId := by rw [hm, hL]
  obtain ⟨f1, f2, _⟩ := sessionUp_fields s t src
  rw [onPacketReceived_repeat app s t src port p hwf hcmd hrep, hm]
  refine ⟨?_, f1.trans hL, f2, ?_⟩
  · simp only [handlerCalls_append, sessionEvents_handlerCalls]
    simp [handlerCalls]
  · simp only [transmissions_append, sessionEvents_transmissions]
    simp [transmissions]

/-- C21. With the cached id `lastReceivedMsgId = 0`, a well-formed application
command carrying msgId 0 is not passed to the application handler: it takes the
repeat branch, the cache stays as it was, and one MSGACK is sent, which for a reply
buffer of at least 20 bytes and a 16-bit cached response decodes as
(0, MSGACK, lastResponse, 0, 0, 0).  INIT and INITACK handling sets the cached id to
0 and leaves `lastResponse` unchanged, so right after either of them a command with
msgId 0 is answered with the response cached before the reset. -/
theorem C21_id_zero_after_reset (app : AppHandler) (s : State) (t : Nat) (src : IPAddress)
    (port : Nat) (p : List Nat) (hwf : wellFormed s p) (hcmd : isAppCommand (pktCommand p))
    (hL : s.lastReceivedMsgId = 0) (hm : pktMsgId p = 0) :
    handlerCalls (onPacketReceived app s t src port p).2 = [] ∧
    (onPacketReceived app s t src port p).1.lastReceivedMsgId = 0 ∧
    (onPacketReceived app s t src port p).1.lastResponse = s.lastResponse ∧
    (∃ d : List Nat,
      transmissions (onPacketReceived app s t src port p).2
        = [Event.sendPacket (replyDest s src) s.serverPort d] ∧
      (20 ≤ s.replyPacket.length → s.lastResponse < U16 →
        d.length = 20 ∧ headerOf d = (0, MSGACK, s.lastResponse, 0, 0, 0))) ∧
    (∀ (s0 : State) (t0 : Nat) (src0 : IPAddress) (port0 : Nat) (q : List Nat),
      wellFormed s0 q → (pktCommand q = INIT ∨ pktCommand q = INITACK) → wellFormed s0 p →
      (onPacketReceived app s0 t0 src0 port0 q).1.lastReceivedMsgId = 0 ∧
      (onPacketReceived app s0 t0 src0 port0 q).1.lastResponse = s0.lastResponse ∧
      handlerCalls
          (onPacketReceived app (onPacketReceived app s0 t0 src0 port0 q).1 t src port p).2
        = [] ∧
      (onPacketReceived app (onPacketReceived app s0 t0 src0 port0 q).1 t src port
          p).1.lastResponse = s0.lastResponse) := by
  obtain ⟨z1, z2, z3, z4⟩ := onPacketReceived_zero app s t src port p hwf hcmd hL hm
  refine ⟨z1, z2, z3, ⟨(writeHeader s.replyPacket 0 MSGACK s.lastResponse 0 0 0).take 20, z4, ?_⟩,
    ?_⟩
  · intro hbuf hresp
    exact ⟨length_reply _ _ _ _ _ _ _ hbuf,
      headerOf_writeHeader _ _ _ _ _ _ _ hbuf zero_lt_U16 MSGACK_lt hresp zero_lt_U16
        zero_lt_U16 zero_lt_U16⟩
  · intro s0 t0 src0 port0 q hq hc hp
    obtain ⟨r1, r2, r3⟩ := onPacketReceived_reset app s0 t0 src0 port0 q hq hc
    have hp1 : wellFormed (onPacketReceived app s0 t0 src0 port0 q).1 p :=
      ⟨hp.1, by rw [hp.2, r3]⟩
    obtain ⟨y1, _, y3, _⟩ := onPacketReceived_zero app _ t src port p hp1 hcmd r1 hm
    exact ⟨r1, r2, y1, y3.trans r2⟩

/-- Witness for C21: the device cached response 42 for id 10, an INITACK reset the
cached id, and a command with id 0 arrives: the handler is not called and the reply
is MSGACK(0, 42). -/
theorem C21_id_zero_after_reset_witness :
    wellFormed dev0_reset pkt0 ∧ isAppCommand (pktCommand pkt0) ∧
    dev0_reset.lastReceivedMsgId = 0 ∧ pktMsgId pkt0 = 0 ∧ dev0_reset.lastResponse = 42 ∧
    handlerCalls (onPacketReceived app42 dev0_reset 80 peer 1 pkt0).2 = [] ∧
    transmissions (onPacketReceived app42 dev0_reset 80 peer 1 pkt0).2
      = [Event.sendPacket peer 4000
          [7, 0, 0, 0, 0, 0, 0, 0, 0, 0, 253, 255, 42, 0, 0, 0, 0, 0, 0, 0]] :=
  ⟨by decide, by decide, by decide, by decide, by decide,
   (C21_id_zero_after_reset app42 dev0_reset 80 peer 1 pkt0 (by decide) (by decide)
      (by decide) (by decide)).1,
   by decide⟩

end RemoteDevice
